import Mathlib

/-!
# libgstftl: demuxer, connection gate, status loop and state changes

A shallow embedding of
* `get_next_nalu` and `gst_ftl_video_sink_render` (src/gstftlvideosink.c),
* `gst_ftl_audio_sink_render` (src/ext/ftl/gstftlaudiosink.c),
* `gst_ftl_sink_connect`, `gst_ftl_sink_disconnect`, `gst_ftl_sink_change_state`,
  `gst_ftl_sink_status_loop` and `gst_ftl_sink_handle_event` (src/gstftlsink.c),
* `gst_ftl_log_severity_to_level` (src/ext/ftl/gstftlenums.c),
followed by the properties proved about them.

Pointers into the mapped buffer are offsets from `map.data`.  `guint8` is
`Fin 256`; `guint32` arithmetic is reduced modulo `2 ^ 32` where the source
lets it wrap; `gsize` subtraction wraps below zero.  The types of ftl.h and of
GStreamer are modelled as far as the code reads them.
-/

namespace GstFtl

/-! ## Bytes and machine arithmetic -/

/-- A `guint8`. -/
abbrev Octet := Fin 256

/-- Subtraction of two `gsize` values (64 bit, unsigned): a difference below
zero wraps around to `a + 2 ^ 64 - b`. -/
def gsize_sub (a b : Nat) : Nat :=
  if b ≤ a then a - b else a + 2 ^ 64 - b

/-! ## get_next_nalu (src/gstftlvideosink.c, lines 88-106) -/

/-- The `for` loop of `get_next_nalu`.  The list holds the bytes
`input[pos], ..., input[len - 1]` still to be read, `start_code` is the
`guint32` shift register and `pos` the loop counter.  The result is `none`
when the loop runs to `pos = len`, and otherwise the returned pointer (as an
offset from `input`) together with the value stored through `last_len`. -/
def get_next_nalu_loop : List Octet → Nat → Nat → Option (Nat × Nat)
  | [], _, _ => none
  | b :: rest, start_code, pos =>
    let start_code := ((start_code <<< 8) % 2 ^ 32) ||| b.val
    if start_code &&& 0xFFFFFF = 1 then
      some (pos + 1, gsize_sub pos (if start_code = 1 then 3 else 2))
    else
      get_next_nalu_loop rest start_code (pos + 1)

/-- The function `get_next_nalu (input, len, last_len)`: `input` is the list
of the `len` bytes at the pointer.  Returns the pointer result (`none` for
`NULL`, else the offset from `input`) and the value of `*last_len`. -/
def get_next_nalu (input : List Octet) : Option Nat × Nat :=
  match get_next_nalu_loop input 0xFFFFFFFF 0 with
  | some (next, last_len) => (some next, last_len)
  | none => (none, input.length)

/-! ## The demux loop of gst_ftl_video_sink_render (lines 138-176) -/

/-- What one pass of the `while (data != NULL)` loop sees before its `switch`:
the unit pointer `data` (offset from `map.data`), the `nalu_len` written by
`get_next_nalu`, `nalu_type = data[0] & 0x1f`, and `next` (`none` for `NULL`). -/
structure NaluRecord where
  data : Nat
  nalu_len : Nat
  nalu_type : Nat
  next : Option Nat
  deriving DecidableEq, Repr

/-- The read `data[0]` at offset `data` of the mapped bytes.  `data` can be
equal to `map.size` (a start code that ends the buffer); the byte found there
is whatever memory holds after the mapping, here `past`. -/
def read_data0 (input : List Octet) (past : Octet) (data : Nat) : Octet :=
  input.getD data past

/-- Lines 141-147 and 175 of the loop with the `switch` left out: every unit
the loop visits when no unit stops it.  `input` is `map.data[0 .. map.size)`,
the counter bounds the number of passes. -/
def nalu_scan_loop (input : List Octet) (past : Octet) :
    Nat → Option Nat → List NaluRecord
  | _, none => []
  | 0, some _ => []
  | fuel + 1, some data =>
    let r := get_next_nalu (input.drop data)
    let next := r.1.map (fun off => data + off)
    let nalu_len := r.2
    let nalu_type := (read_data0 input past data).val &&& 0x1f
    { data := data, nalu_len := nalu_len, nalu_type := nalu_type, next := next }
      :: nalu_scan_loop input past fuel next

/-- The units of a mapped buffer in scan order: line 138 followed by the loop.
A pass moves `data` forward by at least three bytes, so `map.size + 1` passes
are never used up (`nalu_scan_shape`). -/
def nalu_scan (input : List Octet) (past : Octet) : List NaluRecord :=
  nalu_scan_loop input past (input.length + 1) (get_next_nalu input).1

/-! ## The session object and the ingest provider -/

/-- Status codes of the ingest library (`ftl_status_t` of ftl.h, which is not
part of this repository): success, the poll timeout, or any other enumerator
by its number. -/
inductive ftl_status_t where
  | FTL_SUCCESS
  | FTL_STATUS_TIMEOUT
  | failure (code : Nat)
  deriving DecidableEq, Repr

/-- Event types of a status event (`ftl_status_event_types_t` of ftl.h): the
enumerators src/ext/ftl/gstftlenums.c names, or any other value. -/
inductive ftl_status_event_types_t where
  | FTL_STATUS_EVENT_TYPE_UNKNOWN
  | FTL_STATUS_EVENT_TYPE_CONNECTED
  | FTL_STATUS_EVENT_TYPE_DISCONNECTED
  | FTL_STATUS_EVENT_TYPE_DESTROYED
  | FTL_STATUS_EVENT_INGEST_ERROR_CODE
  | other (value : Int)
  deriving DecidableEq, Repr

/-- Event reasons of a status event (`ftl_status_event_reasons_t` of ftl.h):
the enumerators src/ext/ftl/gstftlenums.c names, or any other value. -/
inductive ftl_status_event_reasons_t where
  | FTL_STATUS_EVENT_REASON_NONE
  | FTL_STATUS_EVENT_REASON_NO_MEDIA
  | FTL_STATUS_EVENT_REASON_API_REQUEST
  | FTL_STATUS_EVENT_REASON_UNKNOWN
  | other (value : Int)
  deriving DecidableEq, Repr

/-- Media kinds of `ftl_ingest_send_media_dts`. -/
inductive ftl_media_data_type_t where
  | FTL_AUDIO_DATA
  | FTL_VIDEO_DATA
  deriving DecidableEq, Repr

/-- A call made on the ingest handle.  For `send_media_dts` the arguments are
the media kind, the timestamp in microseconds, the payload pointer (offset
from `map.data`), the payload length and the end-of-frame flag. -/
inductive ProviderCall where
  | connect
  | disconnect
  | send_media_dts (media_type : ftl_media_data_type_t) (dts_usec : Nat)
      (data : Nat) (len : Nat) (last : Bool)
  deriving DecidableEq, Repr

/-- The behaviour of the ingest library: the status each of its calls returns,
as a function of the calls made on the handle before it. -/
structure Provider where
  connect : List ProviderCall → ftl_status_t
  disconnect : List ProviderCall → ftl_status_t

/-- Errors posted on the bus with `GST_ELEMENT_ERROR`, and with
`GST_ELEMENT_ERROR_WITH_DETAILS` for `connection_terminated`, which carries the
details `reason` and `error-code`. -/
inductive ElementError where
  | failed_to_connect (status_code : ftl_status_t)
  | buffer_without_dts
  | failed_to_map_buffer
  | invalid_nalu_type_0
  | no_nalu_in_buffer
  | buffer_without_timestamp
  | connection_terminated (reason : ftl_status_event_reasons_t)
      (error_code : ftl_status_t)
  deriving DecidableEq, Repr

/-- The fields of `struct _GstFtlSink` the connection gate uses, with two
histories added: the calls made on `handle` and the element errors posted,
oldest first. -/
structure GstFtlSink where
  connected : Bool
  calls : List ProviderCall
  errors : List ElementError
  deriving DecidableEq, Repr

/-- The function `gst_ftl_sink_connect` (src/gstftlsink.c, lines 337-358); the
mutex is not modelled.  Returns the `gboolean` result and the new state. -/
def gst_ftl_sink_connect (p : Provider) (self : GstFtlSink) : Bool × GstFtlSink :=
  let connected := self.connected
  if !connected then
    let status_code := p.connect self.calls
    let self := { self with calls := self.calls ++ [ProviderCall.connect] }
    if status_code = ftl_status_t.FTL_SUCCESS then
      (true, { self with connected := true })
    else
      (connected, { self with
        errors := self.errors ++ [ElementError.failed_to_connect status_code] })
  else
    (connected, self)

/-- The function `gst_ftl_sink_disconnect` (src/gstftlsink.c, lines 360-379);
a failure is only logged.  Returns `!connected` and the new state. -/
def gst_ftl_sink_disconnect (p : Provider) (self : GstFtlSink) : Bool × GstFtlSink :=
  let connected := self.connected
  if connected then
    let status_code := p.disconnect self.calls
    let self := { self with calls := self.calls ++ [ProviderCall.disconnect] }
    if status_code = ftl_status_t.FTL_SUCCESS then
      (!false, { self with connected := false })
    else
      (!connected, self)
  else
    (!connected, self)

/-! ## gst_ftl_video_sink_render (src/gstftlvideosink.c, lines 108-189) -/

/-- The two flow returns the render functions use. -/
inductive GstFlowReturn where
  | GST_FLOW_OK
  | GST_FLOW_ERROR
  deriving DecidableEq, Repr

/-- A `GstBuffer` as the render functions see it: its timestamps (`none` is
`GST_CLOCK_TIME_NONE`), whether `gst_buffer_map` succeeds, the mapped bytes
`map.data[0 .. map.size)` and the byte memory holds right after them. -/
structure GstBuffer where
  dts : Option Nat
  pts : Option Nat
  mappable : Bool
  data : List Octet
  past : Octet

/-- Nanoseconds per microsecond (`GST_USECOND` of GStreamer). -/
def GST_USECOND : Nat := 1000

/-- GStreamer library function `gst_util_uint64_scale_round`: `val * num /
denom` rounded to nearest, computed without intermediate overflow and
saturating at `G_MAXUINT64`. -/
def gst_util_uint64_scale_round (val num denom : Nat) : Nat :=
  min ((val * num + denom / 2) / denom) (2 ^ 64 - 1)

/-- How the `while` loop of the render function ends: by the `return
GST_FLOW_ERROR` of `case 0`, or by `data == NULL` with the final
`num_nalus`. -/
inductive LoopOutcome where
  | flow_error (parent : GstFtlSink)
  | done (num_nalus : Nat) (parent : GstFtlSink)
  deriving DecidableEq, Repr

/-- The `while (data != NULL)` loop, lines 141-176.  `num_nalus` is a `guint`
(32 bit).  `bytes_sent` and the value returned by the provider only feed log
lines and are left out.  The result is `none` when the pass counter runs out. -/
def video_render_loop (input : List Octet) (past : Octet) (time : Nat) :
    Nat → Option Nat → Nat → GstFtlSink → Option LoopOutcome
  | _, none, num_nalus, parent => some (LoopOutcome.done num_nalus parent)
  | 0, some _, _, _ => none
  | fuel + 1, some data, num_nalus, parent =>
    let r := get_next_nalu (input.drop data)
    let next := r.1.map (fun off => data + off)
    let nalu_len := r.2
    let nalu_type := (read_data0 input past data).val &&& 0x1f
    let num_nalus := (num_nalus + 1) % 2 ^ 32
    if nalu_type = 0 then
      some (LoopOutcome.flow_error { parent with
        errors := parent.errors ++ [ElementError.invalid_nalu_type_0] })
    else if nalu_type = 9 then
      video_render_loop input past time fuel next num_nalus parent
    else
      let last := next.isNone
      let call := ProviderCall.send_media_dts ftl_media_data_type_t.FTL_VIDEO_DATA
        (gst_util_uint64_scale_round time 1 GST_USECOND) data nalu_len last
      video_render_loop input past time fuel next num_nalus
        { parent with calls := parent.calls ++ [call] }

/-- The function `gst_ftl_video_sink_render`.  `segment` stands for
`gst_segment_to_running_time (&sink->segment, GST_FORMAT_TIME, ·)`.  The result
is `none` only if the loop ran out of passes, which does not happen
(`video_render_returns`). -/
def gst_ftl_video_sink_render (p : Provider) (segment : Nat → Nat)
    (parent : GstFtlSink) (buffer : GstBuffer) :
    Option (GstFlowReturn × GstFtlSink) :=
  let c := gst_ftl_sink_connect p parent
  let parent := c.2
  if !c.1 then
    some (GstFlowReturn.GST_FLOW_ERROR, parent)
  else
    match buffer.dts with
    | none =>
      some (GstFlowReturn.GST_FLOW_ERROR, { parent with
        errors := parent.errors ++ [ElementError.buffer_without_dts] })
    | some time =>
      let time := segment time
      if !buffer.mappable then
        some (GstFlowReturn.GST_FLOW_ERROR, { parent with
          errors := parent.errors ++ [ElementError.failed_to_map_buffer] })
      else
        let data := (get_next_nalu buffer.data).1
        match video_render_loop buffer.data buffer.past time
            (buffer.data.length + 1) data 0 parent with
        | none => none
        | some (LoopOutcome.flow_error parent) =>
          some (GstFlowReturn.GST_FLOW_ERROR, parent)
        | some (LoopOutcome.done num_nalus parent) =>
          if num_nalus = 0 then
            some (GstFlowReturn.GST_FLOW_ERROR, { parent with
              errors := parent.errors ++ [ElementError.no_nalu_in_buffer] })
          else
            some (GstFlowReturn.GST_FLOW_OK, parent)

/-! ## gst_ftl_audio_sink_render (src/ext/ftl/gstftlaudiosink.c, lines 79-116) -/

/-- GStreamer macro `GST_BUFFER_DTS_OR_PTS`: the DTS when it is valid, else
the PTS. -/
def GST_BUFFER_DTS_OR_PTS (buffer : GstBuffer) : Option Nat :=
  match buffer.dts with
  | some t => some t
  | none => buffer.pts

/-- GStreamer macro `GST_TIME_AS_USECONDS`: nanoseconds divided by 1000. -/
def GST_TIME_AS_USECONDS (time : Nat) : Nat := time / 1000

/-- The function `gst_ftl_audio_sink_render`.  `segment` stands for
`gst_segment_to_running_time (&sink->segment, GST_FORMAT_TIME, ·)`.  A failed
mapping is only logged.  The whole mapping is sent as one unit: pointer
`map.data` (offset 0), length `map.size`, end-of-frame flag 1. -/
def gst_ftl_audio_sink_render (p : Provider) (segment : Nat → Nat)
    (parent : GstFtlSink) (buffer : GstBuffer) : GstFlowReturn × GstFtlSink :=
  let c := gst_ftl_sink_connect p parent
  let parent := c.2
  if !c.1 then
    (GstFlowReturn.GST_FLOW_ERROR, parent)
  else
    match GST_BUFFER_DTS_OR_PTS buffer with
    | none =>
      (GstFlowReturn.GST_FLOW_ERROR, { parent with
        errors := parent.errors ++ [ElementError.buffer_without_timestamp] })
    | some time =>
      let time := segment time
      if !buffer.mappable then
        (GstFlowReturn.GST_FLOW_ERROR, parent)
      else
        let call := ProviderCall.send_media_dts ftl_media_data_type_t.FTL_AUDIO_DATA
          (GST_TIME_AS_USECONDS time) 0 buffer.data.length true
        (GstFlowReturn.GST_FLOW_OK, { parent with calls := parent.calls ++ [call] })

/-! ## Log severities (src/ext/ftl/gstftlenums.c, lines 30-47) -/

/-- Log severities of the ingest library (`ftl_log_severity_t` of ftl.h): the
five enumerators, or any other value. -/
inductive ftl_log_severity_t where
  | FTL_LOG_CRITICAL
  | FTL_LOG_ERROR
  | FTL_LOG_WARN
  | FTL_LOG_INFO
  | FTL_LOG_DEBUG
  | other (value : Int)
  deriving DecidableEq, Repr

/-- Debug levels of GStreamer (`GstDebugLevel`). -/
inductive GstDebugLevel where
  | GST_LEVEL_NONE
  | GST_LEVEL_ERROR
  | GST_LEVEL_WARNING
  | GST_LEVEL_FIXME
  | GST_LEVEL_INFO
  | GST_LEVEL_DEBUG
  | GST_LEVEL_LOG
  | GST_LEVEL_TRACE
  | GST_LEVEL_MEMDUMP
  deriving DecidableEq, Repr

/-- The function `gst_ftl_log_severity_to_level`. -/
def gst_ftl_log_severity_to_level : ftl_log_severity_t → GstDebugLevel
  | ftl_log_severity_t.FTL_LOG_CRITICAL => GstDebugLevel.GST_LEVEL_ERROR
  | ftl_log_severity_t.FTL_LOG_ERROR => GstDebugLevel.GST_LEVEL_ERROR
  | ftl_log_severity_t.FTL_LOG_WARN => GstDebugLevel.GST_LEVEL_WARNING
  | ftl_log_severity_t.FTL_LOG_INFO => GstDebugLevel.GST_LEVEL_INFO
  | ftl_log_severity_t.FTL_LOG_DEBUG => GstDebugLevel.GST_LEVEL_DEBUG
  | _ => GstDebugLevel.GST_LEVEL_LOG

/-! ## Status messages (the members of `ftl_status_msg_t` the loop reads) -/

/-- Bitrate change types (`ftl_bitrate_changed_type_t`). -/
inductive ftl_bitrate_changed_type_t where
  | FTL_BITRATE_DECREASED
  | FTL_BITRATE_INCREASED
  | FTL_BITRATE_STABILIZED
  | other (value : Int)
  deriving DecidableEq, Repr

/-- Bitrate change reasons (`ftl_bitrate_changed_reason_t`). -/
inductive ftl_bitrate_changed_reason_t where
  | FTL_BANDWIDTH_CONSTRAINED
  | FTL_UPGRADE_EXCESSIVE
  | FTL_BANDWIDTH_AVAILABLE
  | FTL_STABILIZE_ON_LOWER_BITRATE
  | FTL_STABILIZE_ON_ORIGINAL_BITRATE
  | other (value : Int)
  deriving DecidableEq, Repr

/-- Payload of a log message. -/
structure ftl_status_log_msg_t where
  log_level : ftl_log_severity_t
  string : String
  deriving DecidableEq, Repr

/-- Payload of a connection event. -/
structure ftl_status_event_msg_t where
  type : ftl_status_event_types_t
  reason : ftl_status_event_reasons_t
  error_code : ftl_status_t
  deriving DecidableEq, Repr

/-- Payload of a packet statistics message (all `int64_t`). -/
structure ftl_packet_stats_msg_t where
  period : Int
  sent : Int
  nack_reqs : Int
  lost : Int
  recovered : Int
  late : Int
  deriving DecidableEq, Repr

/-- Payload of an instant packet statistics message (`period` is `int64_t`,
the others `int`). -/
structure ftl_packet_stats_instant_msg_t where
  period : Int
  min_rtt : Int
  max_rtt : Int
  avg_rtt : Int
  min_xmit_delay : Int
  max_xmit_delay : Int
  avg_xmit_delay : Int
  deriving DecidableEq, Repr

/-- Payload of a video frame statistics message (`int64_t` but for the last
two, which are `int`). -/
structure ftl_video_frame_stats_msg_t where
  period : Int
  frames_queued : Int
  frames_sent : Int
  bytes_queued : Int
  bytes_sent : Int
  bw_throttling_count : Int
  queue_fullness : Int
  max_frame_size : Int
  deriving DecidableEq, Repr

/-- Payload of a bitrate change message; the three floating point members are
taken as exact rational numbers. -/
structure ftl_bitrate_changed_msg_t where
  bitrate_changed_type : ftl_bitrate_changed_type_t
  bitrate_changed_reason : ftl_bitrate_changed_reason_t
  current_encoding_bitrate : Nat
  previous_encoding_bitrate : Nat
  nacks_to_frames_ratio : Rat
  avg_rtt : Rat
  avg_frames_dropped : Nat
  queue_fullness : Rat
  deriving DecidableEq, Repr

/-- The message kinds the `switch` sends to its last group of labels:
`FTL_STATUS_NONE`, `FTL_STATUS_AUDIO_PACKETS`, `FTL_STATUS_AUDIO`,
`FTL_STATUS_FRAMES_DROPPED`, `FTL_STATUS_NETWORK` and `default`. -/
inductive ftl_unhandled_status_t where
  | FTL_STATUS_NONE
  | FTL_STATUS_AUDIO_PACKETS
  | FTL_STATUS_AUDIO
  | FTL_STATUS_FRAMES_DROPPED
  | FTL_STATUS_NETWORK
  | unknown (value : Int)
  deriving DecidableEq, Repr

/-- A status message: `message.type` together with the member of the union
`message.msg` that belongs to it. -/
inductive ftl_status_msg_t where
  | log (msg : ftl_status_log_msg_t)
  | event (msg : ftl_status_event_msg_t)
  | video_packets (msg : ftl_packet_stats_msg_t)
  | video_packets_instant (msg : ftl_packet_stats_instant_msg_t)
  | video (msg : ftl_video_frame_stats_msg_t)
  | bitrate_changed (msg : ftl_bitrate_changed_msg_t)
  | unhandled (type : ftl_unhandled_status_t)
  deriving DecidableEq, Repr

/-! ## The stats structure -/

/-- A field value of the stats structure, with its GType. -/
inductive GValue where
  | clock_time (v : Nat)
  | int64 (v : Int)
  | int (v : Int)
  deriving DecidableEq, Repr

/-- A `GstStructure`: its name and its fields in order. -/
structure GstStructure where
  name : String
  fields : List (String × GValue)
  deriving DecidableEq, Repr

/-- GStreamer library function `gst_structure_new_id_empty (ftl_stats_id)`,
with `ftl_stats_id` the quark of "ftl-stats". -/
def gst_structure_new_id_empty : GstStructure := { name := "ftl-stats", fields := [] }

/-- Setting one field of a structure (GStreamer): the value of a field of that
name is replaced, else the field is added at the end. -/
def gst_structure_set_field : List (String × GValue) → String → GValue →
    List (String × GValue)
  | [], name, v => [(name, v)]
  | (n, w) :: rest, name, v =>
    if n = name then (n, v) :: rest else (n, w) :: gst_structure_set_field rest name v

/-- GStreamer library function `gst_structure_set`: the listed fields are set
one after the other. -/
def gst_structure_set (s : GstStructure) (new : List (String × GValue)) : GstStructure :=
  { s with fields := new.foldl (fun fs f => gst_structure_set_field fs f.1 f.2) s.fields }

/-- The value of a field of a structure, if the field is there. -/
def gst_structure_get (s : GstStructure) (name : String) : Option GValue :=
  (s.fields.find? (fun f => decide (f.1 = name))).map (fun f => f.2)

/-- Nanoseconds per millisecond (`GST_MSECOND` of GStreamer). -/
def GST_MSECOND : Int := 1000000

/-- The value `msg->period * GST_MSECOND` as passed for a field of type
`GST_TYPE_CLOCK_TIME`: the 64-bit product read as unsigned. -/
def period_clock_time (period : Int) : GValue :=
  GValue.clock_time ((period * GST_MSECOND) % 2 ^ 64).toNat

/-! ## gst_ftl_sink_status_loop (src/gstftlsink.c, lines 455-603) -/

/-- Log lines of the status loop (the two trace lines around the polls are
left out). -/
inductive StatusLog where
  | ftl_log (level : GstDebugLevel) (text : String)
  | event (type : ftl_status_event_types_t) (reason : ftl_status_event_reasons_t)
      (error_code : ftl_status_t)
  | packet_stats (msg : ftl_packet_stats_msg_t)
  | instant_packet_stats (msg : ftl_packet_stats_instant_msg_t)
  | video_frame_stats (msg : ftl_video_frame_stats_msg_t)
  | bitrate_change (msg : ftl_bitrate_changed_msg_t) (nack_value : Rat) (nack_unit : String)
  | unhandled_status_message (type : ftl_unhandled_status_t)
  | status_queue_empty
  | failed_to_get_status (status_code : ftl_status_t)
  deriving DecidableEq, Repr

/-- What one call of the status loop does that can be observed: its log lines,
the element errors it posts and the element messages it posts, oldest first. -/
structure StatusPass where
  logs : List StatusLog
  errors : List ElementError
  posted : List GstStructure
  deriving DecidableEq, Repr

/-- GLib library function `g_ascii_isspace`: space, and the characters 9 to 13. -/
def g_ascii_isspace (c : Char) : Bool :=
  decide (c.toNat = 32 ∨ (9 ≤ c.toNat ∧ c.toNat ≤ 13))

/-- GLib library function `g_strchomp`: removes trailing white space. -/
def g_strchomp (s : String) : String :=
  String.mk (s.data.reverse.dropWhile g_ascii_isspace).reverse

/-- The function `gst_ftl_sink_handle_event` (lines 605-622). -/
def gst_ftl_sink_handle_event (acc : StatusPass) (event : ftl_status_event_msg_t) :
    StatusPass :=
  let acc := { acc with
    logs := acc.logs ++ [StatusLog.event event.type event.reason event.error_code] }
  if event.type = ftl_status_event_types_t.FTL_STATUS_EVENT_TYPE_DISCONNECTED
      ∧ event.reason ≠ ftl_status_event_reasons_t.FTL_STATUS_EVENT_REASON_API_REQUEST then
    { acc with
      errors := acc.errors
        ++ [ElementError.connection_terminated event.reason event.error_code] }
  else
    acc

/-- Lines 556-562: the value and the unit a bitrate change is logged with. -/
def bitrate_nack_presentation (nacks_to_frames_ratio : Rat) : Rat × String :=
  let nack_value := nacks_to_frames_ratio
  let nack_unit := "nacks per frame"
  if nacks_to_frames_ratio > 0 ∧ nacks_to_frames_ratio < 1 then
    (1 / nack_value, "frames per nack")
  else
    (nack_value, nack_unit)

/-- The `switch (message.type)` of the loop (lines 469-590), as a step on the
local `stats_message` (`none` for `NULL`) and on what has been observed. -/
def status_switch (message : ftl_status_msg_t) (stats_message : Option GstStructure)
    (acc : StatusPass) : Option GstStructure × StatusPass :=
  match message with
  | ftl_status_msg_t.log msg =>
    let level := gst_ftl_log_severity_to_level msg.log_level
    (stats_message, { acc with
      logs := acc.logs ++ [StatusLog.ftl_log level (g_strchomp msg.string)] })
  | ftl_status_msg_t.event event =>
    (stats_message, gst_ftl_sink_handle_event acc event)
  | ftl_status_msg_t.video_packets msg =>
    let stats_message := stats_message.getD gst_structure_new_id_empty
    (some (gst_structure_set stats_message
        [("time-total", period_clock_time msg.period),
         ("packets-sent", GValue.int64 msg.sent),
         ("nacks-received", GValue.int64 msg.nack_reqs)]),
      { acc with logs := acc.logs ++ [StatusLog.packet_stats msg] })
  | ftl_status_msg_t.video_packets_instant msg =>
    let stats_message := stats_message.getD gst_structure_new_id_empty
    (some (gst_structure_set stats_message
        [("time-interval", period_clock_time msg.period),
         ("rtt-min", GValue.int msg.min_rtt),
         ("rtt-max", GValue.int msg.max_rtt),
         ("rtt-avg", GValue.int msg.avg_rtt),
         ("xmit-delay-min", GValue.int msg.min_xmit_delay),
         ("xmit-delay-max", GValue.int msg.max_xmit_delay),
         ("xmit-delay-avg", GValue.int msg.avg_xmit_delay)]),
      { acc with logs := acc.logs ++ [StatusLog.instant_packet_stats msg] })
  | ftl_status_msg_t.video msg =>
    let stats_message := stats_message.getD gst_structure_new_id_empty
    (some (gst_structure_set stats_message
        [("video-frames-queued", GValue.int64 msg.frames_queued),
         ("video-frames-sent", GValue.int64 msg.frames_sent),
         ("video-bytes-queued", GValue.int64 msg.bytes_queued),
         ("video-bytes-sent", GValue.int64 msg.bytes_sent),
         ("video-queue-level", GValue.int msg.queue_fullness),
         ("video-max-frame-size", GValue.int msg.max_frame_size)]),
      { acc with logs := acc.logs ++ [StatusLog.video_frame_stats msg] })
  | ftl_status_msg_t.bitrate_changed msg =>
    let pr := bitrate_nack_presentation msg.nacks_to_frames_ratio
    (stats_message, { acc with
      logs := acc.logs ++ [StatusLog.bitrate_change msg pr.1 pr.2] })
  | ftl_status_msg_t.unhandled type =>
    (stats_message, { acc with
      logs := acc.logs ++ [StatusLog.unhandled_status_message type] })

/-- Lines 592-602, run when a poll did not return `FTL_SUCCESS`: the log line
for the status code, then the stats message is posted if there is one. -/
def status_finish (status_code : ftl_status_t) (stats_message : Option GstStructure)
    (acc : StatusPass) : StatusPass :=
  let acc :=
    if status_code = ftl_status_t.FTL_STATUS_TIMEOUT then
      { acc with logs := acc.logs ++ [StatusLog.status_queue_empty] }
    else
      { acc with logs := acc.logs ++ [StatusLog.failed_to_get_status status_code] }
  match stats_message with
  | some s => { acc with posted := acc.posted ++ [s] }
  | none => acc

/-- The `while (status_code == FTL_SUCCESS)` loop and what follows it.  The
list holds what the successive calls of `ftl_ingest_get_status` return: the
status code and the message written.  The result is `none` when the list ends
before a poll returns something other than `FTL_SUCCESS`. -/
def status_loop_run : List (ftl_status_t × ftl_status_msg_t) → Option GstStructure →
    StatusPass → Option StatusPass
  | [], _, _ => none
  | (status_code, message) :: polls, stats_message, acc =>
    if status_code = ftl_status_t.FTL_SUCCESS then
      let r := status_switch message stats_message acc
      status_loop_run polls r.1 r.2
    else
      some (status_finish status_code stats_message acc)

/-- The function `gst_ftl_sink_status_loop`, one pass: `stats_message` starts
as `NULL`. -/
def gst_ftl_sink_status_loop (polls : List (ftl_status_t × ftl_status_msg_t)) :
    Option StatusPass :=
  status_loop_run polls none { logs := [], errors := [], posted := [] }

/-! ## gst_ftl_sink_change_state (src/gstftlsink.c, lines 381-453) -/

/-- The state changes of an element (`GstStateChange`). -/
inductive GstStateChange where
  | GST_STATE_CHANGE_NULL_TO_READY
  | GST_STATE_CHANGE_READY_TO_PAUSED
  | GST_STATE_CHANGE_PAUSED_TO_PLAYING
  | GST_STATE_CHANGE_PLAYING_TO_PAUSED
  | GST_STATE_CHANGE_PAUSED_TO_READY
  | GST_STATE_CHANGE_READY_TO_NULL
  deriving DecidableEq, Repr

/-- The results of a state change (`GstStateChangeReturn`). -/
inductive GstStateChangeReturn where
  | GST_STATE_CHANGE_FAILURE
  | GST_STATE_CHANGE_SUCCESS
  | GST_STATE_CHANGE_ASYNC
  | GST_STATE_CHANGE_NO_PREROLL
  deriving DecidableEq, Repr

/-- The element as the state change sees it: the session (`connected` and the
histories), the property `async_connect`, whether `handle` holds a handle that
was created and not destroyed, and whether `status_task` is started. -/
structure FtlSinkElement where
  sink : GstFtlSink
  async_connect : Bool
  handle_created : Bool
  task_started : Bool
  deriving DecidableEq, Repr

/-- What the calls made during one state change return: the provider's
connect and disconnect, `ftl_ingest_create`, `gst_task_start`, the parent
class's `change_state`, `gst_task_join` and `ftl_ingest_destroy`. -/
structure ChangeStateEnv where
  provider : Provider
  create_ingest : ftl_status_t
  task_start : Bool
  parent_change_state : GstStateChangeReturn
  task_join : Bool
  ingest_destroy : ftl_status_t

/-- The first `switch` of `gst_ftl_sink_change_state` (lines 393-419): `false`
stands for `return GST_STATE_CHANGE_FAILURE`.  A started task stays started
when the connect that follows fails. -/
def change_state_upward (env : ChangeStateEnv) (self : FtlSinkElement)
    (transition : GstStateChange) : Bool × FtlSinkElement :=
  match transition with
  | GstStateChange.GST_STATE_CHANGE_NULL_TO_READY =>
    let status_code := env.create_ingest
    if status_code ≠ ftl_status_t.FTL_SUCCESS then (false, self)
    else (true, { self with handle_created := true })
  | GstStateChange.GST_STATE_CHANGE_READY_TO_PAUSED =>
    if !env.task_start then (false, self)
    else
      let self := { self with task_started := true }
      let async := self.async_connect
      if async then
        let c := gst_ftl_sink_connect env.provider self.sink
        if !c.1 then (false, { self with sink := c.2 })
        else (true, { self with sink := c.2 })
      else (true, self)
  | _ => (true, self)

/-- The second `switch` of `gst_ftl_sink_change_state` (lines 429-451), run
after the parent class's `change_state` returned `ret`. -/
def change_state_downward (env : ChangeStateEnv) (self : FtlSinkElement)
    (transition : GstStateChange) (ret : GstStateChangeReturn) :
    GstStateChangeReturn × FtlSinkElement :=
  match transition with
  | GstStateChange.GST_STATE_CHANGE_PAUSED_TO_READY =>
    let d := gst_ftl_sink_disconnect env.provider self.sink
    let self := { self with sink := d.2 }
    if !d.1 then (GstStateChangeReturn.GST_STATE_CHANGE_FAILURE, self)
    else if !env.task_join then (GstStateChangeReturn.GST_STATE_CHANGE_FAILURE, self)
    else (ret, { self with task_started := false })
  | GstStateChange.GST_STATE_CHANGE_READY_TO_NULL =>
    let status_code := env.ingest_destroy
    if status_code ≠ ftl_status_t.FTL_SUCCESS then
      (GstStateChangeReturn.GST_STATE_CHANGE_FAILURE, self)
    else (ret, { self with handle_created := false })
  | _ => (ret, self)

/-- The function `gst_ftl_sink_change_state`. -/
def gst_ftl_sink_change_state (env : ChangeStateEnv) (self : FtlSinkElement)
    (transition : GstStateChange) : GstStateChangeReturn × FtlSinkElement :=
  let up := change_state_upward env self transition
  if !up.1 then (GstStateChangeReturn.GST_STATE_CHANGE_FAILURE, up.2)
  else
    let ret := env.parent_change_state
    if ret = GstStateChangeReturn.GST_STATE_CHANGE_FAILURE then (ret, up.2)
    else change_state_downward env up.2 transition ret

/-- The states of an element (`GstState`). -/
inductive GstState where
  | GST_STATE_NULL
  | GST_STATE_READY
  | GST_STATE_PAUSED
  | GST_STATE_PLAYING
  deriving DecidableEq, Repr

/-- The state a state change starts from. -/
def state_change_current : GstStateChange → GstState
  | GstStateChange.GST_STATE_CHANGE_NULL_TO_READY => GstState.GST_STATE_NULL
  | GstStateChange.GST_STATE_CHANGE_READY_TO_PAUSED => GstState.GST_STATE_READY
  | GstStateChange.GST_STATE_CHANGE_PAUSED_TO_PLAYING => GstState.GST_STATE_PAUSED
  | GstStateChange.GST_STATE_CHANGE_PLAYING_TO_PAUSED => GstState.GST_STATE_PLAYING
  | GstStateChange.GST_STATE_CHANGE_PAUSED_TO_READY => GstState.GST_STATE_PAUSED
  | GstStateChange.GST_STATE_CHANGE_READY_TO_NULL => GstState.GST_STATE_READY

/-- The state a state change leads to. -/
def state_change_next : GstStateChange → GstState
  | GstStateChange.GST_STATE_CHANGE_NULL_TO_READY => GstState.GST_STATE_READY
  | GstStateChange.GST_STATE_CHANGE_READY_TO_PAUSED => GstState.GST_STATE_PAUSED
  | GstStateChange.GST_STATE_CHANGE_PAUSED_TO_PLAYING => GstState.GST_STATE_PLAYING
  | GstStateChange.GST_STATE_CHANGE_PLAYING_TO_PAUSED => GstState.GST_STATE_PAUSED
  | GstStateChange.GST_STATE_CHANGE_PAUSED_TO_READY => GstState.GST_STATE_READY
  | GstStateChange.GST_STATE_CHANGE_READY_TO_NULL => GstState.GST_STATE_NULL

/-- One state change as GStreamer runs it on the element: `change_state` is
called for a change that starts from the current state, and the element moves
to the next state unless the call returns `GST_STATE_CHANGE_FAILURE`, after
which it stays in the current state. -/
def lifecycle_step (st : GstState × FtlSinkElement)
    (step : ChangeStateEnv × GstStateChange) : GstState × FtlSinkElement :=
  if state_change_current step.2 = st.1 then
    let r := gst_ftl_sink_change_state step.1 st.2 step.2
    if r.1 = GstStateChangeReturn.GST_STATE_CHANGE_FAILURE then (st.1, r.2)
    else (state_change_next step.2, r.2)
  else st

/-- A sequence of state changes. -/
def lifecycle_run (steps : List (ChangeStateEnv × GstStateChange))
    (st : GstState × FtlSinkElement) : GstState × FtlSinkElement :=
  steps.foldl lifecycle_step st

/-- A new element: state Null, `async-connect` at its default `TRUE`, no
handle, task not started. -/
def element_new : GstState × FtlSinkElement :=
  (GstState.GST_STATE_NULL,
    { sink := { connected := false, calls := [], errors := [] }
      async_connect := true, handle_created := false, task_started := false })

/-- Every call of a state change succeeds. -/
def env_ok : ChangeStateEnv :=
  { provider :=
      { connect := fun _ => ftl_status_t.FTL_SUCCESS
        disconnect := fun _ => ftl_status_t.FTL_SUCCESS }
    create_ingest := ftl_status_t.FTL_SUCCESS
    task_start := true
    parent_change_state := GstStateChangeReturn.GST_STATE_CHANGE_SUCCESS
    task_join := true
    ingest_destroy := ftl_status_t.FTL_SUCCESS }

/-- Every call of a state change succeeds but the provider's connect and
disconnect, which fail with status 1. -/
def env_provider_down : ChangeStateEnv :=
  { provider :=
      { connect := fun _ => ftl_status_t.failure 1
        disconnect := fun _ => ftl_status_t.failure 1 }
    create_ingest := ftl_status_t.FTL_SUCCESS
    task_start := true
    parent_change_state := GstStateChangeReturn.GST_STATE_CHANGE_SUCCESS
    task_join := true
    ingest_destroy := ftl_status_t.FTL_SUCCESS }

/-! ## Vocabulary of the properties -/

/-- A start code `00 00 01` occurs in `t` at offset `j`. -/
def start_code_at (t : List Octet) (j : Nat) : Prop :=
  t[j]? = some 0 ∧ t[j + 1]? = some 0 ∧ t[j + 2]? = some 1

instance (t : List Octet) (j : Nat) : Decidable (start_code_at t j) := by
  unfold start_code_at; infer_instance

/-- The number of offsets at which a start code occurs. -/
def start_code_count : List Octet → Nat
  | [] => 0
  | x :: t => (if start_code_at (x :: t) 0 then 1 else 0) + start_code_count t

/-- Byte `i` belongs to a start-code marker: it is one of the three bytes of
an occurrence of `00 00 01`, or the zero byte right before one (the four-byte
form `00 00 00 01`). -/
def marker_byte (t : List Octet) (i : Nat) : Prop :=
  start_code_at t i ∨ (1 ≤ i ∧ start_code_at t (i - 1)) ∨ (2 ≤ i ∧ start_code_at t (i - 2))
    ∨ (t[i]? = some 0 ∧ start_code_at t (i + 1))

instance (t : List Octet) (i : Nat) : Decidable (marker_byte t i) := by
  unfold marker_byte; infer_instance

/-- Byte `i` lies in the payload range of record `r`. -/
def in_payload (r : NaluRecord) (i : Nat) : Prop :=
  r.data ≤ i ∧ i < r.data + r.nalu_len

instance (r : NaluRecord) (i : Nat) : Decidable (in_payload r i) := by
  unfold in_payload; infer_instance

/-- The shape of the record list the loop builds from unit pointer `d`: each
record starts at the current pointer and reads its type there; it is either
the last one (no start code from `d` on, payload up to the end of the buffer)
or is followed by the first start code at or after `d`, at offset `j`, with
the payload ending at `j`, or at `j - 1` when a zero byte of the unit precedes
the start code, and the next unit pointer is `j + 3`. -/
def scan_chain (input : List Octet) (past : Octet) : Nat → List NaluRecord → Prop
  | _, [] => False
  | d, r :: rest =>
    d ≤ input.length ∧ r.data = d
      ∧ r.nalu_type = (read_data0 input past d).val &&& 0x1f
      ∧ ((r.next = none ∧ rest = [] ∧ r.nalu_len = input.length - d
            ∧ ∀ j, d ≤ j → ¬ start_code_at input j)
        ∨ (∃ j, d ≤ j ∧ r.next = some (j + 3) ∧ j + 3 ≤ input.length
            ∧ start_code_at input j
            ∧ (∀ i, d ≤ i → i < j → ¬ start_code_at input i)
            ∧ r.nalu_len = (if d + 1 ≤ j ∧ input[j - 1]? = some 0 then j - 1 - d else j - d)
            ∧ scan_chain input past (j + 3) rest))

/-- The provider call the `default:` branch of the `switch` makes for a unit:
`ftl_ingest_send_media_dts (handle, FTL_VIDEO_DATA, time scaled to
microseconds, data, nalu_len, next == NULL)`. -/
def video_send_call (time : Nat) (r : NaluRecord) : ProviderCall :=
  ProviderCall.send_media_dts ftl_media_data_type_t.FTL_VIDEO_DATA
    (gst_util_uint64_scale_round time 1 GST_USECOND) r.data r.nalu_len r.next.isNone

/-- The records in front of the first record of type 0. -/
def before_type_0 (rs : List NaluRecord) : List NaluRecord :=
  rs.takeWhile (fun r => decide (r.nalu_type ≠ 0))

/-- The records of type other than 9, in order. -/
def without_type_9 (rs : List NaluRecord) : List NaluRecord :=
  rs.filter (fun r => decide (r.nalu_type ≠ 9))

/-- The outcome of the loop in terms of the records it visits: it sends the
units of type other than 9 that come before the first unit of type 0, and
stops with an error at that unit if there is one. -/
def outcome_of_records (time : Nat) (rs : List NaluRecord) (num_nalus : Nat)
    (parent : GstFtlSink) : LoopOutcome :=
  let sent := (without_type_9 (before_type_0 rs)).map (video_send_call time)
  if rs.all (fun r => decide (r.nalu_type ≠ 0)) then
    LoopOutcome.done ((num_nalus + rs.length) % 2 ^ 32)
      { parent with calls := parent.calls ++ sent }
  else
    LoopOutcome.flow_error { parent with
      calls := parent.calls ++ sent
      errors := parent.errors ++ [ElementError.invalid_nalu_type_0] }

/-- A provider whose connect and disconnect always succeed. -/
def provider_ok : Provider :=
  { connect := fun _ => ftl_status_t.FTL_SUCCESS
    disconnect := fun _ => ftl_status_t.FTL_SUCCESS }

/-- A provider whose connect and disconnect always fail with status 1. -/
def provider_down : Provider :=
  { connect := fun _ => ftl_status_t.failure 1
    disconnect := fun _ => ftl_status_t.failure 1 }

/-- A session that is connected and has made no calls yet. -/
def sink_connected : GstFtlSink := { connected := true, calls := [], errors := [] }

/-- A session that is not connected and has made no calls yet. -/
def sink_fresh : GstFtlSink := { connected := false, calls := [], errors := [] }

/-- A mappable buffer with DTS 0 holding the given bytes, followed in memory
by a zero byte. -/
def frame_of (data : List Octet) : GstBuffer :=
  { dts := some 0, pts := none, mappable := true, data := data, past := 0 }

/-- The call is a `ftl_ingest_send_media_dts`. -/
def is_send_call : ProviderCall → Bool
  | ProviderCall.send_media_dts _ _ _ _ _ => true
  | _ => false

/-- The replies of the polls of one pass: `FTL_SUCCESS` with each of the
messages `msgs`, then the status code `status_code` (with whatever `message`
holds), then anything. -/
def poll_replies (msgs : List ftl_status_msg_t) (status_code : ftl_status_t)
    (message : ftl_status_msg_t) (rest : List (ftl_status_t × ftl_status_msg_t)) :
    List (ftl_status_t × ftl_status_msg_t) :=
  msgs.map (fun m => (ftl_status_t.FTL_SUCCESS, m)) ++ (status_code, message) :: rest

/-- The state of the loop after the messages `msgs` have gone through the
`switch`. -/
def drain (msgs : List ftl_status_msg_t) (stats_message : Option GstStructure)
    (acc : StatusPass) : Option GstStructure × StatusPass :=
  msgs.foldl (fun st m => status_switch m st.1 st.2) (stats_message, acc)

/-- The message is of one of the three stats kinds. -/
def is_stats_message : ftl_status_msg_t → Bool
  | ftl_status_msg_t.video_packets _ => true
  | ftl_status_msg_t.video_packets_instant _ => true
  | ftl_status_msg_t.video _ => true
  | _ => false

/-- The fields a message sets in the stats structure, in order; none for a
message that is not of a stats kind. -/
def stats_fields : ftl_status_msg_t → List (String × GValue)
  | ftl_status_msg_t.video_packets msg =>
    [("time-total", period_clock_time msg.period),
     ("packets-sent", GValue.int64 msg.sent),
     ("nacks-received", GValue.int64 msg.nack_reqs)]
  | ftl_status_msg_t.video_packets_instant msg =>
    [("time-interval", period_clock_time msg.period),
     ("rtt-min", GValue.int msg.min_rtt),
     ("rtt-max", GValue.int msg.max_rtt),
     ("rtt-avg", GValue.int msg.avg_rtt),
     ("xmit-delay-min", GValue.int msg.min_xmit_delay),
     ("xmit-delay-max", GValue.int msg.max_xmit_delay),
     ("xmit-delay-avg", GValue.int msg.avg_xmit_delay)]
  | ftl_status_msg_t.video msg =>
    [("video-frames-queued", GValue.int64 msg.frames_queued),
     ("video-frames-sent", GValue.int64 msg.frames_sent),
     ("video-bytes-queued", GValue.int64 msg.bytes_queued),
     ("video-bytes-sent", GValue.int64 msg.bytes_sent),
     ("video-queue-level", GValue.int msg.queue_fullness),
     ("video-max-frame-size", GValue.int msg.max_frame_size)]
  | _ => []

/-- The value of field `k` after the fields `new` have been set one after the
other, `d` being its value before. -/
def last_value_or (d : Option GValue) (new : List (String × GValue)) (k : String) :
    Option GValue :=
  new.foldl (fun acc f => if f.1 = k then some f.2 else acc) d

/-- The value of field `k` after the messages `msgs`, `d` being its value
before. -/
def field_after (k : String) (msgs : List ftl_status_msg_t) (d : Option GValue) :
    Option GValue :=
  msgs.foldl (fun acc m => last_value_or acc (stats_fields m) k) d

/-- The element error a message makes the switch post: one for a connection
event of type Disconnected with a reason other than ApiRequest, none for any
other message. -/
def fatal_of_message : ftl_status_msg_t → List ElementError
  | ftl_status_msg_t.event ev =>
    if ev.type = ftl_status_event_types_t.FTL_STATUS_EVENT_TYPE_DISCONNECTED
        ∧ ev.reason ≠ ftl_status_event_reasons_t.FTL_STATUS_EVENT_REASON_API_REQUEST
    then [ElementError.connection_terminated ev.reason ev.error_code]
    else []
  | _ => []

/-- The element errors of a list of messages, in order. -/
def fatal_errors : List ftl_status_msg_t → List ElementError
  | [] => []
  | m :: rest => fatal_of_message m ++ fatal_errors rest

/-- A packet statistics message: 50 packets sent, 2 NACK requests. -/
def packet_stats_a : ftl_packet_stats_msg_t :=
  { period := 1000, sent := 50, nack_reqs := 2, lost := 0, recovered := 0, late := 0 }

/-- A packet statistics message: 70 packets sent, 5 NACK requests. -/
def packet_stats_b : ftl_packet_stats_msg_t :=
  { period := 2000, sent := 70, nack_reqs := 5, lost := 1, recovered := 0, late := 0 }

/-- A video frame statistics message. -/
def video_stats_a : ftl_video_frame_stats_msg_t :=
  { period := 1000, frames_queued := 30, frames_sent := 29, bytes_queued := 90000,
    bytes_sent := 87000, bw_throttling_count := 0, queue_fullness := 1,
    max_frame_size := 4000 }

/-- A disconnect event that was not asked for. -/
def unexpected_disconnect : ftl_status_event_msg_t :=
  { type := ftl_status_event_types_t.FTL_STATUS_EVENT_TYPE_DISCONNECTED
    reason := ftl_status_event_reasons_t.FTL_STATUS_EVENT_REASON_NO_MEDIA
    error_code := ftl_status_t.failure 1 }

/-- A disconnect event that follows a disconnect request. -/
def requested_disconnect : ftl_status_event_msg_t :=
  { type := ftl_status_event_types_t.FTL_STATUS_EVENT_TYPE_DISCONNECTED
    reason := ftl_status_event_reasons_t.FTL_STATUS_EVENT_REASON_API_REQUEST
    error_code := ftl_status_t.FTL_SUCCESS }

/-- The offsets at which the `while` loop of the render function reads
`data[0]` (line 144), in order: the loop of `video_render_loop` with the reads
as its result.  The loop ends behind the read of a unit of type 0. -/
def video_loop_reads (input : List Octet) (past : Octet) : Nat → Option Nat → List Nat
  | _, none => []
  | 0, some _ => []
  | fuel + 1, some data =>
    let r := get_next_nalu (input.drop data)
    let next := r.1.map (fun off => data + off)
    let nalu_type := (read_data0 input past data).val &&& 0x1f
    if nalu_type = 0 then [data]
    else data :: video_loop_reads input past fuel next

/-- The reads of `data[0]` the render function makes on a mapped buffer. -/
def video_reads (input : List Octet) (past : Octet) : List Nat :=
  video_loop_reads input past (input.length + 1) (get_next_nalu input).1

/-- The records the render loop visits: those up to and including the first
one of type 0. -/
def visited_records : List NaluRecord → List NaluRecord
  | [] => []
  | r :: rest => if r.nalu_type = 0 then [r] else r :: visited_records rest

/-- The buffer ends with a start code `00 00 01`. -/
def ends_with_start_code (input : List Octet) : Prop :=
  3 ≤ input.length ∧ start_code_at input (input.length - 3)

instance (input : List Octet) : Decidable (ends_with_start_code input) := by
  unfold ends_with_start_code; infer_instance

/-- The bytes the shift register has seen: the three bytes before the current
position followed by the unread input, as numbers (`256` past the end). -/
def seen (b c d : Nat) (rest : List Octet) (i : Nat) : Nat :=
  (b :: c :: d :: rest.map Fin.val).getD i 256

/-! ## The shift register -/

theorem reg_step (a b c d n : Nat) (hb : b < 256) (hc : c < 256) (hd : d < 256)
    (hn : n < 256) :
    (((a * 16777216 + b * 65536 + c * 256 + d) <<< 8) % 2 ^ 32) ||| n
      = b * 16777216 + c * 65536 + d * 256 + n := by
  have h1 : ((a * 16777216 + b * 65536 + c * 256 + d) <<< 8) % 2 ^ 32
      = 2 ^ 8 * (b * 65536 + c * 256 + d) := by
    rw [Nat.shiftLeft_eq]; omega
  rw [h1, ← Nat.mul_add_lt_is_or (by omega)]; omega

theorem reg_low (b c d n : Nat) (hc : c < 256) (hd : d < 256) (hn : n < 256) :
    (b * 16777216 + c * 65536 + d * 256 + n) &&& 0xFFFFFF = c * 65536 + d * 256 + n := by
  have := Nat.and_pow_two_sub_one_eq_mod (b * 16777216 + c * 65536 + d * 256 + n) 24
  norm_num at this
  rw [this]; omega

theorem seen_succ (b c d : Nat) (x : Octet) (rest : List Octet) (i : Nat) :
    seen b c d (x :: rest) (i + 1) = seen c d x.val rest i := by
  simp [seen]

theorem loop_none (rest : List Octet) : ∀ (a b c d pos : Nat), b < 256 → c < 256 → d < 256 →
    get_next_nalu_loop rest (a * 16777216 + b * 65536 + c * 256 + d) pos = none →
    ∀ k, ¬ (seen b c d rest (k + 1) = 0 ∧ seen b c d rest (k + 2) = 0
              ∧ seen b c d rest (k + 3) = 1) := by
  induction rest with
  | nil =>
    intro a b c d pos hb hc hd _ k
    simp [seen]
  | cons x rest ih =>
    intro a b c d pos hb hc hd h k
    have hx : x.val < 256 := x.isLt
    simp only [get_next_nalu_loop] at h
    rw [reg_step a b c d x.val hb hc hd hx, reg_low b c d x.val hc hd hx] at h
    split at h
    · simp at h
    · rename_i hne
      have := ih b c d x.val (pos + 1) hc hd hx h
      rcases k with _ | k
      · simp [seen]; omega
      · have := this k
        simpa [seen_succ] using this

theorem loop_some (rest : List Octet) : ∀ (a b c d pos p l : Nat), b < 256 → c < 256 → d < 256 →
    get_next_nalu_loop rest (a * 16777216 + b * 65536 + c * 256 + d) pos = some (p, l) →
    ∃ k, k < rest.length ∧ p = pos + k + 1
      ∧ seen b c d rest (k + 1) = 0 ∧ seen b c d rest (k + 2) = 0
      ∧ seen b c d rest (k + 3) = 1
      ∧ (∀ k', k' < k → ¬ (seen b c d rest (k' + 1) = 0 ∧ seen b c d rest (k' + 2) = 0
              ∧ seen b c d rest (k' + 3) = 1))
      ∧ l = gsize_sub (pos + k) (if seen b c d rest k = 0 then 3 else 2) := by
  induction rest with
  | nil => intro a b c d pos p l _ _ _ h; simp [get_next_nalu_loop] at h
  | cons x rest ih =>
    intro a b c d pos p l hb hc hd h
    have hx : x.val < 256 := x.isLt
    simp only [get_next_nalu_loop] at h
    rw [reg_step a b c d x.val hb hc hd hx, reg_low b c d x.val hc hd hx] at h
    split at h
    · rename_i heq
      simp only [Option.some.injEq, Prod.mk.injEq] at h
      refine ⟨0, by simp, by omega, ?_, ?_, ?_, by simp, ?_⟩
      · simp [seen]; omega
      · simp [seen]; omega
      · simp [seen]; omega
      · rw [← h.2]
        have h0 : seen b c d (x :: rest) 0 = b := by simp [seen]
        simp only [h0, Nat.add_zero]
        congr 1
        by_cases hb0 : b = 0
        · rw [if_pos hb0, if_pos (by omega)]
        · rw [if_neg hb0, if_neg (by omega)]
    · rename_i hne
      obtain ⟨k, hk, hp, h1, h2, h3, hmin, hl⟩ := ih b c d x.val (pos + 1) p l hc hd hx h
      refine ⟨k + 1, by simp; omega, by omega, ?_, ?_, ?_, ?_, ?_⟩
      · simpa [seen_succ] using h1
      · simpa [seen_succ] using h2
      · simpa [seen_succ] using h3
      · intro k' hk'
        rcases k' with _ | k'
        · simp [seen]; omega
        · have := hmin k' (by omega)
          simpa [seen_succ] using this
      · rw [hl, seen_succ]; congr 1; omega

theorem seen_init (t : List Octet) (i : Nat) (v : Octet) :
    seen 255 255 255 t (i + 3) = v.val ↔ t[i]? = some v := by
  simp only [seen, List.getD_cons_succ]
  rw [List.getD_eq_getElem?_getD, List.getElem?_map]
  cases h : t[i]? with
  | none =>
    have := v.isLt
    simp only [Option.map_none', Option.getD_none]
    constructor
    · intro h; omega
    · intro h; cases h
  | some w =>
    simp only [Option.map_some', Option.getD_some, Option.some.injEq]
    exact ⟨fun h => Fin.ext h, fun h => by rw [h]⟩

/-! ## What get_next_nalu returns -/

/-- A `NULL` result: the input holds no start code and `*last_len = len`. -/
theorem get_next_nalu_none (t : List Octet) (h : (get_next_nalu t).1 = none) :
    (get_next_nalu t).2 = t.length ∧ ∀ j, ¬ start_code_at t j := by
  unfold get_next_nalu at h ⊢
  cases hl : get_next_nalu_loop t 0xFFFFFFFF 0 with
  | some q => rw [hl] at h; simp at h
  | none =>
    refine ⟨by simp, ?_⟩
    intro j hj
    have := loop_none t 255 255 255 255 0 (by omega) (by omega) (by omega) hl (j + 2)
    apply this
    obtain ⟨h0, h1, h2⟩ := hj
    exact ⟨(seen_init t j 0).2 h0, (seen_init t (j + 1) 0).2 h1, (seen_init t (j + 2) 1).2 h2⟩

/-- A non-`NULL` result: the pointer is just past the first start code, at
offset `j + 3`, and `*last_len` is `j - 1` when a zero byte precedes the start
code inside the input and `j` otherwise; no subtraction wraps. -/
theorem get_next_nalu_some (t : List Octet) (p : Nat) (h : (get_next_nalu t).1 = some p) :
    ∃ j, p = j + 3 ∧ j + 3 ≤ t.length ∧ start_code_at t j
      ∧ (∀ i, i < j → ¬ start_code_at t i)
      ∧ (get_next_nalu t).2 = (if 1 ≤ j ∧ t[j - 1]? = some 0 then j - 1 else j) := by
  unfold get_next_nalu at h ⊢
  cases hl : get_next_nalu_loop t 0xFFFFFFFF 0 with
  | none => rw [hl] at h; simp at h
  | some q =>
    obtain ⟨q1, q2⟩ := q
    rw [hl] at h
    simp only [Option.some.injEq] at h
    subst h
    obtain ⟨k, hk, hp, h1, h2, h3, hmin, hlen⟩ :=
      loop_some t 255 255 255 255 0 q1 q2 (by omega) (by omega) (by omega) hl
    have hk2 : 2 ≤ k := by
      rcases k with _ | _ | k
      · simp [seen] at h1
      · simp [seen] at h1
      · omega
    obtain ⟨j, rfl⟩ : ∃ j, k = j + 2 := ⟨k - 2, by omega⟩
    have o0 : t[j]? = some 0 := (seen_init t j 0).1 h1
    have o1 : t[j + 1]? = some 0 := (seen_init t (j + 1) 0).1 h2
    have o2 : t[j + 2]? = some 1 := (seen_init t (j + 2) 1).1 h3
    refine ⟨j, by omega, by omega, ⟨o0, o1, o2⟩, ?_, ?_⟩
    · intro i hi hs
      apply hmin (i + 2) (by omega)
      obtain ⟨s0, s1, s2⟩ := hs
      exact ⟨(seen_init t i 0).2 s0, (seen_init t (i + 1) 0).2 s1,
        (seen_init t (i + 2) 1).2 s2⟩
    · show q2 = _
      rw [hlen]
      rcases j with _ | j
      · have : seen 255 255 255 t (0 + 2) = 255 := by simp [seen]
        rw [this]; simp [gsize_sub]
      · have e : seen 255 255 255 t (j + 1 + 2) = 0 ↔ t[j]? = some 0 := seen_init t j 0
        by_cases hz : t[j]? = some 0
        · rw [if_pos (e.2 hz)]
          simp only [Nat.zero_add, gsize_sub]
          rw [if_pos (by omega), if_pos ⟨by omega, by simpa using hz⟩]; omega
        · rw [if_neg (fun hh => hz (e.1 hh))]
          simp only [Nat.zero_add, gsize_sub]
          rw [if_pos (by omega), if_neg (by simpa using hz)]; omega

/-! ## The scan loop -/

theorem start_code_at_drop (input : List Octet) (d j : Nat) :
    start_code_at (input.drop d) j ↔ start_code_at input (d + j) := by
  simp only [start_code_at, List.getElem?_drop, Nat.add_assoc]

/-- One pass that finds no further start code. -/
theorem scan_step_none (input : List Octet) (d : Nat)
    (h : (get_next_nalu (input.drop d)).1 = none) :
    (get_next_nalu (input.drop d)).2 = input.length - d
      ∧ ∀ j, d ≤ j → ¬ start_code_at input j := by
  obtain ⟨h1, h2⟩ := get_next_nalu_none _ h
  refine ⟨by simpa using h1, ?_⟩
  intro j hj hs
  apply h2 (j - d)
  rw [start_code_at_drop]
  have : d + (j - d) = j := by omega
  rwa [this]

/-- One pass that finds the next start code, in offsets from `map.data`. -/
theorem scan_step_some (input : List Octet) (d p : Nat)
    (h : (get_next_nalu (input.drop d)).1 = some p) :
    ∃ j, d ≤ j ∧ d + p = j + 3 ∧ j + 3 ≤ input.length ∧ start_code_at input j
      ∧ (∀ i, d ≤ i → i < j → ¬ start_code_at input i)
      ∧ (get_next_nalu (input.drop d)).2
          = (if d + 1 ≤ j ∧ input[j - 1]? = some 0 then j - 1 - d else j - d) := by
  obtain ⟨j, hp, hlen, hs, hmin, hl⟩ := get_next_nalu_some _ p h
  rw [List.length_drop] at hlen
  refine ⟨d + j, by omega, by omega, by omega, (start_code_at_drop input d j).1 hs, ?_, ?_⟩
  · intro i hi hij hsi
    apply hmin (i - d) (by omega)
    rw [start_code_at_drop]
    have : d + (i - d) = i := by omega
    rwa [this]
  · rw [hl]
    rcases j with _ | j
    · simp
    · have e : (List.drop d input)[j + 1 - 1]? = input[d + (j + 1) - 1]? := by
        rw [List.getElem?_drop]; congr 1
      rw [e]
      by_cases hz : input[d + (j + 1) - 1]? = some 0
      · rw [if_pos ⟨by omega, hz⟩, if_pos ⟨by omega, hz⟩]; omega
      · rw [if_neg (fun hh => hz hh.2), if_neg (fun hh => hz hh.2)]; omega

/-- With enough passes left the loop builds a list of the shape `scan_chain`. -/
theorem nalu_scan_loop_chain (input : List Octet) (past : Octet) :
    ∀ (fuel d : Nat), d ≤ input.length → input.length - d < fuel →
      scan_chain input past d (nalu_scan_loop input past fuel (some d)) := by
  intro fuel
  induction fuel with
  | zero => intro d _ h; omega
  | succ fuel ih =>
    intro d hd hf
    simp only [nalu_scan_loop, scan_chain]
    refine ⟨hd, trivial, trivial, ?_⟩
    cases hn : (get_next_nalu (input.drop d)).1 with
    | none =>
      left
      obtain ⟨h1, h2⟩ := scan_step_none input d hn
      refine ⟨by simp, ?_, h1, h2⟩
      simp [nalu_scan_loop]
    | some p =>
      right
      obtain ⟨j, hj, hp, hlen, hs, hmin, hl⟩ := scan_step_some input d p hn
      refine ⟨j, hj, by simp [hp], hlen, hs, hmin, hl, ?_⟩
      simp only [Option.map_some', hp]
      exact ih (j + 3) hlen (by omega)

/-! ## Consequences of the shape of the record list -/

/-- Every record starts at or after the pointer the loop began with and ends
inside the buffer. -/
theorem scan_chain_bounds (input : List Octet) (past : Octet) :
    ∀ (rs : List NaluRecord) (d : Nat), scan_chain input past d rs →
      ∀ r, r ∈ rs → d ≤ r.data ∧ r.data + r.nalu_len ≤ input.length := by
  intro rs
  induction rs with
  | nil => intro d h; exact h.elim
  | cons r rest ih =>
    intro d h s hs
    obtain ⟨hd, hdata, _, hcase⟩ := h
    rcases hcase with ⟨_, hrest, hlen, _⟩ | ⟨j, hj, _, hj3, _, _, hlen, hch⟩
    · subst hrest
      simp only [List.mem_singleton] at hs
      subst hs
      omega
    · rcases List.mem_cons.1 hs with h1 | h1
      · subst h1
        constructor
        · omega
        · rw [hlen]; split <;> omega
      · have := ih (j + 3) hch s h1
        omega

/-- Consecutive payload ranges are at least a start code apart. -/
theorem scan_chain_pairwise (input : List Octet) (past : Octet) :
    ∀ (rs : List NaluRecord) (d : Nat), scan_chain input past d rs →
      rs.Pairwise (fun r s => r.data + r.nalu_len + 3 ≤ s.data) := by
  intro rs
  induction rs with
  | nil => intro d h; exact h.elim
  | cons r rest ih =>
    intro d h
    obtain ⟨hd, hdata, _, hcase⟩ := h
    rcases hcase with ⟨_, hrest, _, _⟩ | ⟨j, hj, _, hj3, _, _, hlen, hch⟩
    · subst hrest; simp
    · rw [List.pairwise_cons]
      refine ⟨?_, ih (j + 3) hch⟩
      intro s hs
      have hb := (scan_chain_bounds input past rest (j + 3) hch s hs).1
      have : r.data + r.nalu_len ≤ j := by
        rw [hlen]; split <;> omega
      omega

theorem marker_byte_iff (t : List Octet) (i : Nat) :
    marker_byte t i ↔
      ∃ j, start_code_at t j ∧ ((j ≤ i ∧ i < j + 3) ∨ (i + 1 = j ∧ t[i]? = some 0)) := by
  unfold marker_byte
  constructor
  · rintro (h | ⟨h1, h⟩ | ⟨h1, h⟩ | ⟨h0, h⟩)
    · exact ⟨i, h, Or.inl ⟨by omega, by omega⟩⟩
    · exact ⟨i - 1, h, Or.inl ⟨by omega, by omega⟩⟩
    · exact ⟨i - 2, h, Or.inl ⟨by omega, by omega⟩⟩
    · exact ⟨i + 1, h, Or.inr ⟨rfl, h0⟩⟩
  · rintro ⟨j, hs, ⟨h1, h2⟩ | ⟨h1, h2⟩⟩
    · have hc : j = i ∨ j = i - 1 ∧ 1 ≤ i ∨ j = i - 2 ∧ 2 ≤ i := by omega
      rcases hc with rfl | ⟨rfl, h⟩ | ⟨rfl, h⟩
      · exact Or.inl hs
      · exact Or.inr (Or.inl ⟨h, hs⟩)
      · exact Or.inr (Or.inr (Or.inl ⟨h, hs⟩))
    · subst h1
      exact Or.inr (Or.inr (Or.inr ⟨h2, hs⟩))

/-- The byte `01` that ends a start code is neither the first nor the second
byte of another one. -/
theorem no_straddle (t : List Octet) (e j : Nat) (h1 : t[e]? = some 1)
    (hs : start_code_at t j) : ¬ (j ≤ e ∧ e ≤ j + 1) := by
  intro ⟨ha, hb⟩
  obtain ⟨s0, s1, _⟩ := hs
  have hc : j = e ∨ j + 1 = e := by omega
  rcases hc with rfl | rfl
  · rw [h1] at s0; cases s0
  · rw [h1] at s1; cases s1

/-- From a unit pointer that follows a start code on, the payload ranges are
exactly the bytes outside the start-code markers. -/
theorem scan_chain_cover (input : List Octet) (past : Octet) :
    ∀ (rs : List NaluRecord) (d : Nat), scan_chain input past d rs →
      (∃ e, d = e + 1 ∧ input[e]? = some 1) →
      ∀ i, d ≤ i → i < input.length →
        ((∃ r, r ∈ rs ∧ in_payload r i) ↔ ¬ marker_byte input i) := by
  intro rs
  induction rs with
  | nil => intro d h; exact h.elim
  | cons r rest ih =>
    intro d h hinv i hdi hil
    obtain ⟨hd, hdata, _, hcase⟩ := h
    obtain ⟨e, he, hone⟩ := hinv
    rw [marker_byte_iff]
    rcases hcase with ⟨_, hrest, hlen, hno⟩ | ⟨j, hj, _, hj3, hocc, hmin, hlen, hch⟩
    · subst hrest
      constructor
      · rintro _ ⟨k, hk, hpos⟩
        by_cases hkd : d ≤ k
        · exact hno k hkd hk
        · exact no_straddle input e k hone hk (by omega)
      · intro _
        exact ⟨r, by simp, by unfold in_payload; omega⟩
    · have hend : r.data + r.nalu_len ≤ j := by rw [hlen]; split <;> omega
      have hrest : ∀ s, s ∈ rest → j + 3 ≤ s.data := fun s hs =>
        (scan_chain_bounds input past rest (j + 3) hch s hs).1
      by_cases hA : i < r.data + r.nalu_len
      · -- inside the payload of the first record
        constructor
        · rintro _ ⟨k, hk, hpos⟩
          by_cases hkd : d ≤ k
          · by_cases hkj : k < j
            · exact hmin k hkd hkj hk
            · rcases hpos with ⟨h1, _⟩ | ⟨h1, h2⟩
              · omega
              · have hkj2 : k = j := by omega
                subst hkj2
                have hi : i = k - 1 := by omega
                subst hi
                rw [if_pos ⟨by omega, h2⟩] at hlen
                omega
          · exact no_straddle input e k hone hk (by omega)
        · intro _
          exact ⟨r, by simp, by unfold in_payload; omega⟩
      · by_cases hB : i < j + 3
        · -- inside the marker that follows the first record
          constructor
          · rintro ⟨s, hs, hin⟩
            unfold in_payload at hin
            rcases List.mem_cons.1 hs with h1 | h1
            · subst h1; omega
            · have := hrest s h1; omega
          · intro hnm
            exfalso
            apply hnm
            refine ⟨j, hocc, ?_⟩
            by_cases hij : j ≤ i
            · exact Or.inl ⟨hij, hB⟩
            · right
              by_cases hz : d + 1 ≤ j ∧ input[j - 1]? = some 0
              · rw [if_pos hz] at hlen
                have hi : i = j - 1 := by omega
                subst hi
                exact ⟨by omega, hz.2⟩
              · rw [if_neg hz] at hlen
                omega
        · -- behind the next unit pointer
          have hrec := ih (j + 3) hch ⟨j + 2, rfl, hocc.2.2⟩ i (by omega) hil
          rw [marker_byte_iff] at hrec
          rw [← hrec]
          constructor
          · rintro ⟨s, hs, hin⟩
            rcases List.mem_cons.1 hs with h1 | h1
            · subst h1; unfold in_payload at hin; omega
            · exact ⟨s, h1, hin⟩
          · rintro ⟨s, hs, hin⟩
            exact ⟨s, List.mem_cons_of_mem _ hs, hin⟩

/-! ## Counting start codes -/

theorem start_code_count_step (input : List Octet) (d : Nat) :
    start_code_count (input.drop d)
      = (if start_code_at input d then 1 else 0) + start_code_count (input.drop (d + 1)) := by
  have key : ∀ t : List Octet, start_code_count t
      = (if start_code_at t 0 then 1 else 0) + start_code_count (t.drop 1) := by
    intro t
    cases t with
    | nil => simp [start_code_count, start_code_at]
    | cons x t => simp [start_code_count]
  have h := key (input.drop d)
  rw [List.drop_drop] at h
  rw [h]
  have e : start_code_at (List.drop d input) 0 ↔ start_code_at input d := by
    rw [start_code_at_drop]; rfl
  simp only [e]

theorem start_code_count_skip (input : List Octet) (d : Nat) :
    ∀ e, d ≤ e → (∀ i, d ≤ i → i < e → ¬ start_code_at input i) →
      start_code_count (input.drop d) = start_code_count (input.drop e) := by
  intro e hde
  induction e, hde using Nat.le_induction with
  | base => intro _; rfl
  | succ e hde ih =>
    intro hno
    rw [ih (fun i h1 h2 => hno i h1 (by omega)), start_code_count_step input e,
      if_neg (hno e hde (by omega))]
    simp

theorem start_code_count_none (input : List Octet) (d : Nat)
    (hno : ∀ i, d ≤ i → ¬ start_code_at input i) :
    start_code_count (input.drop d) = 0 := by
  rw [start_code_count_skip input d (max d input.length) (by omega)
    (fun i h1 _ => hno i h1)]
  rw [List.drop_eq_nil_of_le (by omega)]
  rfl

theorem start_code_count_found (input : List Octet) (d j : Nat) (hdj : d ≤ j)
    (hmin : ∀ i, d ≤ i → i < j → ¬ start_code_at input i) (hocc : start_code_at input j) :
    start_code_count (input.drop d) = 1 + start_code_count (input.drop (j + 3)) := by
  rw [start_code_count_skip input d j hdj hmin, start_code_count_step input j, if_pos hocc]
  congr 1
  apply start_code_count_skip input (j + 1) (j + 3) (by omega)
  intro i h1 h2 hs
  exact no_straddle input (j + 2) i hocc.2.2 hs (by omega)

/-- The loop visits one unit more than there are start codes from its first
unit pointer on. -/
theorem scan_chain_length (input : List Octet) (past : Octet) :
    ∀ (rs : List NaluRecord) (d : Nat), scan_chain input past d rs →
      rs.length = 1 + start_code_count (input.drop d) := by
  intro rs
  induction rs with
  | nil => intro d h; exact h.elim
  | cons r rest ih =>
    intro d h
    obtain ⟨hd, hdata, _, hcase⟩ := h
    rcases hcase with ⟨_, hrest, _, hno⟩ | ⟨j, hj, _, hj3, hocc, hmin, _, hch⟩
    · subst hrest
      rw [start_code_count_none input d hno]; rfl
    · rw [List.length_cons, ih (j + 3) hch, start_code_count_found input d j hj hmin hocc]
      omega

/-- The record list of a buffer: empty when the buffer has no start code, and
otherwise of the shape `scan_chain` from just behind the first start code. -/
theorem nalu_scan_shape (input : List Octet) (past : Octet) :
    ((∀ j, ¬ start_code_at input j) ∧ nalu_scan input past = []
        ∧ (get_next_nalu input).1 = none)
    ∨ (∃ j, start_code_at input j ∧ (∀ i, i < j → ¬ start_code_at input i)
        ∧ (get_next_nalu input).1 = some (j + 3)
        ∧ scan_chain input past (j + 3) (nalu_scan input past)) := by
  cases hn : (get_next_nalu input).1 with
  | none =>
    left
    refine ⟨(get_next_nalu_none input hn).2, ?_, rfl⟩
    unfold nalu_scan
    rw [hn]; simp [nalu_scan_loop]
  | some p =>
    right
    obtain ⟨j, hp, hlen, hocc, hmin, _⟩ := get_next_nalu_some input p hn
    refine ⟨j, hocc, hmin, by rw [hp], ?_⟩
    unfold nalu_scan
    rw [hn, hp]
    exact nalu_scan_loop_chain input past (input.length + 1) (j + 3) hlen (by omega)

/-! ## C1: the records of a buffer -/

/-- C1 as stated fails: in the buffer `41 00 00 01 65`, which holds one start
code, byte 0 belongs to no start-code marker and yet lies in no payload range
of the scan. -/
theorem C1_leading_byte_uncovered :
    1 ≤ start_code_count [0x41, 0, 0, 1, 0x65]
      ∧ 0 < ([0x41, 0, 0, 1, 0x65] : List Octet).length
      ∧ ¬ marker_byte [0x41, 0, 0, 1, 0x65] 0
      ∧ ∀ r, r ∈ nalu_scan [0x41, 0, 0, 1, 0x65] 0 → ¬ in_payload r 0 := by
  decide

/-- C1 (amended): for every buffer the scan yields exactly as many records as
the buffer has start codes; their payload ranges are in increasing order,
pairwise disjoint and inside the buffer; and a byte of the buffer lies in a
payload range exactly when it belongs to no 3- or 4-byte start-code marker and
is not before the first start code. -/
theorem C1_scan_records (input : List Octet) (past : Octet) :
    (nalu_scan input past).length = start_code_count input
      ∧ (nalu_scan input past).Pairwise
          (fun r s => r.data < s.data ∧ r.data + r.nalu_len ≤ s.data)
      ∧ (∀ r, r ∈ nalu_scan input past → r.data + r.nalu_len ≤ input.length)
      ∧ ∀ i, i < input.length →
          ((∃ r, r ∈ nalu_scan input past ∧ in_payload r i)
            ↔ (¬ marker_byte input i ∧ ∃ j, j ≤ i ∧ start_code_at input j)) := by
  rcases nalu_scan_shape input past with ⟨hno, hnil, _⟩ | ⟨j, hocc, hmin, _, hch⟩
  · rw [hnil]
    refine ⟨?_, List.Pairwise.nil, by simp, ?_⟩
    · have := start_code_count_none input 0 (fun i _ => hno i)
      rw [List.drop_zero] at this
      rw [this]; rfl
    · intro i _
      constructor
      · rintro ⟨r, hr, _⟩; simp at hr
      · rintro ⟨_, k, _, hk⟩; exact (hno k hk).elim
  · refine ⟨?_, ?_, ?_, ?_⟩
    · have := start_code_count_found input 0 j (by omega) (fun i _ h => hmin i h) hocc
      rw [List.drop_zero] at this
      rw [this]
      exact scan_chain_length input past _ (j + 3) hch
    · exact (scan_chain_pairwise input past _ (j + 3) hch).imp
        (fun h => ⟨by omega, by omega⟩)
    · intro r hr
      exact (scan_chain_bounds input past _ (j + 3) hch r hr).2
    · intro i hi
      by_cases hij : j + 3 ≤ i
      · rw [scan_chain_cover input past _ (j + 3) hch ⟨j + 2, rfl, hocc.2.2⟩ i hij hi]
        constructor
        · intro h; exact ⟨h, j, by omega, hocc⟩
        · intro h; exact h.1
      · constructor
        · rintro ⟨r, hr, hin⟩
          have := (scan_chain_bounds input past _ (j + 3) hch r hr).1
          unfold in_payload at hin
          omega
        · rintro ⟨hnm, k, hk, hks⟩
          exfalso
          by_cases hkj : k < j
          · exact hmin k hkj hks
          · apply hnm
            rw [marker_byte_iff]
            exact ⟨j, hocc, Or.inl ⟨by omega, by omega⟩⟩

/-! ## The render loop in terms of the records -/

/-- With enough passes left the render loop ends, and ends as
`outcome_of_records` says. -/
theorem video_render_loop_eq (input : List Octet) (past : Octet) (time : Nat) :
    ∀ (fuel : Nat) (data : Option Nat) (num_nalus : Nat) (parent : GstFtlSink),
      num_nalus < 2 ^ 32 →
      (∀ d, data = some d → d ≤ input.length ∧ input.length - d < fuel) →
      video_render_loop input past time fuel data num_nalus parent
        = some (outcome_of_records time (nalu_scan_loop input past fuel data)
            num_nalus parent) := by
  intro fuel
  induction fuel with
  | zero =>
    intro data n parent hn hd
    cases data with
    | none =>
      simp [video_render_loop, nalu_scan_loop, outcome_of_records, before_type_0,
        without_type_9]
      omega
    | some d => have := hd d rfl; omega
  | succ fuel ih =>
    intro data n parent hn hd
    cases data with
    | none =>
      simp [video_render_loop, nalu_scan_loop, outcome_of_records, before_type_0,
        without_type_9]
      omega
    | some d =>
      obtain ⟨hdl, hfuel⟩ := hd d rfl
      have hnext : ∀ e, (get_next_nalu (input.drop d)).1.map (fun off => d + off) = some e →
          e ≤ input.length ∧ input.length - e < fuel := by
        intro e he
        cases hq : (get_next_nalu (input.drop d)).1 with
        | none => rw [hq] at he; simp at he
        | some q =>
          rw [hq] at he
          simp only [Option.map_some', Option.some.injEq] at he
          obtain ⟨j, _, hp, hlen, _⟩ := scan_step_some input d q hq
          omega
      have hmod : (n + 1) % 2 ^ 32 < 2 ^ 32 := Nat.mod_lt _ (by omega)
      simp only [video_render_loop, nalu_scan_loop]
      by_cases h0 : (read_data0 input past d).val &&& 0x1f = 0
      · rw [if_pos h0]
        simp [outcome_of_records, before_type_0, without_type_9, h0]
      · rw [if_neg h0]
        by_cases h9 : (read_data0 input past d).val &&& 0x1f = 9
        · rw [if_pos h9, ih _ _ _ hmod hnext]
          simp only [outcome_of_records, before_type_0, without_type_9, List.all_cons,
            List.length_cons]
          simp [h9]
          split <;> simp
          omega
        · rw [if_neg h9, ih _ _ _ hmod hnext]
          simp only [outcome_of_records, before_type_0, without_type_9, List.all_cons,
            List.length_cons]
          simp [h0, h9, video_send_call]
          split <;> simp
          omega

/-- The render function returns, and what it returns is decided by the
records of the buffer once the connection gate, the timestamp check and the
mapping have passed. -/
theorem video_render_spec (p : Provider) (segment : Nat → Nat) (parent : GstFtlSink)
    (buffer : GstBuffer) (t : Nat)
    (hc : (gst_ftl_sink_connect p parent).1 = true) (hd : buffer.dts = some t)
    (hm : buffer.mappable = true) :
    gst_ftl_video_sink_render p segment parent buffer
      = some
        (match outcome_of_records (segment t) (nalu_scan buffer.data buffer.past) 0
            (gst_ftl_sink_connect p parent).2 with
        | LoopOutcome.flow_error q => (GstFlowReturn.GST_FLOW_ERROR, q)
        | LoopOutcome.done n q =>
          if n = 0 then
            (GstFlowReturn.GST_FLOW_ERROR,
              { q with errors := q.errors ++ [ElementError.no_nalu_in_buffer] })
          else (GstFlowReturn.GST_FLOW_OK, q)) := by
  have hloop := video_render_loop_eq buffer.data buffer.past (segment t)
    (buffer.data.length + 1) (get_next_nalu buffer.data).1 0
    (gst_ftl_sink_connect p parent).2 (by omega)
    (by
      intro d hd
      obtain ⟨j, hj, hlen, _⟩ := get_next_nalu_some buffer.data d hd
      omega)
  unfold gst_ftl_video_sink_render
  simp only [hc, hd, hm, Bool.not_true, Bool.false_eq_true, if_false]
  rw [hloop]
  unfold nalu_scan
  cases outcome_of_records (segment t)
      (nalu_scan_loop buffer.data buffer.past (buffer.data.length + 1)
        (get_next_nalu buffer.data).1) 0 (gst_ftl_sink_connect p parent).2 with
  | flow_error q => rfl
  | done n q =>
    simp only
    split <;> rfl

/-! ## Facts about single records -/

/-- What the shape of the list says about each of its records. -/
theorem scan_chain_mem (input : List Octet) (past : Octet) :
    ∀ (rs : List NaluRecord) (d : Nat), scan_chain input past d rs →
      ∀ r, r ∈ rs →
        r.data ≤ input.length
        ∧ r.nalu_type = (read_data0 input past r.data).val &&& 0x1f
        ∧ ((r.next = none ∧ r.nalu_len = input.length - r.data
              ∧ ∀ j, r.data ≤ j → ¬ start_code_at input j)
          ∨ (∃ j, r.data ≤ j ∧ r.next = some (j + 3) ∧ j + 3 ≤ input.length
              ∧ start_code_at input j
              ∧ (∀ i, r.data ≤ i → i < j → ¬ start_code_at input i)
              ∧ r.nalu_len
                  = (if r.data + 1 ≤ j ∧ input[j - 1]? = some 0 then j - 1 - r.data
                      else j - r.data))) := by
  intro rs
  induction rs with
  | nil => intro d h; exact h.elim
  | cons r rest ih =>
    intro d h s hs
    obtain ⟨hd, hdata, htype, hcase⟩ := h
    rcases List.mem_cons.1 hs with h1 | h1
    · subst h1
      rw [hdata]
      refine ⟨hd, htype, ?_⟩
      rcases hcase with ⟨hn, _, hlen, hno⟩ | ⟨j, hj, hn, hj3, hocc, hmin, hlen, _⟩
      · exact Or.inl ⟨hn, hlen, hno⟩
      · exact Or.inr ⟨j, hj, hn, hj3, hocc, hmin, hlen⟩
    · rcases hcase with ⟨_, hrest, _, _⟩ | ⟨j, _, _, _, _, _, _, hch⟩
      · subst hrest; simp at h1
      · exact ih (j + 3) hch s h1

/-- The record with `next = NULL` is the last record of the list, and only
that one. -/
theorem scan_chain_last (input : List Octet) (past : Octet) :
    ∀ (rs : List NaluRecord) (d : Nat), scan_chain input past d rs →
      ∀ r, r ∈ rs → (r.next = none ↔ rs.getLast? = some r) := by
  intro rs
  induction rs with
  | nil => intro d h; exact h.elim
  | cons r rest ih =>
    intro d h s hs
    obtain ⟨hd, hdata, _, hcase⟩ := h
    rcases hcase with ⟨hn, hrest, _, _⟩ | ⟨j, hj, hn, _, _, _, _, hch⟩
    · subst hrest
      simp only [List.mem_singleton] at hs
      subst hs
      simp [hn]
    · cases rest with
      | nil => exact hch.elim
      | cons r2 rest2 =>
        rw [List.getLast?_cons_cons]
        rcases List.mem_cons.1 hs with h1 | h1
        · subst h1
          constructor
          · intro h0; rw [hn] at h0; cases h0
          · intro hl
            have hmem : s ∈ r2 :: rest2 := List.mem_of_getLast?_eq_some hl
            have := (scan_chain_bounds input past _ (j + 3) hch s hmem).1
            omega
        · exact ih (j + 3) hch s h1

theorem before_type_0_all (rs : List NaluRecord) (h : ∀ r, r ∈ rs → r.nalu_type ≠ 0) :
    before_type_0 rs = rs := by
  unfold before_type_0
  induction rs with
  | nil => rfl
  | cons r rest ih =>
    have h0 := h r (List.mem_cons_self _ _)
    rw [List.takeWhile_cons, if_pos (by simpa using h0),
      ih (fun s hs => h s (List.mem_cons_of_mem _ hs))]

theorem all_type_ne_0 (rs : List NaluRecord) :
    rs.all (fun r => decide (r.nalu_type ≠ 0)) = true ↔ ∀ r, r ∈ rs → r.nalu_type ≠ 0 := by
  simp [List.all_eq_true]

/-! ## The render function by cases -/

/-- The result of the render function once the gate, the timestamp check and
the mapping have passed: an error at the first unit of type 0; otherwise an
error when the unit counter is zero; otherwise success.  In each case the
units sent are those of type other than 9 in front of the first unit of
type 0. -/
theorem video_render_cases (p : Provider) (segment : Nat → Nat) (parent : GstFtlSink)
    (buffer : GstBuffer) (t : Nat)
    (hc : (gst_ftl_sink_connect p parent).1 = true) (hd : buffer.dts = some t)
    (hm : buffer.mappable = true) :
    gst_ftl_video_sink_render p segment parent buffer
      = some
        (if (nalu_scan buffer.data buffer.past).all (fun r => decide (r.nalu_type ≠ 0))
            = true then
          (if (nalu_scan buffer.data buffer.past).length % 2 ^ 32 = 0 then
            (GstFlowReturn.GST_FLOW_ERROR,
              { connected := (gst_ftl_sink_connect p parent).2.connected
                calls := (gst_ftl_sink_connect p parent).2.calls
                  ++ (without_type_9 (before_type_0 (nalu_scan buffer.data buffer.past))).map
                      (video_send_call (segment t))
                errors := (gst_ftl_sink_connect p parent).2.errors
                  ++ [ElementError.no_nalu_in_buffer] })
          else
            (GstFlowReturn.GST_FLOW_OK,
              { connected := (gst_ftl_sink_connect p parent).2.connected
                calls := (gst_ftl_sink_connect p parent).2.calls
                  ++ (without_type_9 (before_type_0 (nalu_scan buffer.data buffer.past))).map
                      (video_send_call (segment t))
                errors := (gst_ftl_sink_connect p parent).2.errors }))
        else
          (GstFlowReturn.GST_FLOW_ERROR,
            { connected := (gst_ftl_sink_connect p parent).2.connected
              calls := (gst_ftl_sink_connect p parent).2.calls
                ++ (without_type_9 (before_type_0 (nalu_scan buffer.data buffer.past))).map
                    (video_send_call (segment t))
              errors := (gst_ftl_sink_connect p parent).2.errors
                ++ [ElementError.invalid_nalu_type_0] })) := by
  rw [video_render_spec p segment parent buffer t hc hd hm]
  unfold outcome_of_records
  by_cases hall : (nalu_scan buffer.data buffer.past).all
      (fun r => decide (r.nalu_type ≠ 0)) = true
  · simp only [hall, if_true, Nat.zero_add]
  · simp only [hall, Bool.false_eq_true, if_false]

/-- The render function returns for every session, provider and buffer. -/
theorem video_render_returns (p : Provider) (segment : Nat → Nat) (parent : GstFtlSink)
    (buffer : GstBuffer) :
    ∃ ret q, gst_ftl_video_sink_render p segment parent buffer = some (ret, q) := by
  cases hc : (gst_ftl_sink_connect p parent).1 with
  | false =>
    exact ⟨GstFlowReturn.GST_FLOW_ERROR, (gst_ftl_sink_connect p parent).2,
      by simp [gst_ftl_video_sink_render, hc]⟩
  | true =>
    cases hd : buffer.dts with
    | none =>
      exact ⟨GstFlowReturn.GST_FLOW_ERROR,
        { (gst_ftl_sink_connect p parent).2 with
          errors := (gst_ftl_sink_connect p parent).2.errors
            ++ [ElementError.buffer_without_dts] },
        by simp [gst_ftl_video_sink_render, hc, hd]⟩
    | some t =>
      cases hm : buffer.mappable with
      | false =>
        exact ⟨GstFlowReturn.GST_FLOW_ERROR,
          { (gst_ftl_sink_connect p parent).2 with
            errors := (gst_ftl_sink_connect p parent).2.errors
              ++ [ElementError.failed_to_map_buffer] },
          by simp [gst_ftl_video_sink_render, hc, hd, hm]⟩
      | true => exact ⟨_, _, video_render_spec p segment parent buffer t hc hd hm⟩

/-! ## C2: the end-of-frame flag -/

/-- C2 as stated fails: in a frame with unit types 5 then 9 the last unit of
type other than 9 and 0 is the unit at offset 3; it is the only unit
forwarded, and it is forwarded with the flag false. -/
theorem C2_flag_false_on_last_forwarded :
    gst_ftl_video_sink_render provider_ok (fun t => t) sink_connected
        (frame_of [0, 0, 1, 0x65, 0, 0, 1, 9])
      = some (GstFlowReturn.GST_FLOW_OK,
          { connected := true
            calls := [ProviderCall.send_media_dts ftl_media_data_type_t.FTL_VIDEO_DATA
              0 3 1 false]
            errors := [] })
    ∧ ((nalu_scan [0, 0, 1, 0x65, 0, 0, 1, 9] 0).filter
          (fun r => decide (r.nalu_type ≠ 9 ∧ r.nalu_type ≠ 0))).getLast?
        = some { data := 3, nalu_len := 1, nalu_type := 5, next := some 7 } := by
  decide

/-- C2 (amended): once the gate, the timestamp check and the mapping have
passed, the render function returns; the calls it adds are the sends of the
forwarded units in scan order; each forwarded unit has a type other than 0
and 9, and its flag is true exactly when it is the last unit of the buffer of
any type.  In particular a frame with unit types 9, 5, 9, 1 adds exactly two
sends, for the units of type 5 and 1, with the flag false then true. -/
theorem C2_last_flag (p : Provider) (segment : Nat → Nat) (parent : GstFtlSink)
    (buffer : GstBuffer) (t : Nat)
    (hc : (gst_ftl_sink_connect p parent).1 = true) (hd : buffer.dts = some t)
    (hm : buffer.mappable = true) :
    ∃ ret q, gst_ftl_video_sink_render p segment parent buffer = some (ret, q)
      ∧ q.calls = (gst_ftl_sink_connect p parent).2.calls
          ++ (without_type_9 (before_type_0 (nalu_scan buffer.data buffer.past))).map
              (video_send_call (segment t))
      ∧ (∀ r, r ∈ without_type_9 (before_type_0 (nalu_scan buffer.data buffer.past)) →
          r.nalu_type ≠ 0 ∧ r.nalu_type ≠ 9
          ∧ (r.next.isNone = true
              ↔ (nalu_scan buffer.data buffer.past).getLast? = some r))
      ∧ (∀ r1 r2 r3 r4, nalu_scan buffer.data buffer.past = [r1, r2, r3, r4] →
          r1.nalu_type = 9 → r2.nalu_type = 5 → r3.nalu_type = 9 → r4.nalu_type = 1 →
          q.calls = (gst_ftl_sink_connect p parent).2.calls
            ++ [ProviderCall.send_media_dts ftl_media_data_type_t.FTL_VIDEO_DATA
                  (gst_util_uint64_scale_round (segment t) 1 GST_USECOND)
                  r2.data r2.nalu_len false,
                ProviderCall.send_media_dts ftl_media_data_type_t.FTL_VIDEO_DATA
                  (gst_util_uint64_scale_round (segment t) 1 GST_USECOND)
                  r4.data r4.nalu_len true]) := by
  have hcases := video_render_cases p segment parent buffer t hc hd hm
  have hlast : ∀ r, r ∈ nalu_scan buffer.data buffer.past →
      (r.next = none ↔ (nalu_scan buffer.data buffer.past).getLast? = some r) := by
    intro r hr
    rcases nalu_scan_shape buffer.data buffer.past with ⟨_, hnil, _⟩ | ⟨j, _, _, _, hch⟩
    · rw [hnil] at hr; simp at hr
    · exact scan_chain_last buffer.data buffer.past _ (j + 3) hch r hr
  have hcalls : ∃ ret q, gst_ftl_video_sink_render p segment parent buffer = some (ret, q)
      ∧ q.calls = (gst_ftl_sink_connect p parent).2.calls
          ++ (without_type_9 (before_type_0 (nalu_scan buffer.data buffer.past))).map
              (video_send_call (segment t)) := by
    rw [hcases]
    split
    · split
      · exact ⟨_, _, rfl, rfl⟩
      · exact ⟨_, _, rfl, rfl⟩
    · exact ⟨_, _, rfl, rfl⟩
  obtain ⟨ret, q, hr, hq⟩ := hcalls
  refine ⟨ret, q, hr, hq, ?_, ?_⟩
  · intro r hr
    unfold without_type_9 at hr
    rw [List.mem_filter] at hr
    obtain ⟨hr1, hr9⟩ := hr
    have hr0 : r.nalu_type ≠ 0 := by
      have := List.mem_takeWhile_imp hr1
      simpa using this
    have hmem : r ∈ nalu_scan buffer.data buffer.past :=
      (List.takeWhile_sublist _).subset hr1
    refine ⟨hr0, by simpa using hr9, ?_⟩
    rw [← hlast r hmem]
    cases r.next <;> simp
  · intro r1 r2 r3 r4 hscan h1 h2 h3 h4
    have e4 : r4.next = none := by
      rw [hlast r4 (by rw [hscan]; simp), hscan]; rfl
    have e2 : r2.next ≠ none := by
      intro h
      rw [hlast r2 (by rw [hscan]; simp), hscan] at h
      have h5 : r4 = r2 := by simpa using h
      rw [h5] at h4
      omega
    have e2b : r2.next.isNone = false := by
      cases h : r2.next with
      | none => exact (e2 h).elim
      | some _ => rfl
    rw [hq, hscan]
    simp [before_type_0, without_type_9, video_send_call, h1, h2, h3, h4, e4, e2b]

/-- C2, witness: the frame `00 00 01 09 | 00 00 01 65 | 00 00 01 09 | 00 00 01
41` on a connected session; the units of type 5 and 1 are sent, the second
with the flag. -/
theorem C2_last_flag_witness :
    (gst_ftl_sink_connect provider_ok sink_connected).1 = true
    ∧ (frame_of [0, 0, 1, 9, 0, 0, 1, 0x65, 0, 0, 1, 9, 0, 0, 1, 0x41]).dts = some 0
    ∧ (frame_of [0, 0, 1, 9, 0, 0, 1, 0x65, 0, 0, 1, 9, 0, 0, 1, 0x41]).mappable = true
    ∧ gst_ftl_video_sink_render provider_ok (fun t => t) sink_connected
        (frame_of [0, 0, 1, 9, 0, 0, 1, 0x65, 0, 0, 1, 9, 0, 0, 1, 0x41])
      = some (GstFlowReturn.GST_FLOW_OK,
          { connected := true
            calls := [ProviderCall.send_media_dts ftl_media_data_type_t.FTL_VIDEO_DATA
                0 7 1 false,
              ProviderCall.send_media_dts ftl_media_data_type_t.FTL_VIDEO_DATA
                0 15 1 true]
            errors := [] })
    ∧ ∃ ret q, gst_ftl_video_sink_render provider_ok (fun t => t) sink_connected
          (frame_of [0, 0, 1, 9, 0, 0, 1, 0x65, 0, 0, 1, 9, 0, 0, 1, 0x41]) = some (ret, q)
      ∧ q.calls = (gst_ftl_sink_connect provider_ok sink_connected).2.calls
          ++ (without_type_9 (before_type_0 (nalu_scan
                (frame_of [0, 0, 1, 9, 0, 0, 1, 0x65, 0, 0, 1, 9, 0, 0, 1, 0x41]).data
                (frame_of [0, 0, 1, 9, 0, 0, 1, 0x65, 0, 0, 1, 9, 0, 0, 1, 0x41]).past))).map
              (video_send_call ((fun t => t) 0)) :=
  ⟨by decide, rfl, rfl, by decide,
    (C2_last_flag provider_ok (fun t => t) sink_connected
      (frame_of [0, 0, 1, 9, 0, 0, 1, 0x65, 0, 0, 1, 9, 0, 0, 1, 0x41]) 0
      (by decide) rfl rfl).imp
      (fun _ h => h.imp (fun _ h2 => ⟨h2.1, h2.2.1⟩))⟩

/-! ## C3: a frame of access-unit delimiters only -/

/-- C3 as stated fails: the frame `00 00 01 09`, whose only unit is an
access-unit delimiter, is answered with `GST_FLOW_OK`; nothing is sent and no
error is posted. -/
theorem C3_delimiter_only_frame_ok :
    nalu_scan [0, 0, 1, 9] 0 = [{ data := 3, nalu_len := 1, nalu_type := 9, next := none }]
    ∧ gst_ftl_video_sink_render provider_ok (fun t => t) sink_connected
        (frame_of [0, 0, 1, 9])
      = some (GstFlowReturn.GST_FLOW_OK, sink_connected) := by
  decide

/-- C3 (amended): once the gate, the timestamp check and the mapping have
passed, a frame that has at least one unit (and fewer than `2 ^ 32`, the range
of the unit counter) and whose units are all of type 9 is answered with
`GST_FLOW_OK`: no send is made and no error is posted. -/
theorem C3_only_delimiters (p : Provider) (segment : Nat → Nat) (parent : GstFtlSink)
    (buffer : GstBuffer) (t : Nat)
    (hc : (gst_ftl_sink_connect p parent).1 = true) (hd : buffer.dts = some t)
    (hm : buffer.mappable = true)
    (hne : nalu_scan buffer.data buffer.past ≠ [])
    (hlt : (nalu_scan buffer.data buffer.past).length < 2 ^ 32)
    (h9 : ∀ r, r ∈ nalu_scan buffer.data buffer.past → r.nalu_type = 9) :
    gst_ftl_video_sink_render p segment parent buffer
      = some (GstFlowReturn.GST_FLOW_OK, (gst_ftl_sink_connect p parent).2) := by
  have hall : (nalu_scan buffer.data buffer.past).all (fun r => decide (r.nalu_type ≠ 0))
      = true := by
    rw [all_type_ne_0]
    intro r hr; rw [h9 r hr]; omega
  have hlen : ¬ (nalu_scan buffer.data buffer.past).length % 2 ^ 32 = 0 := by
    have : 0 < (nalu_scan buffer.data buffer.past).length := List.length_pos.2 hne
    rw [Nat.mod_eq_of_lt hlt]; omega
  have hnone : without_type_9 (before_type_0 (nalu_scan buffer.data buffer.past)) = [] := by
    rw [before_type_0_all _ (fun r hr => by rw [h9 r hr]; omega)]
    unfold without_type_9
    rw [List.filter_eq_nil_iff]
    intro r hr
    simp [h9 r hr]
  rw [video_render_cases p segment parent buffer t hc hd hm, if_pos hall, if_neg hlen, hnone]
  simp

/-- C3, witness: the frame `00 00 01 09` on a connected session. -/
theorem C3_only_delimiters_witness :
    (gst_ftl_sink_connect provider_ok sink_connected).1 = true
    ∧ nalu_scan (frame_of [0, 0, 1, 9]).data (frame_of [0, 0, 1, 9]).past ≠ []
    ∧ gst_ftl_video_sink_render provider_ok (fun t => t) sink_connected
        (frame_of [0, 0, 1, 9])
      = some (GstFlowReturn.GST_FLOW_OK,
          (gst_ftl_sink_connect provider_ok sink_connected).2) :=
  ⟨by decide, by decide,
    C3_only_delimiters provider_ok (fun t => t) sink_connected (frame_of [0, 0, 1, 9]) 0
      (by decide) rfl rfl (by decide) (by decide) (by decide)⟩

/-! ## C4: a buffer without start code -/

/-- C4: for a buffer whose mapped bytes hold no start code (the empty buffer
included) the scan yields no record and, once the gate, the timestamp check
and the mapping have passed, the render function returns `GST_FLOW_ERROR`
after posting "No NALU in buffer", without any call on the provider. -/
theorem C4_no_start_code (p : Provider) (segment : Nat → Nat) (parent : GstFtlSink)
    (buffer : GstBuffer) (t : Nat)
    (hc : (gst_ftl_sink_connect p parent).1 = true) (hd : buffer.dts = some t)
    (hm : buffer.mappable = true)
    (hno : ∀ j, ¬ start_code_at buffer.data j) :
    nalu_scan buffer.data buffer.past = []
    ∧ gst_ftl_video_sink_render p segment parent buffer
      = some (GstFlowReturn.GST_FLOW_ERROR,
          { connected := (gst_ftl_sink_connect p parent).2.connected
            calls := (gst_ftl_sink_connect p parent).2.calls
            errors := (gst_ftl_sink_connect p parent).2.errors
              ++ [ElementError.no_nalu_in_buffer] }) := by
  have hnil : nalu_scan buffer.data buffer.past = [] := by
    rcases nalu_scan_shape buffer.data buffer.past with ⟨_, hnil, _⟩ | ⟨j, hocc, _⟩
    · exact hnil
    · exact (hno j hocc).elim
  refine ⟨hnil, ?_⟩
  rw [video_render_cases p segment parent buffer t hc hd hm, hnil]
  simp [before_type_0, without_type_9]

/-- C4, witness: the empty buffer on a connected session. -/
theorem C4_no_start_code_witness :
    (gst_ftl_sink_connect provider_ok sink_connected).1 = true
    ∧ (∀ j, ¬ start_code_at (frame_of []).data j)
    ∧ nalu_scan (frame_of []).data (frame_of []).past = []
    ∧ gst_ftl_video_sink_render provider_ok (fun t => t) sink_connected (frame_of [])
      = some (GstFlowReturn.GST_FLOW_ERROR,
          { connected := (gst_ftl_sink_connect provider_ok sink_connected).2.connected
            calls := (gst_ftl_sink_connect provider_ok sink_connected).2.calls
            errors := (gst_ftl_sink_connect provider_ok sink_connected).2.errors
              ++ [ElementError.no_nalu_in_buffer] }) :=
  ⟨by decide, fun j h => by simp [start_code_at, frame_of] at h,
    C4_no_start_code provider_ok (fun t => t) sink_connected (frame_of []) 0
      (by decide) rfl rfl (fun j h => by simp [start_code_at, frame_of] at h)⟩

/-! ## C5: a unit of type 0 -/

theorem split_at_type_0 (rs : List NaluRecord) (h : ∃ r, r ∈ rs ∧ r.nalu_type = 0) :
    ∃ r0 post, rs = before_type_0 rs ++ r0 :: post ∧ r0.nalu_type = 0 := by
  induction rs with
  | nil => obtain ⟨r, hr, _⟩ := h; simp at hr
  | cons r rest ih =>
    by_cases h0 : r.nalu_type = 0
    · refine ⟨r, rest, ?_, h0⟩
      simp [before_type_0, h0]
    · obtain ⟨s, hs, hs0⟩ := h
      have hrest : ∃ s, s ∈ rest ∧ s.nalu_type = 0 := by
        rcases List.mem_cons.1 hs with h1 | h1
        · subst h1; exact (h0 hs0).elim
        · exact ⟨s, h1, hs0⟩
      obtain ⟨r0, post, heq, hr0⟩ := ih hrest
      refine ⟨r0, post, ?_, hr0⟩
      unfold before_type_0 at heq ⊢
      rw [List.takeWhile_cons, if_pos (by simpa using h0), List.cons_append, ← heq]

/-- C5: once the gate, the timestamp check and the mapping have passed, a
frame whose scan contains a unit of type 0 makes the render function return
`GST_FLOW_ERROR` after posting "Invalid NALU type 0"; with `r0` the first unit
of type 0, the sends made are those of the units of type other than 9 in front
of `r0`, so neither `r0` nor any unit behind it is sent. -/
theorem C5_type_0_stops (p : Provider) (segment : Nat → Nat) (parent : GstFtlSink)
    (buffer : GstBuffer) (t : Nat)
    (hc : (gst_ftl_sink_connect p parent).1 = true) (hd : buffer.dts = some t)
    (hm : buffer.mappable = true)
    (h0 : ∃ r, r ∈ nalu_scan buffer.data buffer.past ∧ r.nalu_type = 0) :
    ∃ pre r0 post q,
      nalu_scan buffer.data buffer.past = pre ++ r0 :: post
      ∧ r0.nalu_type = 0 ∧ (∀ r, r ∈ pre → r.nalu_type ≠ 0)
      ∧ gst_ftl_video_sink_render p segment parent buffer
          = some (GstFlowReturn.GST_FLOW_ERROR, q)
      ∧ q.errors = (gst_ftl_sink_connect p parent).2.errors
          ++ [ElementError.invalid_nalu_type_0]
      ∧ q.calls = (gst_ftl_sink_connect p parent).2.calls
          ++ ((pre.filter (fun r => decide (r.nalu_type ≠ 9))).map
              (fun r => ProviderCall.send_media_dts ftl_media_data_type_t.FTL_VIDEO_DATA
                (gst_util_uint64_scale_round (segment t) 1 GST_USECOND)
                r.data r.nalu_len r.next.isNone)) := by
  obtain ⟨r0, post, heq, hr0⟩ := split_at_type_0 _ h0
  have hall : ¬ (nalu_scan buffer.data buffer.past).all (fun r => decide (r.nalu_type ≠ 0))
      = true := by
    rw [all_type_ne_0]
    intro h
    obtain ⟨r, hr, hr0⟩ := h0
    exact h r hr hr0
  refine ⟨before_type_0 (nalu_scan buffer.data buffer.past), r0, post,
    { connected := (gst_ftl_sink_connect p parent).2.connected
      calls := (gst_ftl_sink_connect p parent).2.calls
        ++ (without_type_9 (before_type_0 (nalu_scan buffer.data buffer.past))).map
            (video_send_call (segment t))
      errors := (gst_ftl_sink_connect p parent).2.errors
        ++ [ElementError.invalid_nalu_type_0] },
    heq, hr0, ?_, ?_, rfl, rfl⟩
  · intro r hr
    have := List.mem_takeWhile_imp hr
    simpa using this
  · rw [video_render_cases p segment parent buffer t hc hd hm, if_neg hall]

/-- C5, witness: the frame `00 00 01 65 | 00 00 01 00 | 00 00 01 41`: the unit
of type 5 is sent, the unit of type 0 stops the call, the unit of type 1 is not
sent. -/
theorem C5_type_0_stops_witness :
    (gst_ftl_sink_connect provider_ok sink_connected).1 = true
    ∧ (∃ r, r ∈ nalu_scan (frame_of [0, 0, 1, 0x65, 0, 0, 1, 0, 0, 0, 1, 0x41]).data
          (frame_of [0, 0, 1, 0x65, 0, 0, 1, 0, 0, 0, 1, 0x41]).past ∧ r.nalu_type = 0)
    ∧ gst_ftl_video_sink_render provider_ok (fun t => t) sink_connected
        (frame_of [0, 0, 1, 0x65, 0, 0, 1, 0, 0, 0, 1, 0x41])
      = some (GstFlowReturn.GST_FLOW_ERROR,
          { connected := true
            calls := [ProviderCall.send_media_dts ftl_media_data_type_t.FTL_VIDEO_DATA
              0 3 1 false]
            errors := [ElementError.invalid_nalu_type_0] })
    ∧ ∃ pre r0 post q,
      nalu_scan (frame_of [0, 0, 1, 0x65, 0, 0, 1, 0, 0, 0, 1, 0x41]).data
          (frame_of [0, 0, 1, 0x65, 0, 0, 1, 0, 0, 0, 1, 0x41]).past = pre ++ r0 :: post
      ∧ r0.nalu_type = 0 ∧ (∀ r, r ∈ pre → r.nalu_type ≠ 0)
      ∧ gst_ftl_video_sink_render provider_ok (fun t => t) sink_connected
          (frame_of [0, 0, 1, 0x65, 0, 0, 1, 0, 0, 0, 1, 0x41])
          = some (GstFlowReturn.GST_FLOW_ERROR, q)
      ∧ q.errors = (gst_ftl_sink_connect provider_ok sink_connected).2.errors
          ++ [ElementError.invalid_nalu_type_0]
      ∧ q.calls = (gst_ftl_sink_connect provider_ok sink_connected).2.calls
          ++ ((pre.filter (fun r => decide (r.nalu_type ≠ 9))).map
              (fun r => ProviderCall.send_media_dts ftl_media_data_type_t.FTL_VIDEO_DATA
                (gst_util_uint64_scale_round ((fun t => t) 0) 1 GST_USECOND)
                r.data r.nalu_len r.next.isNone)) :=
  ⟨by decide, by decide, by decide,
    C5_type_0_stops provider_ok (fun t => t) sink_connected
      (frame_of [0, 0, 1, 0x65, 0, 0, 1, 0, 0, 0, 1, 0x41]) 0 (by decide) rfl rfl (by decide)⟩

/-! ## C6: the sends of a frame without unit of type 0 -/

/-- C6: once the gate, the timestamp check and the mapping have passed, the
render function returns for a frame without unit of type 0, and the calls it
adds are exactly one send per scanned unit of type other than 9, in scan
order, each with the unit pointer and length the scan delimited; units of
type 9 cause no call. -/
theorem C6_sends_in_scan_order (p : Provider) (segment : Nat → Nat) (parent : GstFtlSink)
    (buffer : GstBuffer) (t : Nat)
    (hc : (gst_ftl_sink_connect p parent).1 = true) (hd : buffer.dts = some t)
    (hm : buffer.mappable = true)
    (h0 : ∀ r, r ∈ nalu_scan buffer.data buffer.past → r.nalu_type ≠ 0) :
    ∃ ret q, gst_ftl_video_sink_render p segment parent buffer = some (ret, q)
      ∧ q.calls = (gst_ftl_sink_connect p parent).2.calls
          ++ (((nalu_scan buffer.data buffer.past).filter
                (fun r => decide (r.nalu_type ≠ 9))).map
              (fun r => ProviderCall.send_media_dts ftl_media_data_type_t.FTL_VIDEO_DATA
                (gst_util_uint64_scale_round (segment t) 1 GST_USECOND)
                r.data r.nalu_len r.next.isNone)) := by
  have hall : (nalu_scan buffer.data buffer.past).all (fun r => decide (r.nalu_type ≠ 0))
      = true := (all_type_ne_0 _).2 h0
  rw [video_render_cases p segment parent buffer t hc hd hm, if_pos hall,
    before_type_0_all _ h0]
  split
  · exact ⟨_, _, rfl, rfl⟩
  · exact ⟨_, _, rfl, rfl⟩

/-- C6, witness: the frame `00 00 01 09 | 00 00 00 01 67 42 | 00 00 01 65` on a
session that connects on this call. -/
theorem C6_sends_in_scan_order_witness :
    (gst_ftl_sink_connect provider_ok sink_fresh).1 = true
    ∧ (∀ r, r ∈ nalu_scan (frame_of [0, 0, 1, 9, 0, 0, 0, 1, 0x67, 0x42, 0, 0, 1, 0x65]).data
          (frame_of [0, 0, 1, 9, 0, 0, 0, 1, 0x67, 0x42, 0, 0, 1, 0x65]).past →
        r.nalu_type ≠ 0)
    ∧ gst_ftl_video_sink_render provider_ok (fun t => t) sink_fresh
        (frame_of [0, 0, 1, 9, 0, 0, 0, 1, 0x67, 0x42, 0, 0, 1, 0x65])
      = some (GstFlowReturn.GST_FLOW_OK,
          { connected := true
            calls := [ProviderCall.connect,
              ProviderCall.send_media_dts ftl_media_data_type_t.FTL_VIDEO_DATA 0 8 2 false,
              ProviderCall.send_media_dts ftl_media_data_type_t.FTL_VIDEO_DATA 0 13 1 true]
            errors := [] })
    ∧ ∃ ret q, gst_ftl_video_sink_render provider_ok (fun t => t) sink_fresh
          (frame_of [0, 0, 1, 9, 0, 0, 0, 1, 0x67, 0x42, 0, 0, 1, 0x65]) = some (ret, q)
      ∧ q.calls = (gst_ftl_sink_connect provider_ok sink_fresh).2.calls
          ++ (((nalu_scan (frame_of [0, 0, 1, 9, 0, 0, 0, 1, 0x67, 0x42, 0, 0, 1, 0x65]).data
                (frame_of [0, 0, 1, 9, 0, 0, 0, 1, 0x67, 0x42, 0, 0, 1, 0x65]).past).filter
                (fun r => decide (r.nalu_type ≠ 9))).map
              (fun r => ProviderCall.send_media_dts ftl_media_data_type_t.FTL_VIDEO_DATA
                (gst_util_uint64_scale_round ((fun t => t) 0) 1 GST_USECOND)
                r.data r.nalu_len r.next.isNone)) :=
  ⟨by decide, by decide, by decide,
    C6_sends_in_scan_order provider_ok (fun t => t) sink_fresh
      (frame_of [0, 0, 1, 9, 0, 0, 0, 1, 0x67, 0x42, 0, 0, 1, 0x65]) 0
      (by decide) rfl rfl (by decide)⟩

/-! ## C7: the unit type -/

theorem land_0x1f (x : Nat) : x &&& 0x1f = x % 32 := by
  have := Nat.and_pow_two_sub_one_eq_mod x 5
  norm_num at this
  exact this

/-- C7 as stated fails: in the buffer `00 00 01 00 00 01 65` the scan yields a
record at offset 3 whose payload range is empty, so its type (0) is not read
from a byte of its payload range. -/
theorem C7_type_of_empty_payload :
    ({ data := 3, nalu_len := 0, nalu_type := 0, next := some 6 } : NaluRecord)
        ∈ nalu_scan [0, 0, 1, 0, 0, 1, 0x65] 0
    ∧ ∀ i, ¬ in_payload { data := 3, nalu_len := 0, nalu_type := 0, next := some 6 } i := by
  refine ⟨by decide, ?_⟩
  intro i h
  unfold in_payload at h
  simp only at h
  omega

/-- C7 (amended): the type of every record of the scan is a value in 0..31;
when the payload range of the record is not empty the type is the low 5 bits
of the first byte of that range; when the range is empty and another start
code follows, the byte read is the first byte of that start code and the type
is 0. -/
theorem C7_unit_type (input : List Octet) (past : Octet) (r : NaluRecord)
    (hr : r ∈ nalu_scan input past) :
    r.nalu_type < 32
    ∧ (0 < r.nalu_len →
        ∃ b, input[r.data]? = some b ∧ in_payload r r.data ∧ r.nalu_type = b.val % 32)
    ∧ (r.nalu_len = 0 → r.next ≠ none → input[r.data]? = some 0 ∧ r.nalu_type = 0) := by
  rcases nalu_scan_shape input past with ⟨_, hnil, _⟩ | ⟨j0, _, _, _, hch⟩
  · rw [hnil] at hr; simp at hr
  · obtain ⟨_, htype, hcase⟩ := scan_chain_mem input past _ (j0 + 3) hch r hr
    have hb := (scan_chain_bounds input past _ (j0 + 3) hch r hr).2
    rw [land_0x1f] at htype
    refine ⟨by rw [htype]; exact Nat.mod_lt _ (by omega), ?_, ?_⟩
    · intro hpos
      have hlt : r.data < input.length := by omega
      refine ⟨input[r.data], List.getElem?_eq_getElem hlt, ⟨by omega, by omega⟩, ?_⟩
      rw [htype, read_data0, List.getD_eq_getElem?_getD, List.getElem?_eq_getElem hlt]
      rfl
    · intro hzero hnext
      rcases hcase with ⟨hn, _, _⟩ | ⟨j, hj, _, hj3, hocc, _, hlen⟩
      · exact (hnext hn).elim
      · have hbyte : input[r.data]? = some 0 := by
          by_cases hz : r.data + 1 ≤ j ∧ input[j - 1]? = some 0
          · rw [if_pos hz] at hlen
            have e : j - 1 = r.data := by omega
            rw [← e]; exact hz.2
          · rw [if_neg hz] at hlen
            have e : j = r.data := by omega
            rw [← e]; exact hocc.1
        refine ⟨hbyte, ?_⟩
        rw [htype, read_data0, List.getD_eq_getElem?_getD, hbyte]
        rfl

/-- C7, witness: the type of the unit at offset 4 of `00 00 00 01 67 42`. -/
theorem C7_unit_type_witness :
    ({ data := 4, nalu_len := 2, nalu_type := 7, next := none } : NaluRecord)
        ∈ nalu_scan [0, 0, 0, 1, 0x67, 0x42] 0
    ∧ (7 : Nat) < 32
    ∧ (0 < 2 →
        ∃ b, ([0, 0, 0, 1, 0x67, 0x42] : List Octet)[4]? = some b
          ∧ in_payload { data := 4, nalu_len := 2, nalu_type := 7, next := none } 4
          ∧ 7 = b.val % 32) :=
  ⟨by decide,
    (C7_unit_type [0, 0, 0, 1, 0x67, 0x42] 0
      { data := 4, nalu_len := 2, nalu_type := 7, next := none } (by decide)).1,
    (C7_unit_type [0, 0, 0, 1, 0x67, 0x42] 0
      { data := 4, nalu_len := 2, nalu_type := 7, next := none } (by decide)).2.1⟩

/-! ## C8, C9, C10: the connection gate -/

/-- C8 as stated fails: on a session that is not connected, with a provider
whose connect fails, two calls of `gst_ftl_sink_connect` in sequence make two
connect calls on the provider. -/
theorem C8_failed_connect_is_repeated :
    (gst_ftl_sink_connect provider_down
        (gst_ftl_sink_connect provider_down sink_fresh).2).2.calls
      = [ProviderCall.connect, ProviderCall.connect] := by
  decide

/-- C8 (amended): two calls of `gst_ftl_sink_connect` in sequence make no
provider call when the session was connected, one connect call when the first
round-trip succeeds (the second call then returns true without a call), and two
connect calls when the first round-trip fails. -/
theorem C8_connect_twice (p : Provider) (self : GstFtlSink) :
    (gst_ftl_sink_connect p (gst_ftl_sink_connect p self).2).2.calls
        = self.calls ++
          (if self.connected = true then []
           else if p.connect self.calls = ftl_status_t.FTL_SUCCESS then [ProviderCall.connect]
           else [ProviderCall.connect, ProviderCall.connect])
    ∧ ((gst_ftl_sink_connect p self).1 = true →
        gst_ftl_sink_connect p (gst_ftl_sink_connect p self).2
          = (true, (gst_ftl_sink_connect p self).2)) := by
  obtain ⟨c, calls, errors⟩ := self
  cases c
  · by_cases h : p.connect calls = ftl_status_t.FTL_SUCCESS
    · simp [gst_ftl_sink_connect, h]
    · simp [gst_ftl_sink_connect, h]
      split <;> rfl
  · simp [gst_ftl_sink_connect]

/-- C9: `gst_ftl_sink_connect` calls the provider's connect exactly when the
session is not connected on entry; its result is the connection state on exit;
that state is connected exactly when the session was connected or the
provider's connect returned success; after a failed connect the session is not
connected and the result is false. -/
theorem C9_connect (p : Provider) (self : GstFtlSink) :
    (gst_ftl_sink_connect p self).2.calls
        = (if self.connected = true then self.calls
           else self.calls ++ [ProviderCall.connect])
    ∧ (gst_ftl_sink_connect p self).1 = (gst_ftl_sink_connect p self).2.connected
    ∧ ((gst_ftl_sink_connect p self).2.connected = true
        ↔ (self.connected = true ∨ p.connect self.calls = ftl_status_t.FTL_SUCCESS))
    ∧ (self.connected = false → p.connect self.calls ≠ ftl_status_t.FTL_SUCCESS →
        (gst_ftl_sink_connect p self).2.connected = false
        ∧ (gst_ftl_sink_connect p self).1 = false) := by
  obtain ⟨c, calls, errors⟩ := self
  cases c
  · by_cases h : p.connect calls = ftl_status_t.FTL_SUCCESS
    · simp [gst_ftl_sink_connect, h]
    · simp [gst_ftl_sink_connect, h]
  · simp [gst_ftl_sink_connect]

/-- C10: `gst_ftl_sink_disconnect` on a session that is not connected makes no
provider call, leaves the state as it is and returns true; on a connected
session it calls the provider's disconnect once, and a failure leaves the
session connected with result false while a success makes it disconnected
with result true. -/
theorem C10_disconnect (p : Provider) (self : GstFtlSink) :
    (self.connected = false → gst_ftl_sink_disconnect p self = (true, self))
    ∧ (self.connected = true → p.disconnect self.calls ≠ ftl_status_t.FTL_SUCCESS →
        gst_ftl_sink_disconnect p self
          = (false, { self with calls := self.calls ++ [ProviderCall.disconnect] }))
    ∧ (self.connected = true → p.disconnect self.calls = ftl_status_t.FTL_SUCCESS →
        gst_ftl_sink_disconnect p self
          = (true, { self with
              connected := false, calls := self.calls ++ [ProviderCall.disconnect] })) := by
  obtain ⟨c, calls, errors⟩ := self
  cases c
  · simp [gst_ftl_sink_disconnect]
  · by_cases h : p.disconnect calls = ftl_status_t.FTL_SUCCESS
    · simp [gst_ftl_sink_disconnect, h]
    · simp [gst_ftl_sink_disconnect, h]

/-! ## C11: the gate comes before every send -/

/-- For every session, provider and buffer the video render function returns;
the calls it adds behind those of the connection gate are sends of records of
the scan, and there are none when the gate returns false. -/
theorem video_render_calls (p : Provider) (segment : Nat → Nat) (parent : GstFtlSink)
    (buffer : GstBuffer) :
    ∃ ret q rs, gst_ftl_video_sink_render p segment parent buffer = some (ret, q)
      ∧ rs.Sublist (nalu_scan buffer.data buffer.past)
      ∧ q.calls = (gst_ftl_sink_connect p parent).2.calls
          ++ rs.map (video_send_call (segment (buffer.dts.getD 0)))
      ∧ ((gst_ftl_sink_connect p parent).1 = false →
          ret = GstFlowReturn.GST_FLOW_ERROR ∧ rs = []) := by
  cases hc : (gst_ftl_sink_connect p parent).1 with
  | false =>
    exact ⟨GstFlowReturn.GST_FLOW_ERROR, (gst_ftl_sink_connect p parent).2, [],
      by simp [gst_ftl_video_sink_render, hc], List.nil_sublist _, by simp,
      fun _ => ⟨rfl, rfl⟩⟩
  | true =>
    cases hd : buffer.dts with
    | none =>
      exact ⟨GstFlowReturn.GST_FLOW_ERROR,
        { (gst_ftl_sink_connect p parent).2 with
          errors := (gst_ftl_sink_connect p parent).2.errors
            ++ [ElementError.buffer_without_dts] }, [],
        by simp [gst_ftl_video_sink_render, hc, hd], List.nil_sublist _, by simp,
        fun h => by cases h⟩
    | some t =>
      cases hm : buffer.mappable with
      | false =>
        exact ⟨GstFlowReturn.GST_FLOW_ERROR,
          { (gst_ftl_sink_connect p parent).2 with
            errors := (gst_ftl_sink_connect p parent).2.errors
              ++ [ElementError.failed_to_map_buffer] }, [],
          by simp [gst_ftl_video_sink_render, hc, hd, hm], List.nil_sublist _, by simp,
          fun h => by cases h⟩
      | true =>
        have hsub : (without_type_9 (before_type_0 (nalu_scan buffer.data buffer.past))).Sublist
            (nalu_scan buffer.data buffer.past) :=
          (List.filter_sublist _).trans (List.takeWhile_sublist _)
        rw [video_render_cases p segment parent buffer t hc hd hm]
        simp only [Option.getD_some]
        split
        · split
          · exact ⟨_, _, _, rfl, hsub, rfl, fun h => by cases h⟩
          · exact ⟨_, _, _, rfl, hsub, rfl, fun h => by cases h⟩
        · exact ⟨_, _, _, rfl, hsub, rfl, fun h => by cases h⟩

/-- C11: both render functions pass through `gst_ftl_sink_connect` first: the
provider calls a render call adds are those of the gate (a connect, or none)
followed by sends only, and when the gate returns false the render function
returns `GST_FLOW_ERROR` and adds no send. -/
theorem C11_gate_before_send (p : Provider) (segment : Nat → Nat) (parent : GstFtlSink)
    (buffer : GstBuffer) :
    (∃ ret q sends, gst_ftl_video_sink_render p segment parent buffer = some (ret, q)
        ∧ q.calls = (gst_ftl_sink_connect p parent).2.calls ++ sends
        ∧ (∀ c, c ∈ sends → is_send_call c = true)
        ∧ ((gst_ftl_sink_connect p parent).1 = false →
            ret = GstFlowReturn.GST_FLOW_ERROR ∧ sends = []))
    ∧ (∃ sends, (gst_ftl_audio_sink_render p segment parent buffer).2.calls
          = (gst_ftl_sink_connect p parent).2.calls ++ sends
        ∧ (∀ c, c ∈ sends → is_send_call c = true)
        ∧ ((gst_ftl_sink_connect p parent).1 = false →
            (gst_ftl_audio_sink_render p segment parent buffer).1
                = GstFlowReturn.GST_FLOW_ERROR ∧ sends = []))
    ∧ (gst_ftl_sink_connect p parent).2.calls
        = parent.calls ++ (if parent.connected = true then [] else [ProviderCall.connect]) := by
  refine ⟨?_, ?_, ?_⟩
  · obtain ⟨ret, q, rs, hr, _, hq, hf⟩ := video_render_calls p segment parent buffer
    refine ⟨ret, q, _, hr, hq, ?_, ?_⟩
    · intro c hc
      obtain ⟨r, _, rfl⟩ := List.mem_map.1 hc
      rfl
    · intro h
      obtain ⟨h1, h2⟩ := hf h
      exact ⟨h1, by rw [h2]; rfl⟩
  · cases hc : (gst_ftl_sink_connect p parent).1 with
    | false =>
      exact ⟨[], by simp [gst_ftl_audio_sink_render, hc], by simp,
        fun _ => ⟨by simp [gst_ftl_audio_sink_render, hc], rfl⟩⟩
    | true =>
      cases hd : GST_BUFFER_DTS_OR_PTS buffer with
      | none =>
        exact ⟨[], by simp [gst_ftl_audio_sink_render, hc, hd], by simp,
          fun h => by cases h⟩
      | some t =>
        cases hm : buffer.mappable with
        | false =>
          exact ⟨[], by simp [gst_ftl_audio_sink_render, hc, hd, hm], by simp,
            fun h => by cases h⟩
        | true =>
          exact ⟨[ProviderCall.send_media_dts ftl_media_data_type_t.FTL_AUDIO_DATA
              (GST_TIME_AS_USECONDS (segment t)) 0 buffer.data.length true],
            by simp [gst_ftl_audio_sink_render, hc, hd, hm],
            by simp [is_send_call], fun h => by cases h⟩
  · obtain ⟨c, calls, errors⟩ := parent
    cases c
    · by_cases h : p.connect calls = ftl_status_t.FTL_SUCCESS
      · simp [gst_ftl_sink_connect, h]
      · simp [gst_ftl_sink_connect, h]
    · simp [gst_ftl_sink_connect]

/-! ## The status loop in terms of the drained messages -/

/-- A pass whose polls return the messages `msgs` and then a status code other
than `FTL_SUCCESS` ends, in the state the messages leave behind. -/
theorem status_loop_run_eq (msgs : List ftl_status_msg_t) (status_code : ftl_status_t)
    (message : ftl_status_msg_t) (rest : List (ftl_status_t × ftl_status_msg_t))
    (h : status_code ≠ ftl_status_t.FTL_SUCCESS) :
    ∀ (stats_message : Option GstStructure) (acc : StatusPass),
      status_loop_run (poll_replies msgs status_code message rest) stats_message acc
        = some (status_finish status_code (drain msgs stats_message acc).1
            (drain msgs stats_message acc).2) := by
  induction msgs with
  | nil =>
    intro sm acc
    simp [poll_replies, status_loop_run, drain, h]
  | cons m msgs ih =>
    intro sm acc
    have := ih (status_switch m sm acc).1 (status_switch m sm acc).2
    simp only [poll_replies, List.map_cons, List.cons_append, status_loop_run, if_true, drain,
      List.foldl_cons] at this ⊢
    exact this

theorem drain_cons (m : ftl_status_msg_t) (msgs : List ftl_status_msg_t)
    (sm : Option GstStructure) (acc : StatusPass) :
    drain (m :: msgs) sm acc
      = drain msgs (status_switch m sm acc).1 (status_switch m sm acc).2 := rfl

/-- The switch posts no element message; it posts an element error for an
unexpected disconnect event and for nothing else. -/
theorem status_switch_effects (m : ftl_status_msg_t) (sm : Option GstStructure)
    (acc : StatusPass) :
    (status_switch m sm acc).2.posted = acc.posted
    ∧ (status_switch m sm acc).2.errors
        = acc.errors ++
          (match m with
           | ftl_status_msg_t.event ev =>
             if ev.type = ftl_status_event_types_t.FTL_STATUS_EVENT_TYPE_DISCONNECTED
                 ∧ ev.reason ≠ ftl_status_event_reasons_t.FTL_STATUS_EVENT_REASON_API_REQUEST
             then [ElementError.connection_terminated ev.reason ev.error_code]
             else []
           | _ => []) := by
  cases m with
  | event ev =>
    simp only [status_switch, gst_ftl_sink_handle_event]
    split <;> simp
  | _ => simp [status_switch]

theorem drain_effects (msgs : List ftl_status_msg_t) :
    ∀ (sm : Option GstStructure) (acc : StatusPass),
      (drain msgs sm acc).2.posted = acc.posted
      ∧ (drain msgs sm acc).2.errors = acc.errors ++ fatal_errors msgs := by
  induction msgs with
  | nil => intro sm acc; simp [drain, fatal_errors]
  | cons m msgs ih =>
    intro sm acc
    obtain ⟨h1, h2⟩ := ih (status_switch m sm acc).1 (status_switch m sm acc).2
    obtain ⟨e1, e2⟩ := status_switch_effects m sm acc
    rw [drain_cons, h1, h2, e1, e2]
    refine ⟨rfl, ?_⟩
    rw [List.append_assoc]
    cases m <;> rfl

theorem status_finish_effects (status_code : ftl_status_t) (sm : Option GstStructure)
    (acc : StatusPass) :
    (status_finish status_code sm acc).errors = acc.errors
    ∧ (status_finish status_code sm acc).posted = acc.posted ++ sm.toList := by
  unfold status_finish
  cases sm <;> (simp only []; split <;> simp)

/-! ## C12: the fatal condition -/

/-- C12: in a pass whose polls return the messages `msgs` and then a timeout
or an error, the element errors posted are, in order, one per connection event
of type Disconnected with a reason other than ApiRequest, carrying that
event's reason and error code; no other message and no poll result posts
one. -/
theorem C12_fatal_condition (msgs : List ftl_status_msg_t) (status_code : ftl_status_t)
    (message : ftl_status_msg_t) (rest : List (ftl_status_t × ftl_status_msg_t))
    (h : status_code ≠ ftl_status_t.FTL_SUCCESS) :
    (∃ pass, gst_ftl_sink_status_loop (poll_replies msgs status_code message rest)
          = some pass
        ∧ pass.errors = fatal_errors msgs)
    ∧ (∀ m e, e ∈ fatal_of_message m ↔
        ∃ ev, m = ftl_status_msg_t.event ev
          ∧ ev.type = ftl_status_event_types_t.FTL_STATUS_EVENT_TYPE_DISCONNECTED
          ∧ ev.reason ≠ ftl_status_event_reasons_t.FTL_STATUS_EVENT_REASON_API_REQUEST
          ∧ e = ElementError.connection_terminated ev.reason ev.error_code)
    ∧ (∀ e, e ∈ fatal_errors msgs ↔ ∃ m, m ∈ msgs ∧ e ∈ fatal_of_message m) := by
  refine ⟨?_, ?_, ?_⟩
  · refine ⟨_, status_loop_run_eq msgs status_code message rest h _ _, ?_⟩
    rw [(status_finish_effects _ _ _).1, (drain_effects msgs _ _).2]
    rfl
  · intro m e
    constructor
    · intro he
      cases m with
      | event ev =>
        simp only [fatal_of_message] at he
        split at he
        · rename_i hc
          simp only [List.mem_singleton] at he
          exact ⟨ev, rfl, hc.1, hc.2, he⟩
        · simp at he
      | _ => simp [fatal_of_message] at he
    · rintro ⟨ev, rfl, h1, h2, rfl⟩
      simp [fatal_of_message, h1, h2]
  · intro e
    induction msgs with
    | nil => simp [fatal_errors]
    | cons m msgs ih =>
      simp only [fatal_errors, List.mem_append, List.mem_cons, ih]
      constructor
      · rintro (h1 | ⟨x, hx, hx2⟩)
        · exact ⟨m, Or.inl rfl, h1⟩
        · exact ⟨x, Or.inr hx, hx2⟩
      · rintro ⟨x, rfl | hx, hx2⟩
        · exact Or.inl hx2
        · exact Or.inr ⟨x, hx, hx2⟩

/-! ## The stats structure after a pass -/

theorem get_set_field (fs : List (String × GValue)) (n : String) (v : GValue) (k : String) :
    ((gst_structure_set_field fs n v).find? (fun f => decide (f.1 = k))).map (fun f => f.2)
      = if n = k then some v
        else (fs.find? (fun f => decide (f.1 = k))).map (fun f => f.2) := by
  induction fs with
  | nil =>
    by_cases h : n = k <;> simp [gst_structure_set_field, List.find?, h]
  | cons f rest ih =>
    obtain ⟨n2, w⟩ := f
    by_cases h1 : n2 = n
    · subst h1
      by_cases h2 : n2 = k <;> simp [gst_structure_set_field, List.find?, h2]
    · by_cases h2 : n2 = k
      · subst h2
        have h3 : ¬ n = n2 := fun e => h1 e.symm
        simp [gst_structure_set_field, List.find?, h1, h3]
      · simp only [gst_structure_set_field, if_neg h1, List.find?, h2, decide_False]
        exact ih

theorem get_structure_set (s : GstStructure) (new : List (String × GValue)) (k : String) :
    gst_structure_get (gst_structure_set s new) k
      = last_value_or (gst_structure_get s k) new k := by
  obtain ⟨name, fs⟩ := s
  simp only [gst_structure_get, gst_structure_set, last_value_or]
  induction new generalizing fs with
  | nil => rfl
  | cons f new ih =>
    simp only [List.foldl_cons]
    rw [ih, get_set_field]

/-- The switch sets the fields `stats_fields` of a message of a stats kind,
in a fresh structure when there is none yet, and leaves `stats_message` alone
for any other message. -/
theorem status_switch_stats (m : ftl_status_msg_t) (sm : Option GstStructure)
    (acc : StatusPass) :
    (status_switch m sm acc).1
      = if is_stats_message m = true then
          some (gst_structure_set (sm.getD gst_structure_new_id_empty) (stats_fields m))
        else sm := by
  cases m <;> simp [status_switch, is_stats_message, stats_fields]

theorem stats_fields_nil (m : ftl_status_msg_t) (h : is_stats_message m = false) :
    stats_fields m = [] := by
  cases m <;> simp_all [is_stats_message, stats_fields]

/-- The value of a field after the switch. -/
theorem status_switch_get (m : ftl_status_msg_t) (sm : Option GstStructure)
    (acc : StatusPass) (k : String) :
    gst_structure_get ((status_switch m sm acc).1.getD gst_structure_new_id_empty) k
      = last_value_or (gst_structure_get (sm.getD gst_structure_new_id_empty) k)
          (stats_fields m) k := by
  rw [status_switch_stats]
  cases h : is_stats_message m with
  | true => simp only [if_true, Option.getD_some, get_structure_set]
  | false =>
    rw [stats_fields_nil m h]
    simp [last_value_or]

/-- The value of a field after the messages of a pass. -/
theorem drain_get (msgs : List ftl_status_msg_t) (k : String) :
    ∀ (sm : Option GstStructure) (acc : StatusPass),
      gst_structure_get ((drain msgs sm acc).1.getD gst_structure_new_id_empty) k
        = field_after k msgs (gst_structure_get (sm.getD gst_structure_new_id_empty) k) := by
  induction msgs with
  | nil => intro sm acc; rfl
  | cons m msgs ih =>
    intro sm acc
    rw [drain_cons, ih, status_switch_get]
    rfl

/-- There is a stats structure after the messages exactly when there was one
before or one of the messages is of a stats kind. -/
theorem drain_isSome (msgs : List ftl_status_msg_t) :
    ∀ (sm : Option GstStructure) (acc : StatusPass),
      (drain msgs sm acc).1.isSome = (sm.isSome || msgs.any is_stats_message) := by
  induction msgs with
  | nil => intro sm acc; simp [drain]
  | cons m msgs ih =>
    intro sm acc
    rw [drain_cons, ih, status_switch_stats]
    cases h : is_stats_message m <;> cases sm <;> simp [h]

theorem last_value_or_isSome (fs : List (String × GValue)) (k : String) :
    ∀ d : Option GValue,
      ((last_value_or d fs k).isSome = true ↔ (d.isSome = true ∨ ∃ f, f ∈ fs ∧ f.1 = k)) := by
  induction fs with
  | nil => intro d; simp [last_value_or]
  | cons f fs ih =>
    intro d
    have h := ih (if f.1 = k then some f.2 else d)
    simp only [last_value_or, List.foldl_cons] at h ⊢
    rw [h]
    by_cases hk : f.1 = k
    · simp [hk]
    · simp [hk]

theorem field_after_isSome (k : String) (msgs : List ftl_status_msg_t) :
    ∀ d : Option GValue,
      ((field_after k msgs d).isSome = true
        ↔ (d.isSome = true ∨ ∃ m, m ∈ msgs ∧ ∃ f, f ∈ stats_fields m ∧ f.1 = k)) := by
  induction msgs with
  | nil => intro d; simp [field_after]
  | cons m msgs ih =>
    intro d
    have h := ih (last_value_or d (stats_fields m) k)
    simp only [field_after, List.foldl_cons] at h ⊢
    rw [h, last_value_or_isSome]
    simp only [List.mem_cons, exists_eq_or_imp, or_assoc]

theorem field_after_absent (k : String) (msgs : List ftl_status_msg_t) :
    (∀ x, x ∈ msgs → ∀ d, last_value_or d (stats_fields x) k = d) →
      ∀ d, field_after k msgs d = d := by
  induction msgs with
  | nil => intro _ d; rfl
  | cons m msgs ih =>
    intro h d
    simp only [field_after, List.foldl_cons]
    rw [h m (List.mem_cons_self _ _) d]
    exact ih (fun x hx => h x (List.mem_cons_of_mem _ hx)) d

theorem field_after_last (k : String) (v : GValue) (pre post : List ftl_status_msg_t)
    (m : ftl_status_msg_t) (d : Option GValue)
    (hm : ∀ d, last_value_or d (stats_fields m) k = some v)
    (hpost : ∀ x, x ∈ post → ∀ d, last_value_or d (stats_fields x) k = d) :
    field_after k (pre ++ m :: post) d = some v := by
  simp only [field_after, List.foldl_append, List.foldl_cons]
  rw [hm]
  exact field_after_absent k post hpost (some v)

/-- A pass whose polls return the messages `msgs` and then a status code other
than `FTL_SUCCESS`: it ends; it posts one stats structure when a message
of a stats kind was among them and none otherwise; and every field of the
posted structure has the value the messages of this pass leave in it. -/
theorem status_pass_stats (msgs : List ftl_status_msg_t) (status_code : ftl_status_t)
    (message : ftl_status_msg_t) (rest : List (ftl_status_t × ftl_status_msg_t))
    (h : status_code ≠ ftl_status_t.FTL_SUCCESS) :
    ∃ pass, gst_ftl_sink_status_loop (poll_replies msgs status_code message rest)
        = some pass
      ∧ pass.posted.length = (if msgs.any is_stats_message = true then 1 else 0)
      ∧ ∀ s, s ∈ pass.posted → ∀ k, gst_structure_get s k = field_after k msgs none := by
  refine ⟨_, status_loop_run_eq msgs status_code message rest h _ _, ?_, ?_⟩
  · rw [(status_finish_effects _ _ _).2, (drain_effects msgs _ _).1]
    have hs := drain_isSome msgs none { logs := [], errors := [], posted := [] }
    cases hd : (drain msgs none { logs := [], errors := [], posted := [] }).1 with
    | none =>
      rw [hd] at hs
      simp only [Option.isSome_none, Bool.false_or] at hs
      rw [← hs]; simp
    | some s =>
      rw [hd] at hs
      simp only [Option.isSome_some, Option.isSome_none, Bool.false_or] at hs
      rw [← hs]; simp
  · intro s hs k
    rw [(status_finish_effects _ _ _).2, (drain_effects msgs _ _).1] at hs
    have hg := drain_get msgs k none { logs := [], errors := [], posted := [] }
    cases hd : (drain msgs none { logs := [], errors := [], posted := [] }).1 with
    | none => rw [hd] at hs; simp at hs
    | some s2 =>
      rw [hd] at hs hg
      simp at hs
      subst hs
      simpa [gst_structure_get, gst_structure_new_id_empty] using hg

/-! ## C13: the stats summary of a pass -/

/-- C13: a pass whose polls return the messages `msgs` and then a timeout or
an error posts exactly one stats structure when `msgs` holds a message of a
stats kind and none otherwise; the structure posted has every field of every
stats message of the pass, and every field it has is a field of a stats
message of this pass. -/
theorem C13_summary_once (msgs : List ftl_status_msg_t) (status_code : ftl_status_t)
    (message : ftl_status_msg_t) (rest : List (ftl_status_t × ftl_status_msg_t))
    (h : status_code ≠ ftl_status_t.FTL_SUCCESS) :
    ∃ pass, gst_ftl_sink_status_loop (poll_replies msgs status_code message rest)
        = some pass
      ∧ pass.posted.length = (if msgs.any is_stats_message = true then 1 else 0)
      ∧ ∀ s, s ∈ pass.posted →
          (∀ m, m ∈ msgs → ∀ f, f ∈ stats_fields m →
            (gst_structure_get s f.1).isSome = true)
          ∧ (∀ k, (gst_structure_get s k).isSome = true →
            ∃ m, m ∈ msgs ∧ ∃ f, f ∈ stats_fields m ∧ f.1 = k) := by
  obtain ⟨pass, hp, hlen, hget⟩ := status_pass_stats msgs status_code message rest h
  refine ⟨pass, hp, hlen, ?_⟩
  intro s hs
  constructor
  · intro m hm f hf
    rw [hget s hs, field_after_isSome]
    exact Or.inr ⟨m, hm, f, hf, rfl⟩
  · intro k hk
    rw [hget s hs, field_after_isSome] at hk
    rcases hk with hk | hk
    · simp at hk
    · exact hk

/-! ## C20: later stats replace earlier ones -/

theorem skip_packet_stats (x : ftl_status_msg_t)
    (hx : ∀ m, x ≠ ftl_status_msg_t.video_packets m) (k : String)
    (hk : k = "time-total" ∨ k = "packets-sent" ∨ k = "nacks-received")
    (d : Option GValue) : last_value_or d (stats_fields x) k = d := by
  cases x with
  | video_packets m => exact (hx m rfl).elim
  | _ => rcases hk with rfl | rfl | rfl <;> simp [stats_fields, last_value_or]

theorem skip_instant_stats (x : ftl_status_msg_t)
    (hx : ∀ m, x ≠ ftl_status_msg_t.video_packets_instant m) (k : String)
    (hk : k = "time-interval" ∨ k = "rtt-min" ∨ k = "rtt-max" ∨ k = "rtt-avg"
      ∨ k = "xmit-delay-min" ∨ k = "xmit-delay-max" ∨ k = "xmit-delay-avg")
    (d : Option GValue) : last_value_or d (stats_fields x) k = d := by
  cases x with
  | video_packets_instant m => exact (hx m rfl).elim
  | _ =>
    rcases hk with rfl | rfl | rfl | rfl | rfl | rfl | rfl <;>
      simp [stats_fields, last_value_or]

theorem skip_video_stats (x : ftl_status_msg_t)
    (hx : ∀ m, x ≠ ftl_status_msg_t.video m) (k : String)
    (hk : k = "video-frames-queued" ∨ k = "video-frames-sent" ∨ k = "video-bytes-queued"
      ∨ k = "video-bytes-sent" ∨ k = "video-queue-level" ∨ k = "video-max-frame-size")
    (d : Option GValue) : last_value_or d (stats_fields x) k = d := by
  cases x with
  | video m => exact (hx m rfl).elim
  | _ =>
    rcases hk with rfl | rfl | rfl | rfl | rfl | rfl <;>
      simp [stats_fields, last_value_or]

/-- C20: in the stats structure a pass posts, the fields of a stats kind hold
the values of the last message of that kind in the pass, and they are absent
when the pass held no message of that kind. -/
theorem C20_last_stats_replace (msgs : List ftl_status_msg_t) (status_code : ftl_status_t)
    (message : ftl_status_msg_t) (rest : List (ftl_status_t × ftl_status_msg_t))
    (h : status_code ≠ ftl_status_t.FTL_SUCCESS) :
    ∃ pass, gst_ftl_sink_status_loop (poll_replies msgs status_code message rest)
        = some pass
      ∧ ∀ s, s ∈ pass.posted →
        (∀ pre m post, msgs = pre ++ ftl_status_msg_t.video_packets m :: post →
          (∀ x, x ∈ post → ∀ m2, x ≠ ftl_status_msg_t.video_packets m2) →
          gst_structure_get s "time-total" = some (period_clock_time m.period)
          ∧ gst_structure_get s "packets-sent" = some (GValue.int64 m.sent)
          ∧ gst_structure_get s "nacks-received" = some (GValue.int64 m.nack_reqs))
        ∧ (∀ pre m post, msgs = pre ++ ftl_status_msg_t.video_packets_instant m :: post →
          (∀ x, x ∈ post → ∀ m2, x ≠ ftl_status_msg_t.video_packets_instant m2) →
          gst_structure_get s "time-interval" = some (period_clock_time m.period)
          ∧ gst_structure_get s "rtt-min" = some (GValue.int m.min_rtt)
          ∧ gst_structure_get s "rtt-max" = some (GValue.int m.max_rtt)
          ∧ gst_structure_get s "rtt-avg" = some (GValue.int m.avg_rtt)
          ∧ gst_structure_get s "xmit-delay-min" = some (GValue.int m.min_xmit_delay)
          ∧ gst_structure_get s "xmit-delay-max" = some (GValue.int m.max_xmit_delay)
          ∧ gst_structure_get s "xmit-delay-avg" = some (GValue.int m.avg_xmit_delay))
        ∧ (∀ pre m post, msgs = pre ++ ftl_status_msg_t.video m :: post →
          (∀ x, x ∈ post → ∀ m2, x ≠ ftl_status_msg_t.video m2) →
          gst_structure_get s "video-frames-queued" = some (GValue.int64 m.frames_queued)
          ∧ gst_structure_get s "video-frames-sent" = some (GValue.int64 m.frames_sent)
          ∧ gst_structure_get s "video-bytes-queued" = some (GValue.int64 m.bytes_queued)
          ∧ gst_structure_get s "video-bytes-sent" = some (GValue.int64 m.bytes_sent)
          ∧ gst_structure_get s "video-queue-level" = some (GValue.int m.queue_fullness)
          ∧ gst_structure_get s "video-max-frame-size" = some (GValue.int m.max_frame_size))
        ∧ ((∀ x, x ∈ msgs → ∀ m2, x ≠ ftl_status_msg_t.video_packets m2) →
          gst_structure_get s "time-total" = none
          ∧ gst_structure_get s "packets-sent" = none
          ∧ gst_structure_get s "nacks-received" = none)
        ∧ ((∀ x, x ∈ msgs → ∀ m2, x ≠ ftl_status_msg_t.video_packets_instant m2) →
          gst_structure_get s "time-interval" = none
          ∧ gst_structure_get s "rtt-min" = none
          ∧ gst_structure_get s "rtt-max" = none
          ∧ gst_structure_get s "rtt-avg" = none
          ∧ gst_structure_get s "xmit-delay-min" = none
          ∧ gst_structure_get s "xmit-delay-max" = none
          ∧ gst_structure_get s "xmit-delay-avg" = none)
        ∧ ((∀ x, x ∈ msgs → ∀ m2, x ≠ ftl_status_msg_t.video m2) →
          gst_structure_get s "video-frames-queued" = none
          ∧ gst_structure_get s "video-frames-sent" = none
          ∧ gst_structure_get s "video-bytes-queued" = none
          ∧ gst_structure_get s "video-bytes-sent" = none
          ∧ gst_structure_get s "video-queue-level" = none
          ∧ gst_structure_get s "video-max-frame-size" = none) := by
  obtain ⟨pass, hp, _, hget⟩ := status_pass_stats msgs status_code message rest h
  refine ⟨pass, hp, ?_⟩
  intro s hs
  simp only [hget s hs]
  refine ⟨?_, ?_, ?_, ?_, ?_, ?_⟩
  · intro pre m post hmsgs hpost
    subst hmsgs
    refine ⟨?_, ?_, ?_⟩ <;>
      exact field_after_last _ _ pre post _ none
        (fun d => by simp [stats_fields, last_value_or])
        (fun x hx d => skip_packet_stats x (hpost x hx) _ (by simp) d)
  · intro pre m post hmsgs hpost
    subst hmsgs
    refine ⟨?_, ?_, ?_, ?_, ?_, ?_, ?_⟩ <;>
      exact field_after_last _ _ pre post _ none
        (fun d => by simp [stats_fields, last_value_or])
        (fun x hx d => skip_instant_stats x (hpost x hx) _ (by simp) d)
  · intro pre m post hmsgs hpost
    subst hmsgs
    refine ⟨?_, ?_, ?_, ?_, ?_, ?_⟩ <;>
      exact field_after_last _ _ pre post _ none
        (fun d => by simp [stats_fields, last_value_or])
        (fun x hx d => skip_video_stats x (hpost x hx) _ (by simp) d)
  · intro hno
    refine ⟨?_, ?_, ?_⟩ <;>
      exact field_after_absent _ msgs
        (fun x hx d => skip_packet_stats x (hno x hx) _ (by simp) d) none
  · intro hno
    refine ⟨?_, ?_, ?_, ?_, ?_, ?_, ?_⟩ <;>
      exact field_after_absent _ msgs
        (fun x hx d => skip_instant_stats x (hno x hx) _ (by simp) d) none
  · intro hno
    refine ⟨?_, ?_, ?_, ?_, ?_, ?_⟩ <;>
      exact field_after_absent _ msgs
        (fun x hx d => skip_video_stats x (hno x hx) _ (by simp) d) none

/-- C20, witness: two packet statistics messages in one pass; the structure
posted holds the values of the second and no video frame field. -/
theorem C20_last_stats_replace_witness :
    ftl_status_t.FTL_STATUS_TIMEOUT ≠ ftl_status_t.FTL_SUCCESS
    ∧ gst_ftl_sink_status_loop
        (poll_replies [ftl_status_msg_t.video_packets packet_stats_a,
            ftl_status_msg_t.video_packets packet_stats_b]
          ftl_status_t.FTL_STATUS_TIMEOUT
          (ftl_status_msg_t.video_packets packet_stats_b) [])
      = some
        { logs := [StatusLog.packet_stats packet_stats_a,
            StatusLog.packet_stats packet_stats_b, StatusLog.status_queue_empty]
          errors := []
          posted := [{ name := "ftl-stats"
                       fields := [("time-total", GValue.clock_time 2000000000),
                         ("packets-sent", GValue.int64 70),
                         ("nacks-received", GValue.int64 5)] }] }
    ∧ ∃ pass, gst_ftl_sink_status_loop
        (poll_replies [ftl_status_msg_t.video_packets packet_stats_a,
            ftl_status_msg_t.video_packets packet_stats_b]
          ftl_status_t.FTL_STATUS_TIMEOUT
          (ftl_status_msg_t.video_packets packet_stats_b) []) = some pass :=
  ⟨by decide, by decide,
    (C20_last_stats_replace [ftl_status_msg_t.video_packets packet_stats_a,
        ftl_status_msg_t.video_packets packet_stats_b]
      ftl_status_t.FTL_STATUS_TIMEOUT
      (ftl_status_msg_t.video_packets packet_stats_b) [] (by decide)).imp
      (fun _ hp => hp.1)⟩

/-- C13, witness: one packet statistics message and one video frame
statistics message in a pass that ends with a poll error; one structure with
the fields of both is posted. -/
theorem C13_summary_once_witness :
    ftl_status_t.failure 6 ≠ ftl_status_t.FTL_SUCCESS
    ∧ gst_ftl_sink_status_loop
        (poll_replies [ftl_status_msg_t.video_packets packet_stats_a,
            ftl_status_msg_t.video video_stats_a]
          (ftl_status_t.failure 6) (ftl_status_msg_t.video video_stats_a) [])
      = some
        { logs := [StatusLog.packet_stats packet_stats_a,
            StatusLog.video_frame_stats video_stats_a,
            StatusLog.failed_to_get_status (ftl_status_t.failure 6)]
          errors := []
          posted := [{ name := "ftl-stats"
                       fields := [("time-total", GValue.clock_time 1000000000),
                         ("packets-sent", GValue.int64 50),
                         ("nacks-received", GValue.int64 2),
                         ("video-frames-queued", GValue.int64 30),
                         ("video-frames-sent", GValue.int64 29),
                         ("video-bytes-queued", GValue.int64 90000),
                         ("video-bytes-sent", GValue.int64 87000),
                         ("video-queue-level", GValue.int 1),
                         ("video-max-frame-size", GValue.int 4000)] }] }
    ∧ ∃ pass, gst_ftl_sink_status_loop
        (poll_replies [ftl_status_msg_t.video_packets packet_stats_a,
            ftl_status_msg_t.video video_stats_a]
          (ftl_status_t.failure 6) (ftl_status_msg_t.video video_stats_a) []) = some pass
      ∧ pass.posted.length
          = (if [ftl_status_msg_t.video_packets packet_stats_a,
                ftl_status_msg_t.video video_stats_a].any is_stats_message = true
              then 1 else 0) :=
  ⟨by decide, by decide,
    (C13_summary_once [ftl_status_msg_t.video_packets packet_stats_a,
        ftl_status_msg_t.video video_stats_a]
      (ftl_status_t.failure 6) (ftl_status_msg_t.video video_stats_a) [] (by decide)).imp
      (fun _ hp => ⟨hp.1, hp.2.1⟩)⟩

/-- C12, witness: a pass with a log line, an unexpected disconnect, a
requested disconnect and a stats message, ended by a timeout: one element
error, for the unexpected disconnect. -/
theorem C12_fatal_condition_witness :
    ftl_status_t.FTL_STATUS_TIMEOUT ≠ ftl_status_t.FTL_SUCCESS
    ∧ fatal_errors
        [ftl_status_msg_t.log
            { log_level := ftl_log_severity_t.FTL_LOG_WARN, string := "late " },
          ftl_status_msg_t.event unexpected_disconnect,
          ftl_status_msg_t.event requested_disconnect,
          ftl_status_msg_t.video_packets packet_stats_a]
      = [ElementError.connection_terminated
          ftl_status_event_reasons_t.FTL_STATUS_EVENT_REASON_NO_MEDIA
          (ftl_status_t.failure 1)]
    ∧ ∃ pass, gst_ftl_sink_status_loop
        (poll_replies
          [ftl_status_msg_t.log
              { log_level := ftl_log_severity_t.FTL_LOG_WARN, string := "late " },
            ftl_status_msg_t.event unexpected_disconnect,
            ftl_status_msg_t.event requested_disconnect,
            ftl_status_msg_t.video_packets packet_stats_a]
          ftl_status_t.FTL_STATUS_TIMEOUT
          (ftl_status_msg_t.video_packets packet_stats_a) []) = some pass
      ∧ pass.errors = fatal_errors
          [ftl_status_msg_t.log
              { log_level := ftl_log_severity_t.FTL_LOG_WARN, string := "late " },
            ftl_status_msg_t.event unexpected_disconnect,
            ftl_status_msg_t.event requested_disconnect,
            ftl_status_msg_t.video_packets packet_stats_a] :=
  ⟨by decide, by decide,
    (C12_fatal_condition
      [ftl_status_msg_t.log
          { log_level := ftl_log_severity_t.FTL_LOG_WARN, string := "late " },
        ftl_status_msg_t.event unexpected_disconnect,
        ftl_status_msg_t.event requested_disconnect,
        ftl_status_msg_t.video_packets packet_stats_a]
      ftl_status_t.FTL_STATUS_TIMEOUT
      (ftl_status_msg_t.video_packets packet_stats_a) [] (by decide)).1⟩

/-! ## C16: the nack ratio of a bitrate change -/

/-- C16: with the ratio taken as an exact number, a ratio strictly between 0
and 1 is logged as its inverse in "frames per nack" and any other ratio is
logged unchanged in "nacks per frame"; the ratio 1/4 gives 4 frames per nack
and the ratio 4 gives 4 nacks per frame; this is the value and unit the switch
logs for a bitrate change message. -/
theorem C16_nack_presentation (r : Rat) :
    ((0 < r ∧ r < 1) → bitrate_nack_presentation r = (1 / r, "frames per nack"))
    ∧ (¬ (0 < r ∧ r < 1) → bitrate_nack_presentation r = (r, "nacks per frame"))
    ∧ bitrate_nack_presentation (1 / 4) = (4, "frames per nack")
    ∧ bitrate_nack_presentation 4 = (4, "nacks per frame")
    ∧ (∀ msg sm acc, msg.nacks_to_frames_ratio = r →
        status_switch (ftl_status_msg_t.bitrate_changed msg) sm acc
          = (sm, { acc with
              logs := acc.logs ++ [StatusLog.bitrate_change msg
                (bitrate_nack_presentation r).1 (bitrate_nack_presentation r).2] })) := by
  refine ⟨?_, ?_, ?_, ?_, ?_⟩
  · intro h
    simp [bitrate_nack_presentation, h.1, h.2]
  · intro h
    unfold bitrate_nack_presentation
    simp only [gt_iff_lt]
    rw [if_neg h]
  · unfold bitrate_nack_presentation
    norm_num
  · unfold bitrate_nack_presentation
    norm_num
  · intro msg sm acc hr
    subst hr
    rfl

/-! ## C17: log severities -/

/-- C17: `gst_ftl_log_severity_to_level` maps critical and error to Error, warn
to Warning, info to Info, debug to Debug and every other value to Log. -/
theorem C17_severity_to_level :
    gst_ftl_log_severity_to_level ftl_log_severity_t.FTL_LOG_CRITICAL
        = GstDebugLevel.GST_LEVEL_ERROR
    ∧ gst_ftl_log_severity_to_level ftl_log_severity_t.FTL_LOG_ERROR
        = GstDebugLevel.GST_LEVEL_ERROR
    ∧ gst_ftl_log_severity_to_level ftl_log_severity_t.FTL_LOG_WARN
        = GstDebugLevel.GST_LEVEL_WARNING
    ∧ gst_ftl_log_severity_to_level ftl_log_severity_t.FTL_LOG_INFO
        = GstDebugLevel.GST_LEVEL_INFO
    ∧ gst_ftl_log_severity_to_level ftl_log_severity_t.FTL_LOG_DEBUG
        = GstDebugLevel.GST_LEVEL_DEBUG
    ∧ (∀ value, gst_ftl_log_severity_to_level (ftl_log_severity_t.other value)
        = GstDebugLevel.GST_LEVEL_LOG)
    ∧ (∀ msg sm acc, status_switch (ftl_status_msg_t.log msg) sm acc
        = (sm, { acc with
            logs := acc.logs ++ [StatusLog.ftl_log
              (gst_ftl_log_severity_to_level msg.log_level) (g_strchomp msg.string)] })) :=
  ⟨rfl, rfl, rfl, rfl, rfl, fun _ => rfl, fun _ _ _ => rfl⟩

/-! ## C14: a failed disconnect in PAUSED_TO_READY -/

/-- C14 as stated fails: with a connected session and a provider whose
disconnect fails, the change PAUSED_TO_READY returns
`GST_STATE_CHANGE_FAILURE` although the parent class and the join would
succeed, and the status task is left started. -/
theorem C14_failed_disconnect_fails_transition :
    gst_ftl_sink_change_state env_provider_down
        { sink := { connected := true, calls := [], errors := [] }
          async_connect := true, handle_created := true, task_started := true }
        GstStateChange.GST_STATE_CHANGE_PAUSED_TO_READY
      = (GstStateChangeReturn.GST_STATE_CHANGE_FAILURE,
          { sink := { connected := true, calls := [ProviderCall.disconnect], errors := [] }
            async_connect := true, handle_created := true, task_started := true }) := by
  decide

/-- C14 (amended): in the change PAUSED_TO_READY, once the parent class's
`change_state` has not failed, a failed disconnect makes the change return
`GST_STATE_CHANGE_FAILURE`; when the disconnect succeeds the task is joined
next, and the change returns the parent's result with the task stopped if the
join succeeds and `GST_STATE_CHANGE_FAILURE` if it fails. -/
theorem C14_paused_to_ready (env : ChangeStateEnv) (self : FtlSinkElement)
    (hp : env.parent_change_state ≠ GstStateChangeReturn.GST_STATE_CHANGE_FAILURE) :
    ((gst_ftl_sink_disconnect env.provider self.sink).1 = false →
      (gst_ftl_sink_change_state env self GstStateChange.GST_STATE_CHANGE_PAUSED_TO_READY).1
        = GstStateChangeReturn.GST_STATE_CHANGE_FAILURE)
    ∧ ((gst_ftl_sink_disconnect env.provider self.sink).1 = true →
      gst_ftl_sink_change_state env self GstStateChange.GST_STATE_CHANGE_PAUSED_TO_READY
        = (if env.task_join = true then
            (env.parent_change_state,
              { self with
                sink := (gst_ftl_sink_disconnect env.provider self.sink).2
                task_started := false })
           else
            (GstStateChangeReturn.GST_STATE_CHANGE_FAILURE,
              { self with sink := (gst_ftl_sink_disconnect env.provider self.sink).2 }))) := by
  constructor
  · intro hd
    simp [gst_ftl_sink_change_state, change_state_upward, change_state_downward, hp, hd]
  · intro hd
    cases hj : env.task_join <;>
      simp [gst_ftl_sink_change_state, change_state_upward, change_state_downward, hp, hd, hj]

/-- C14, witness: a connected session whose disconnect and join succeed. -/
theorem C14_paused_to_ready_witness :
    env_ok.parent_change_state ≠ GstStateChangeReturn.GST_STATE_CHANGE_FAILURE
    ∧ gst_ftl_sink_change_state env_ok
        { sink := { connected := true, calls := [], errors := [] }
          async_connect := true, handle_created := true, task_started := true }
        GstStateChange.GST_STATE_CHANGE_PAUSED_TO_READY
      = (GstStateChangeReturn.GST_STATE_CHANGE_SUCCESS,
          { sink := { connected := false, calls := [ProviderCall.disconnect], errors := [] }
            async_connect := true, handle_created := true, task_started := false })
    ∧ gst_ftl_sink_change_state env_ok
        { sink := { connected := true, calls := [], errors := [] }
          async_connect := true, handle_created := true, task_started := true }
        GstStateChange.GST_STATE_CHANGE_PAUSED_TO_READY
      = (if env_ok.task_join = true then
          (env_ok.parent_change_state,
            { sink := (gst_ftl_sink_disconnect env_ok.provider
                { connected := true, calls := [], errors := [] }).2
              async_connect := true, handle_created := true, task_started := false })
         else
          (GstStateChangeReturn.GST_STATE_CHANGE_FAILURE,
            { sink := (gst_ftl_sink_disconnect env_ok.provider
                { connected := true, calls := [], errors := [] }).2
              async_connect := true, handle_created := true, task_started := true })) :=
  ⟨by decide, by decide,
    (C14_paused_to_ready env_ok
      { sink := { connected := true, calls := [], errors := [] }
        async_connect := true, handle_created := true, task_started := true }
      (by decide)).2 (by decide)⟩

/-! ## C15: the status task and the handle -/

/-- C15, the code at the failing input: Null to Ready succeeds; Ready to Paused
starts the task and then fails because the eager connect fails, so the element
stays in Ready with the task started; Ready to Null then destroys the handle.
The element ends in Null with the task started and no handle. -/
theorem C15_task_outlives_handle :
    lifecycle_run
        [(env_ok, GstStateChange.GST_STATE_CHANGE_NULL_TO_READY),
         (env_provider_down, GstStateChange.GST_STATE_CHANGE_READY_TO_PAUSED),
         (env_ok, GstStateChange.GST_STATE_CHANGE_READY_TO_NULL)]
        element_new
      = (GstState.GST_STATE_NULL,
          { sink :=
              { connected := false, calls := [ProviderCall.connect]
                errors := [ElementError.failed_to_connect (ftl_status_t.failure 1)] }
            async_connect := true, handle_created := false, task_started := true }) := by
  decide

/-! ## Where the records start -/

/-- The reads of the render loop are the unit pointers of the records it
visits. -/
theorem video_loop_reads_eq (input : List Octet) (past : Octet) :
    ∀ (fuel : Nat) (data : Option Nat),
      video_loop_reads input past fuel data
        = (visited_records (nalu_scan_loop input past fuel data)).map (fun r => r.data) := by
  intro fuel
  induction fuel with
  | zero =>
    intro data
    cases data <;> simp [video_loop_reads, nalu_scan_loop, visited_records]
  | succ fuel ih =>
    intro data
    cases data with
    | none => simp [video_loop_reads, nalu_scan_loop, visited_records]
    | some d =>
      simp only [video_loop_reads, nalu_scan_loop, visited_records]
      split
      · rfl
      · rw [ih]; rfl

/-- Every record starts right behind a start code. -/
theorem scan_chain_start (input : List Octet) (past : Octet) :
    ∀ (rs : List NaluRecord) (d : Nat), scan_chain input past d rs →
      start_code_at input (d - 3) → 3 ≤ d →
      ∀ r, r ∈ rs → 3 ≤ r.data ∧ start_code_at input (r.data - 3) := by
  intro rs
  induction rs with
  | nil => intro d h; exact h.elim
  | cons r rest ih =>
    intro d h hs hd3 s hmem
    obtain ⟨_, hdata, _, hcase⟩ := h
    rcases List.mem_cons.1 hmem with h1 | h1
    · subst h1; rw [hdata]; exact ⟨hd3, hs⟩
    · rcases hcase with ⟨_, hrest, _, _⟩ | ⟨j, _, _, _, hocc, _, _, hch⟩
      · subst hrest; simp at h1
      · exact ih (j + 3) hch (by simpa using hocc) (by omega) s h1

/-- Every start code at or behind the loop's first pointer has its record. -/
theorem scan_chain_hits (input : List Octet) (past : Octet) :
    ∀ (rs : List NaluRecord) (d : Nat), scan_chain input past d rs →
      ∀ j, d ≤ j → start_code_at input j → ∃ r, r ∈ rs ∧ r.data = j + 3 := by
  intro rs
  induction rs with
  | nil => intro d h; exact h.elim
  | cons r rest ih =>
    intro d h j hdj hj
    obtain ⟨_, hdata, _, hcase⟩ := h
    rcases hcase with ⟨_, _, _, hno⟩ | ⟨j0, hj0, _, _, hocc, hmin, _, hch⟩
    · exact (hno j hdj hj).elim
    · by_cases hlt : j < j0
      · exact (hmin j hdj hlt hj).elim
      · by_cases heq : j = j0
        · subst heq
          cases rest with
          | nil => exact hch.elim
          | cons r2 rest2 =>
            exact ⟨r2, by simp, hch.2.1⟩
        · have hge : j0 + 3 ≤ j := by
            by_contra hc
            exact no_straddle input (j0 + 2) j hocc.2.2 hj (by omega)
          obtain ⟨s, hs, hsd⟩ := ih (j0 + 3) hch j hge hj
          exact ⟨s, List.mem_cons_of_mem _ hs, hsd⟩

/-- The records of a buffer are the units behind its start codes: a record
starts at `j + 3` exactly when a start code occurs at `j`. -/
theorem nalu_scan_starts (input : List Octet) (past : Octet) (n : Nat) :
    (∃ r, r ∈ nalu_scan input past ∧ r.data = n)
      ↔ (3 ≤ n ∧ start_code_at input (n - 3)) := by
  rcases nalu_scan_shape input past with ⟨hno, hnil, _⟩ | ⟨j0, hocc, hmin, _, hch⟩
  · rw [hnil]
    constructor
    · rintro ⟨r, hr, _⟩; simp at hr
    · rintro ⟨_, hs⟩; exact (hno _ hs).elim
  · constructor
    · rintro ⟨r, hr, rfl⟩
      exact scan_chain_start input past _ (j0 + 3) hch (by simpa using hocc) (by omega) r hr
    · rintro ⟨h3, hs⟩
      obtain ⟨j, rfl⟩ : ∃ j, n = j + 3 := ⟨n - 3, by omega⟩
      simp only [Nat.add_sub_cancel] at hs
      by_cases hlt : j < j0
      · exact (hmin j hlt hs).elim
      · by_cases heq : j = j0
        · subst heq
          cases hsc : nalu_scan input past with
          | nil => rw [hsc] at hch; exact hch.elim
          | cons r2 rest2 =>
            rw [hsc] at hch
            exact ⟨r2, by simp, hch.2.1⟩
        · have hge : j0 + 3 ≤ j := by
            by_contra hc
            exact no_straddle input (j0 + 2) j hocc.2.2 hs (by omega)
          exact scan_chain_hits input past _ (j0 + 3) hch j hge hs

/-! ## C18: the read of the type byte -/

theorem visited_records_mem (rs : List NaluRecord) :
    ∀ r, r ∈ visited_records rs → r ∈ rs := by
  induction rs with
  | nil => intro r hr; simp [visited_records] at hr
  | cons a rest ih =>
    intro r hr
    simp only [visited_records] at hr
    split at hr
    · simp only [List.mem_singleton] at hr
      subst hr; exact List.mem_cons_self _ _
    · rcases List.mem_cons.1 hr with h1 | h1
      · subst h1; exact List.mem_cons_self _ _
      · exact List.mem_cons_of_mem _ (ih r h1)

/-- The loop visits a record that starts at the end of the buffer exactly when
there is one and no record in front of it has type 0. -/
theorem visited_records_end (len : Nat) :
    ∀ rs : List NaluRecord, rs.Pairwise (fun r s => r.data < s.data) →
      (∀ r, r ∈ rs → r.data ≤ len) →
      ((∃ r, r ∈ visited_records rs ∧ r.data = len)
        ↔ ((∃ r, r ∈ rs ∧ r.data = len)
            ∧ ∀ r, r ∈ rs → r.data < len → r.nalu_type ≠ 0)) := by
  intro rs
  induction rs with
  | nil => intro _ _; simp [visited_records]
  | cons a rest ih =>
    intro hp hle
    rw [List.pairwise_cons] at hp
    obtain ⟨hlt, hp2⟩ := hp
    have ha := hle a (List.mem_cons_self _ _)
    have hrest : ∀ r, r ∈ rest → r.data ≤ len := fun r hr => hle r (List.mem_cons_of_mem _ hr)
    have ih2 := ih hp2 hrest
    by_cases hend : a.data = len
    · -- the first record is the one at the end; nothing can follow it
      have hnone : ∀ r, r ∈ rest → False := fun r hr => by
        have := hlt r hr; have := hrest r hr; omega
      constructor
      · intro _
        refine ⟨⟨a, List.mem_cons_self _ _, hend⟩, ?_⟩
        intro r hr hrl
        rcases List.mem_cons.1 hr with h1 | h1
        · subst h1; omega
        · exact (hnone r h1).elim
      · intro _
        refine ⟨a, ?_, hend⟩
        simp only [visited_records]
        split <;> simp
    · have halt : a.data < len := by omega
      by_cases h0 : a.nalu_type = 0
      · constructor
        · rintro ⟨r, hr, hrd⟩
          simp only [visited_records, if_pos h0, List.mem_singleton] at hr
          subst hr; exact (hend hrd).elim
        · rintro ⟨_, hall⟩
          exact (hall a (List.mem_cons_self _ _) halt h0).elim
      · have hv : visited_records (a :: rest) = a :: visited_records rest := by
          simp [visited_records, h0]
        rw [hv]
        constructor
        · rintro ⟨r, hr, hrd⟩
          rcases List.mem_cons.1 hr with h1 | h1
          · subst h1; exact (hend hrd).elim
          · obtain ⟨⟨s, hs, hsd⟩, hall⟩ := ih2.1 ⟨r, h1, hrd⟩
            refine ⟨⟨s, List.mem_cons_of_mem _ hs, hsd⟩, ?_⟩
            intro t ht htl
            rcases List.mem_cons.1 ht with h2 | h2
            · subst h2; exact h0
            · exact hall t h2 htl
        · rintro ⟨⟨r, hr, hrd⟩, hall⟩
          rcases List.mem_cons.1 hr with h1 | h1
          · subst h1; exact (hend hrd).elim
          · obtain ⟨s, hs, hsd⟩ := ih2.2 ⟨⟨r, h1, hrd⟩,
              fun t ht htl => hall t (List.mem_cons_of_mem _ ht) htl⟩
            exact ⟨s, List.mem_cons_of_mem _ hs, hsd⟩

/-- The records of a buffer start at increasing offsets inside or at the end
of the buffer. -/
theorem nalu_scan_order (input : List Octet) (past : Octet) :
    (nalu_scan input past).Pairwise (fun r s => r.data < s.data)
    ∧ ∀ r, r ∈ nalu_scan input past → r.data + r.nalu_len ≤ input.length := by
  rcases nalu_scan_shape input past with ⟨_, hnil, _⟩ | ⟨j0, _, _, _, hch⟩
  · rw [hnil]; exact ⟨List.Pairwise.nil, by simp⟩
  · exact ⟨(scan_chain_pairwise input past _ (j0 + 3) hch).imp (fun h => by omega),
      fun r hr => (scan_chain_bounds input past _ (j0 + 3) hch r hr).2⟩

/-- The record that starts at the end of the buffer: its payload is empty, no
start code follows it, and its type is read from the byte behind the
buffer. -/
theorem nalu_scan_at_end (input : List Octet) (past : Octet) (r : NaluRecord)
    (hr : r ∈ nalu_scan input past) (hd : r.data = input.length) :
    r.nalu_len = 0 ∧ r.next = none ∧ r.nalu_type = past.val % 32 := by
  rcases nalu_scan_shape input past with ⟨_, hnil, _⟩ | ⟨j0, _, _, _, hch⟩
  · rw [hnil] at hr; simp at hr
  · obtain ⟨_, htype, hcase⟩ := scan_chain_mem input past _ (j0 + 3) hch r hr
    have hb := (scan_chain_bounds input past _ (j0 + 3) hch r hr).2
    refine ⟨by omega, ?_, ?_⟩
    · rcases hcase with ⟨hn, _, _⟩ | ⟨j, hj, _, hj3, _⟩
      · exact hn
      · omega
    · rw [htype, land_0x1f, read_data0, hd, List.getD_eq_getElem?_getD,
        List.getElem?_eq_none (Nat.le_refl _)]
      rfl

/-- C18 as stated fails: the buffer `00 00 01 00 00 01` ends with a start
code, yet the only read of a type byte is at offset 3, inside the buffer: the
unit there has type 0 and ends the loop. -/
theorem C18_type_0_hides_the_end :
    ends_with_start_code [0, 0, 1, 0, 0, 1]
    ∧ video_reads [0, 0, 1, 0, 0, 1] 0 = [3]
    ∧ ∀ i, i ∈ video_reads [0, 0, 1, 0, 0, 1] 0 →
        i < ([0, 0, 1, 0, 0, 1] : List Octet).length := by
  decide

/-- C18 (amended): every read of a type byte is at an offset inside the buffer
or at its end; all reads are inside the buffer exactly when the buffer does not
end with a start code or a unit that starts inside the buffer has type 0 and
ends the loop; and when the buffer ends with a start code, the unit behind it
has an empty payload and a type read from the byte behind the buffer. -/
theorem C18_type_byte_reads (input : List Octet) (past : Octet) :
    (∀ i, i ∈ video_reads input past → i ≤ input.length)
    ∧ ((∀ i, i ∈ video_reads input past → i < input.length)
        ↔ (¬ ends_with_start_code input
            ∨ ∃ r, r ∈ nalu_scan input past ∧ r.data < input.length ∧ r.nalu_type = 0))
    ∧ (ends_with_start_code input →
        ∃ r, r ∈ nalu_scan input past ∧ r.data = input.length ∧ r.nalu_len = 0
          ∧ r.next = none ∧ r.nalu_type = past.val % 32) := by
  obtain ⟨hpw, hb⟩ := nalu_scan_order input past
  have hle : ∀ r, r ∈ nalu_scan input past → r.data ≤ input.length :=
    fun r hr => by have := hb r hr; omega
  have hreads : video_reads input past
      = (visited_records (nalu_scan input past)).map (fun r => r.data) :=
    video_loop_reads_eq input past _ _
  have hend := visited_records_end input.length (nalu_scan input past) hpw hle
  have hstart : (∃ r, r ∈ nalu_scan input past ∧ r.data = input.length)
      ↔ ends_with_start_code input := nalu_scan_starts input past input.length
  refine ⟨?_, ?_, ?_⟩
  · intro i hi
    rw [hreads] at hi
    obtain ⟨r, hr, rfl⟩ := List.mem_map.1 hi
    exact hle r (visited_records_mem _ r hr)
  · rw [hreads]
    constructor
    · intro hall
      by_cases he : ends_with_start_code input
      · right
        by_contra hno
        have hv : ∃ r, r ∈ visited_records (nalu_scan input past) ∧ r.data = input.length :=
          hend.2 ⟨hstart.2 he, fun r hr hlt h0 => hno ⟨r, hr, hlt, h0⟩⟩
        obtain ⟨r, hr, hrd⟩ := hv
        have := hall r.data (List.mem_map.2 ⟨r, hr, rfl⟩)
        omega
      · exact Or.inl he
    · intro hor i hi
      obtain ⟨r, hr, rfl⟩ := List.mem_map.1 hi
      have h1 := hle r (visited_records_mem _ r hr)
      by_contra hnlt
      have hrd : r.data = input.length := by omega
      obtain ⟨hex, hall⟩ := hend.1 ⟨r, hr, hrd⟩
      rcases hor with hne | ⟨s, hs, hslt, hs0⟩
      · exact hne (hstart.1 hex)
      · exact hall s hs hslt hs0
  · intro he
    obtain ⟨r, hr, hrd⟩ := hstart.2 he
    obtain ⟨h1, h2, h3⟩ := nalu_scan_at_end input past r hr hrd
    exact ⟨r, hr, hrd, h1, h2, h3⟩

/-! ## The layout of the records of the scan -/

/-- The records of the scan: the length `get_next_nalu` stores is `pos - 2` or
`pos - 3` with `pos` at least 2 or 3; the first record starts right behind the
first start code and no payload holds a byte in front of that offset; behind a
record with a successor comes the next start code, reached after three bytes,
or after four when a zero byte of the unit precedes it, and the next record
starts right behind it with no record in between; a record without successor
ends at the end of the buffer. -/
theorem nalu_scan_layout (buffer : GstBuffer) :
    (∀ r, r ∈ nalu_scan buffer.data buffer.past →
        r.data + r.nalu_len ≤ buffer.data.length)
    ∧ (∀ (t : List Octet) (n : Nat), (get_next_nalu t).1 = some n →
        ∃ pos k, n = pos + 1 ∧ (k = 2 ∨ k = 3) ∧ k ≤ pos
          ∧ (get_next_nalu t).2 = pos - k)
    ∧ (∀ j, start_code_at buffer.data j → (∀ i, i < j → ¬ start_code_at buffer.data i) →
        ((nalu_scan buffer.data buffer.past).head?).map (fun r => r.data) = some (j + 3)
        ∧ ∀ r, r ∈ nalu_scan buffer.data buffer.past → ∀ i, i < j + 3 → ¬ in_payload r i)
    ∧ (∀ r, r ∈ nalu_scan buffer.data buffer.past → ∀ n, r.next = some n →
        3 ≤ n ∧ start_code_at buffer.data (n - 3)
        ∧ (if r.data + 1 ≤ n - 3 ∧ buffer.data[n - 4]? = some 0
            then r.data + r.nalu_len + 4 = n else r.data + r.nalu_len + 3 = n)
        ∧ (∃ s, s ∈ nalu_scan buffer.data buffer.past ∧ s.data = n)
        ∧ ∀ s, s ∈ nalu_scan buffer.data buffer.past → ¬ (r.data < s.data ∧ s.data < n))
    ∧ (∀ r, r ∈ nalu_scan buffer.data buffer.past → r.next = none →
        r.data + r.nalu_len = buffer.data.length)
    ∧ (∀ r, (nalu_scan buffer.data buffer.past).getLast? = some r → r.next = none) := by
  refine ⟨(nalu_scan_order buffer.data buffer.past).2, ?_, ?_, ?_, ?_, ?_⟩
  · intro t n hn
    obtain ⟨j, hp, _, _, _, hl⟩ := get_next_nalu_some t n hn
    by_cases hz : 1 ≤ j ∧ t[j - 1]? = some 0
    · exact ⟨j + 2, 3, by omega, Or.inr rfl, by omega, by rw [hl, if_pos hz]; omega⟩
    · exact ⟨j + 2, 2, by omega, Or.inl rfl, by omega, by rw [hl, if_neg hz]; omega⟩
  · intro j hj hmin
    rcases nalu_scan_shape buffer.data buffer.past with ⟨hno, _, _⟩ | ⟨j0, hocc, hmin0, _, hch⟩
    · exact (hno j hj).elim
    · have hjj : j = j0 := by
        by_contra hne
        rcases Nat.lt_or_ge j j0 with h1 | h1
        · exact hmin0 j h1 hj
        · exact hmin j0 (by omega) hocc
      subst hjj
      constructor
      · cases hsc : nalu_scan buffer.data buffer.past with
        | nil => rw [hsc] at hch; exact hch.elim
        | cons r rest =>
          rw [hsc] at hch
          simp [hch.2.1]
      · intro r hr i hi hin
        have := (scan_chain_bounds buffer.data buffer.past _ (j + 3) hch r hr).1
        unfold in_payload at hin
        omega
  · intro r hr n hn
    have hrs := (nalu_scan_starts buffer.data buffer.past r.data).1 ⟨r, hr, rfl⟩
    rcases nalu_scan_shape buffer.data buffer.past with ⟨_, hnil, _⟩ | ⟨j0, _, _, _, hch⟩
    · rw [hnil] at hr; simp at hr
    · obtain ⟨_, _, hcase⟩ := scan_chain_mem buffer.data buffer.past _ (j0 + 3) hch r hr
      rcases hcase with ⟨hnone, _, _⟩ | ⟨j, hj, hnext, hj3, hocc, hmin, hlen⟩
      · rw [hnone] at hn; cases hn
      · rw [hnext] at hn
        simp only [Option.some.injEq] at hn
        subst hn
        have e3 : j + 3 - 3 = j := by omega
        have e4 : j + 3 - 4 = j - 1 := by omega
        rw [e3, e4]
        refine ⟨by omega, hocc, ?_, ?_, ?_⟩
        · by_cases hz : r.data + 1 ≤ j ∧ buffer.data[j - 1]? = some 0
          · rw [if_pos hz]; rw [if_pos hz] at hlen; omega
          · rw [if_neg hz]; rw [if_neg hz] at hlen; omega
        · have := (nalu_scan_starts buffer.data buffer.past (j + 3)).2
            ⟨by omega, by rw [e3]; exact hocc⟩
          exact this
        · rintro s hs ⟨h1, h2⟩
          obtain ⟨hs3, hss⟩ := (nalu_scan_starts buffer.data buffer.past s.data).1 ⟨s, hs, rfl⟩
          by_cases hge : r.data ≤ s.data - 3
          · exact hmin (s.data - 3) hge (by omega) hss
          · have hone : buffer.data[r.data - 1]? = some 1 := by
              have := hrs.2.2.2
              have e : r.data - 3 + 2 = r.data - 1 := by omega
              rwa [e] at this
            exact no_straddle buffer.data (r.data - 1) (s.data - 3) hone hss (by omega)
  · intro r hr hnone
    rcases nalu_scan_shape buffer.data buffer.past with ⟨_, hnil, _⟩ | ⟨j0, _, _, _, hch⟩
    · rw [hnil] at hr; simp at hr
    · obtain ⟨hle, _, hcase⟩ := scan_chain_mem buffer.data buffer.past _ (j0 + 3) hch r hr
      rcases hcase with ⟨_, hlen, _⟩ | ⟨j, _, hnext, _⟩
      · omega
      · rw [hnext] at hnone; cases hnone
  · intro r hlast
    rcases nalu_scan_shape buffer.data buffer.past with ⟨_, hnil, _⟩ | ⟨j0, _, _, _, hch⟩
    · rw [hnil] at hlast; simp at hlast
    · exact (scan_chain_last buffer.data buffer.past _ (j0 + 3) hch r
        (List.mem_of_getLast?_eq_some hlast)).2 hlast

/-! ## The records the render loop visits -/

/-- The units the render function sends are the visited records of type other
than 0 and 9. -/
theorem forwarded_eq_visited (rs : List NaluRecord) :
    without_type_9 (before_type_0 rs)
      = (visited_records rs).filter
          (fun r => decide (r.nalu_type ≠ 0 ∧ r.nalu_type ≠ 9)) := by
  induction rs with
  | nil => rfl
  | cons a rest ih =>
    by_cases h0 : a.nalu_type = 0
    · simp [before_type_0, without_type_9, visited_records, h0]
    · have hb : before_type_0 (a :: rest) = a :: before_type_0 rest := by
        simp [before_type_0, h0]
      have hv : visited_records (a :: rest) = a :: visited_records rest := by
        simp [visited_records, h0]
      rw [hb, hv]
      unfold without_type_9 at ih ⊢
      by_cases h9 : a.nalu_type = 9
      · rw [List.filter_cons_of_neg (by simp [h9]), List.filter_cons_of_neg (by simp [h9])]
        exact ih
      · rw [List.filter_cons_of_pos (by simp [h9]),
          List.filter_cons_of_pos (by simp [h0, h9]), ih]

theorem visited_records_head (rs : List NaluRecord) :
    (visited_records rs).head? = rs.head? := by
  cases rs with
  | nil => rfl
  | cons a rest =>
    simp only [visited_records]
    split <;> rfl

/-- A visited record of type other than 0 that has a successor: the loop
visits the successor too. -/
theorem visited_records_next (input : List Octet) (past : Octet) :
    ∀ (rs : List NaluRecord) (d : Nat), scan_chain input past d rs →
      ∀ r, r ∈ visited_records rs → r.nalu_type ≠ 0 → ∀ n, r.next = some n →
        ∃ s, s ∈ visited_records rs ∧ s.data = n := by
  intro rs
  induction rs with
  | nil => intro d h; exact h.elim
  | cons a rest ih =>
    intro d h r hr hr0 n hn
    obtain ⟨_, _, _, hcase⟩ := h
    by_cases h0 : a.nalu_type = 0
    · simp only [visited_records, if_pos h0, List.mem_singleton] at hr
      subst hr; exact (hr0 h0).elim
    · have hv : visited_records (a :: rest) = a :: visited_records rest := by
        simp [visited_records, h0]
      rw [hv] at hr ⊢
      rcases hcase with ⟨hnone, hrest, _, _⟩ | ⟨j, _, hnext, _, _, _, _, hch⟩
      · subst hrest
        simp only [visited_records, List.mem_singleton] at hr
        subst hr
        rw [hnone] at hn; cases hn
      · rcases List.mem_cons.1 hr with h1 | h1
        · subst h1
          rw [hnext] at hn
          simp only [Option.some.injEq] at hn
          cases rest with
          | nil => exact hch.elim
          | cons b rest2 =>
            refine ⟨b, List.mem_cons_of_mem _ ?_, by rw [← hn]; exact hch.2.1⟩
            simp only [visited_records]
            split <;> simp
        · obtain ⟨s, hs, hsd⟩ := ih (j + 3) hch r h1 hr0 n hn
          exact ⟨s, List.mem_cons_of_mem _ hs, hsd⟩

/-- When the last visited record has a type other than 0, the loop has
visited every record: it is the last record of the scan. -/
theorem visited_records_last (rs : List NaluRecord) :
    ∀ r, (visited_records rs).getLast? = some r → r.nalu_type ≠ 0 →
      rs.getLast? = some r := by
  induction rs with
  | nil => intro r h; simp [visited_records] at h
  | cons a rest ih =>
    intro r hr hr0
    by_cases h0 : a.nalu_type = 0
    · simp only [visited_records, if_pos h0, List.getLast?_singleton,
        Option.some.injEq] at hr
      subst hr; exact (hr0 h0).elim
    · have hv : visited_records (a :: rest) = a :: visited_records rest := by
        simp [visited_records, h0]
      rw [hv] at hr
      cases rest with
      | nil => simpa [visited_records] using hr
      | cons b rest2 =>
        have hne : ∃ c cs, visited_records (b :: rest2) = c :: cs := by
          simp only [visited_records]
          split
          · exact ⟨_, _, rfl⟩
          · exact ⟨_, _, rfl⟩
        obtain ⟨c, cs, hcs⟩ := hne
        rw [hcs, List.getLast?_cons_cons, ← hcs] at hr
        rw [List.getLast?_cons_cons]
        exact ih r hr hr0

/-! ## C19: the layout of the payload ranges -/

/-- C19 as stated fails: the buffer `00 00 01 20 00 00 01 65` holds start
codes, the unit at offset 3 has type 0 and ends the loop, so the only payload
range the loop produces is that of the unit at offset 3, of length 1; it ends
at offset 4 and not at the end of the buffer, and nothing is sent. -/
theorem C19_type_0_cuts_the_ranges :
    start_code_at [0, 0, 1, 0x20, 0, 0, 1, 0x65] 0
    ∧ video_reads [0, 0, 1, 0x20, 0, 0, 1, 0x65] 0 = [3]
    ∧ visited_records (nalu_scan [0, 0, 1, 0x20, 0, 0, 1, 0x65] 0)
        = [{ data := 3, nalu_len := 1, nalu_type := 0, next := some 7 }]
    ∧ 3 + 1 ≠ ([0, 0, 1, 0x20, 0, 0, 1, 0x65] : List Octet).length
    ∧ gst_ftl_video_sink_render provider_ok (fun t => t) sink_connected
        (frame_of [0, 0, 1, 0x20, 0, 0, 1, 0x65])
      = some (GstFlowReturn.GST_FLOW_ERROR,
          { connected := true, calls := []
            errors := [ElementError.invalid_nalu_type_0] }) := by
  decide

/-- C19 (amended): once the gate, the timestamp check and the mapping have
passed, the render function returns and its loop reads the units
`visited_records`, those of the scan up to the first unit of type 0.  Their
payload ranges lie inside the buffer; the length `get_next_nalu` stores is
`pos - 2` or `pos - 3` with `pos` at least 2 or 3, so no subtraction wraps; the
first range starts right behind the first start code and no range holds a byte
in front of that offset; the calls added are exactly the sends of the visited
units of type other than 0 and 9, with their ranges, and a visited unit of
type 0 makes the call fail; behind a visited unit with a successor comes the
next start code, reached after three bytes, or after four when a zero byte of
the unit precedes it, the next unit starts right behind it with none in
between, and it is visited too unless the unit has type 0; and the last
visited unit ends at the end of the buffer unless it has type 0. -/
theorem C19_loop_payload_layout (p : Provider) (segment : Nat → Nat)
    (parent : GstFtlSink) (buffer : GstBuffer) (t : Nat)
    (hc : (gst_ftl_sink_connect p parent).1 = true) (hd : buffer.dts = some t)
    (hm : buffer.mappable = true) :
    video_reads buffer.data buffer.past
        = (visited_records (nalu_scan buffer.data buffer.past)).map (fun r => r.data)
    ∧ (∀ r, r ∈ visited_records (nalu_scan buffer.data buffer.past) →
        r.data + r.nalu_len ≤ buffer.data.length)
    ∧ (∀ (u : List Octet) (n : Nat), (get_next_nalu u).1 = some n →
        ∃ pos k, n = pos + 1 ∧ (k = 2 ∨ k = 3) ∧ k ≤ pos
          ∧ (get_next_nalu u).2 = pos - k)
    ∧ (∀ j, start_code_at buffer.data j → (∀ i, i < j → ¬ start_code_at buffer.data i) →
        ((visited_records (nalu_scan buffer.data buffer.past)).head?).map (fun r => r.data)
          = some (j + 3)
        ∧ ∀ r, r ∈ visited_records (nalu_scan buffer.data buffer.past) →
            ∀ i, i < j + 3 → ¬ in_payload r i)
    ∧ (∃ ret q, gst_ftl_video_sink_render p segment parent buffer = some (ret, q)
        ∧ q.calls = (gst_ftl_sink_connect p parent).2.calls
            ++ ((visited_records (nalu_scan buffer.data buffer.past)).filter
                  (fun r => decide (r.nalu_type ≠ 0 ∧ r.nalu_type ≠ 9))).map
                (fun r => ProviderCall.send_media_dts ftl_media_data_type_t.FTL_VIDEO_DATA
                  (gst_util_uint64_scale_round (segment t) 1 GST_USECOND)
                  r.data r.nalu_len r.next.isNone)
        ∧ ((∃ r, r ∈ visited_records (nalu_scan buffer.data buffer.past)
              ∧ r.nalu_type = 0) →
            ret = GstFlowReturn.GST_FLOW_ERROR
            ∧ q.errors = (gst_ftl_sink_connect p parent).2.errors
                ++ [ElementError.invalid_nalu_type_0]))
    ∧ (∀ r, r ∈ visited_records (nalu_scan buffer.data buffer.past) →
        ∀ n, r.next = some n →
        3 ≤ n ∧ start_code_at buffer.data (n - 3)
        ∧ (if r.data + 1 ≤ n - 3 ∧ buffer.data[n - 4]? = some 0
            then r.data + r.nalu_len + 4 = n else r.data + r.nalu_len + 3 = n)
        ∧ (r.nalu_type ≠ 0 →
            ∃ s, s ∈ visited_records (nalu_scan buffer.data buffer.past) ∧ s.data = n)
        ∧ ∀ s, s ∈ visited_records (nalu_scan buffer.data buffer.past) →
            ¬ (r.data < s.data ∧ s.data < n))
    ∧ (∀ r, (visited_records (nalu_scan buffer.data buffer.past)).getLast? = some r →
        r.nalu_type ≠ 0 →
        r.next = none ∧ r.data + r.nalu_len = buffer.data.length) := by
  obtain ⟨hbound, hwrap, hfirst, hgap, hend, hlast⟩ := nalu_scan_layout buffer
  have hsub := visited_records_mem (nalu_scan buffer.data buffer.past)
  refine ⟨video_loop_reads_eq buffer.data buffer.past _ _,
    fun r hr => hbound r (hsub r hr), hwrap, ?_, ?_, ?_, ?_⟩
  · intro j hj hmin
    obtain ⟨h1, h2⟩ := hfirst j hj hmin
    refine ⟨by rw [visited_records_head]; exact h1, fun r hr => h2 r (hsub r hr)⟩
  · have hcases := video_render_cases p segment parent buffer t hc hd hm
    rw [forwarded_eq_visited] at hcases
    have hall : (∃ r, r ∈ visited_records (nalu_scan buffer.data buffer.past)
          ∧ r.nalu_type = 0) →
        ¬ (nalu_scan buffer.data buffer.past).all (fun r => decide (r.nalu_type ≠ 0))
          = true := by
      rintro ⟨r, hr, hr0⟩ hcon
      exact (all_type_ne_0 _).1 hcon r (hsub r hr) hr0
    by_cases h0 : (nalu_scan buffer.data buffer.past).all
        (fun r => decide (r.nalu_type ≠ 0)) = true
    · rw [if_pos h0] at hcases
      by_cases hz : (nalu_scan buffer.data buffer.past).length % 2 ^ 32 = 0
      · rw [if_pos hz] at hcases
        exact ⟨_, _, hcases, rfl, fun h => (hall h h0).elim⟩
      · rw [if_neg hz] at hcases
        exact ⟨_, _, hcases, rfl, fun h => (hall h h0).elim⟩
    · rw [if_neg h0] at hcases
      exact ⟨_, _, hcases, rfl, fun _ => ⟨rfl, rfl⟩⟩
  · intro r hr n hn
    obtain ⟨h1, h2, h3, _, h5⟩ := hgap r (hsub r hr) n hn
    refine ⟨h1, h2, h3, ?_, fun s hs => h5 s (hsub s hs)⟩
    intro hr0
    rcases nalu_scan_shape buffer.data buffer.past with ⟨_, hnil, _⟩ | ⟨j0, _, _, _, hch⟩
    · rw [hnil] at hr; simp [visited_records] at hr
    · exact visited_records_next buffer.data buffer.past _ (j0 + 3) hch r hr hr0 n hn
  · intro r hr hr0
    have hl := visited_records_last _ r hr hr0
    have hnone := hlast r hl
    exact ⟨hnone, hend r (List.mem_of_getLast?_eq_some hl) hnone⟩

/-- C19, witness: the frame `00 00 01 09 | 00 00 00 01 67 42 | 00 00 01 65` on
a connected session: three units are visited, the two of type other than 9 are
sent with their ranges, [8, 10) and [13, 14). -/
theorem C19_loop_payload_layout_witness :
    (gst_ftl_sink_connect provider_ok sink_connected).1 = true
    ∧ (frame_of [0, 0, 1, 9, 0, 0, 0, 1, 0x67, 0x42, 0, 0, 1, 0x65]).dts = some 0
    ∧ (frame_of [0, 0, 1, 9, 0, 0, 0, 1, 0x67, 0x42, 0, 0, 1, 0x65]).mappable = true
    ∧ visited_records (nalu_scan [0, 0, 1, 9, 0, 0, 0, 1, 0x67, 0x42, 0, 0, 1, 0x65] 0)
        = [{ data := 3, nalu_len := 1, nalu_type := 9, next := some 8 },
           { data := 8, nalu_len := 2, nalu_type := 7, next := some 13 },
           { data := 13, nalu_len := 1, nalu_type := 5, next := none }]
    ∧ gst_ftl_video_sink_render provider_ok (fun t => t) sink_connected
        (frame_of [0, 0, 1, 9, 0, 0, 0, 1, 0x67, 0x42, 0, 0, 1, 0x65])
      = some (GstFlowReturn.GST_FLOW_OK,
          { connected := true
            calls := [ProviderCall.send_media_dts ftl_media_data_type_t.FTL_VIDEO_DATA
                0 8 2 false,
              ProviderCall.send_media_dts ftl_media_data_type_t.FTL_VIDEO_DATA
                0 13 1 true]
            errors := [] })
    ∧ video_reads (frame_of [0, 0, 1, 9, 0, 0, 0, 1, 0x67, 0x42, 0, 0, 1, 0x65]).data
          (frame_of [0, 0, 1, 9, 0, 0, 0, 1, 0x67, 0x42, 0, 0, 1, 0x65]).past
        = (visited_records (nalu_scan
            (frame_of [0, 0, 1, 9, 0, 0, 0, 1, 0x67, 0x42, 0, 0, 1, 0x65]).data
            (frame_of [0, 0, 1, 9, 0, 0, 0, 1, 0x67, 0x42, 0, 0, 1, 0x65]).past)).map
          (fun r => r.data) :=
  ⟨by decide, rfl, rfl, by decide, by decide,
    (C19_loop_payload_layout provider_ok (fun t => t) sink_connected
      (frame_of [0, 0, 1, 9, 0, 0, 0, 1, 0x67, 0x42, 0, 0, 1, 0x65]) 0
      (by decide) rfl rfl).1⟩

/-! ## C21: the timestamps of the two senders -/

/-- C21: for a running time `rt` below `2 ^ 64` nanoseconds the video sender
passes `(rt + 500) / 1000` microseconds (`gst_util_uint64_scale_round`, to
nearest) and the audio sender passes `rt / 1000` (`GST_TIME_AS_USECONDS`,
truncated); the two are equal exactly when `rt % 1000 < 500`, and otherwise
the video timestamp is larger by one.  For a buffer whose running time is `rt`
the video render function adds exactly one send per visited unit of type other
than 0 and 9, each with the timestamp `(rt + 500) / 1000`, and the audio
render function returns `GST_FLOW_OK` after exactly one send, with the
timestamp `rt / 1000`. -/
theorem C21_timestamps (rt : Nat) (h : rt < 2 ^ 64) :
    gst_util_uint64_scale_round rt 1 GST_USECOND = (rt + 500) / 1000
    ∧ GST_TIME_AS_USECONDS rt = rt / 1000
    ∧ (gst_util_uint64_scale_round rt 1 GST_USECOND = GST_TIME_AS_USECONDS rt
        ↔ rt % 1000 < 500)
    ∧ (¬ rt % 1000 < 500 →
        gst_util_uint64_scale_round rt 1 GST_USECOND = GST_TIME_AS_USECONDS rt + 1)
    ∧ (∀ (p : Provider) (segment : Nat → Nat) (parent : GstFtlSink) (buffer : GstBuffer)
        (t : Nat), (gst_ftl_sink_connect p parent).1 = true →
        buffer.dts = some t → buffer.mappable = true → segment t = rt →
        ∃ ret q, gst_ftl_video_sink_render p segment parent buffer = some (ret, q)
          ∧ q.calls = (gst_ftl_sink_connect p parent).2.calls
              ++ ((visited_records (nalu_scan buffer.data buffer.past)).filter
                    (fun r => decide (r.nalu_type ≠ 0 ∧ r.nalu_type ≠ 9))).map
                  (fun r =>
                    ProviderCall.send_media_dts ftl_media_data_type_t.FTL_VIDEO_DATA
                      ((rt + 500) / 1000) r.data r.nalu_len r.next.isNone))
    ∧ (∀ (p : Provider) (segment : Nat → Nat) (parent : GstFtlSink) (buffer : GstBuffer)
        (t : Nat), (gst_ftl_sink_connect p parent).1 = true →
        GST_BUFFER_DTS_OR_PTS buffer = some t → buffer.mappable = true →
        segment t = rt →
        gst_ftl_audio_sink_render p segment parent buffer
          = (GstFlowReturn.GST_FLOW_OK,
              { (gst_ftl_sink_connect p parent).2 with
                calls := (gst_ftl_sink_connect p parent).2.calls
                  ++ [ProviderCall.send_media_dts ftl_media_data_type_t.FTL_AUDIO_DATA
                        (rt / 1000) 0 buffer.data.length true] })) := by
  have hv : gst_util_uint64_scale_round rt 1 GST_USECOND = (rt + 500) / 1000 := by
    unfold gst_util_uint64_scale_round GST_USECOND
    have : (rt * 1 + 1000 / 2) / 1000 = (rt + 500) / 1000 := by norm_num
    rw [this]
    exact Nat.min_eq_left (by omega)
  have ha : GST_TIME_AS_USECONDS rt = rt / 1000 := rfl
  refine ⟨hv, ha, ?_, ?_, ?_, ?_⟩
  · rw [hv, ha]; omega
  · intro hge; rw [hv, ha]; omega
  · intro p segment parent buffer t hc hd hm hseg
    have hcases := video_render_cases p segment parent buffer t hc hd hm
    rw [forwarded_eq_visited, hseg] at hcases
    have hmap : ∀ rs : List NaluRecord, rs.map (video_send_call rt)
        = rs.map (fun r =>
            ProviderCall.send_media_dts ftl_media_data_type_t.FTL_VIDEO_DATA
              ((rt + 500) / 1000) r.data r.nalu_len r.next.isNone) := by
      intro rs
      apply List.map_congr_left
      intro r _
      unfold video_send_call
      rw [hv]
    rw [hmap] at hcases
    rw [hcases]
    split
    · split
      · exact ⟨_, _, rfl, rfl⟩
      · exact ⟨_, _, rfl, rfl⟩
    · exact ⟨_, _, rfl, rfl⟩
  · intro p segment parent buffer t hc hd hm hseg
    simp [gst_ftl_audio_sink_render, hc, hd, hm, hseg, GST_TIME_AS_USECONDS]

/-- C21, witness: a buffer with running time 1500 ns holding `00 00 01 65`, on
a connected session: the video render function sends the unit with the
timestamp 2 µs, the audio render function sends the buffer with the timestamp
1 µs. -/
theorem C21_timestamps_witness :
    (1500 : Nat) < 2 ^ 64
    ∧ gst_ftl_video_sink_render provider_ok (fun t => t) sink_connected
        { dts := some 1500, pts := none, mappable := true, data := [0, 0, 1, 0x65],
          past := 0 }
      = some (GstFlowReturn.GST_FLOW_OK,
          { connected := true
            calls := [ProviderCall.send_media_dts ftl_media_data_type_t.FTL_VIDEO_DATA
              2 3 1 true]
            errors := [] })
    ∧ gst_ftl_audio_sink_render provider_ok (fun t => t) sink_connected
        { dts := some 1500, pts := none, mappable := true, data := [0, 0, 1, 0x65],
          past := 0 }
      = (GstFlowReturn.GST_FLOW_OK,
          { connected := true
            calls := [ProviderCall.send_media_dts ftl_media_data_type_t.FTL_AUDIO_DATA
              1 0 4 true]
            errors := [] })
    ∧ (∃ ret q, gst_ftl_video_sink_render provider_ok (fun t => t) sink_connected
          { dts := some 1500, pts := none, mappable := true, data := [0, 0, 1, 0x65],
            past := 0 } = some (ret, q)
        ∧ q.calls = (gst_ftl_sink_connect provider_ok sink_connected).2.calls
            ++ ((visited_records (nalu_scan
                    ({ dts := some 1500, pts := none, mappable := true,
                       data := [0, 0, 1, 0x65], past := 0 } : GstBuffer).data
                    ({ dts := some 1500, pts := none, mappable := true,
                       data := [0, 0, 1, 0x65], past := 0 } : GstBuffer).past)).filter
                  (fun r => decide (r.nalu_type ≠ 0 ∧ r.nalu_type ≠ 9))).map
                (fun r =>
                  ProviderCall.send_media_dts ftl_media_data_type_t.FTL_VIDEO_DATA
                    ((1500 + 500) / 1000) r.data r.nalu_len r.next.isNone))
    ∧ gst_ftl_audio_sink_render provider_ok (fun t => t) sink_connected
        { dts := some 1500, pts := none, mappable := true, data := [0, 0, 1, 0x65],
          past := 0 }
      = (GstFlowReturn.GST_FLOW_OK,
          { (gst_ftl_sink_connect provider_ok sink_connected).2 with
            calls := (gst_ftl_sink_connect provider_ok sink_connected).2.calls
              ++ [ProviderCall.send_media_dts ftl_media_data_type_t.FTL_AUDIO_DATA
                    (1500 / 1000) 0
                    ({ dts := some 1500, pts := none, mappable := true,
                       data := [0, 0, 1, 0x65], past := 0 } : GstBuffer).data.length
                    true] }) :=
  ⟨by decide, by decide, by decide,
    (C21_timestamps 1500 (by decide)).2.2.2.2.1 provider_ok (fun t => t) sink_connected
      { dts := some 1500, pts := none, mappable := true, data := [0, 0, 1, 0x65], past := 0 }
      1500 (by decide) rfl rfl rfl,
    (C21_timestamps 1500 (by decide)).2.2.2.2.2 provider_ok (fun t => t) sink_connected
      { dts := some 1500, pts := none, mappable := true, data := [0, 0, 1, 0x65], past := 0 }
      1500 (by decide) rfl rfl rfl⟩

end GstFtl
